import Mathlib

/-!
# MPEG-TS parser: transport packet header, adaptation field, PES header, PES assembler

Shallow embedding of `tsTransportStream.h`, `tsTransportStream.cpp` and of the
`AssemblingFinished` case of `main` in `MPEG-TS-Parser.cpp`.

Conventions of the embedding

* A buffer of `uint8_t` is a `List Byte`; a pointer to it is an
  `Option (List Byte)`, `none` being `nullptr`.  The pointer `&p[k]` is
  `some (p.drop k)`.
* Member functions take the object as an argument and return the updated
  object together with their return value.
* A function that reads memory returns an `Option`: `none` means that the C++
  code would read outside the buffer or through a null pointer (undefined
  behaviour); `some r` is a normal return.
* Integer members are `Nat` (unsigned) or `Int` (signed); every store into a
  narrower C++ type is written as an explicit conversion (`u8`, `u16`, `u32`,
  `i8`, `i32`).
* `NOT_VALID` is a macro of `tsCommon.h`; that header is not among the files
  embedded here, so the functions that return `NOT_VALID` take its value as a
  parameter.
-/

namespace MpegTs

/-! ## Machine integers -/

/-- A `uint8_t` stored in a buffer. -/
abbrev Byte := Fin 256

/-- Conversion to `uint8_t`. -/
def u8 (x : Nat) : Nat := x % 256

/-- Conversion to `uint16_t`. -/
def u16 (x : Nat) : Nat := x % 65536

/-- Conversion to `uint32_t`. -/
def u32 (x : Int) : Nat := (x % 4294967296).toNat

/-- Conversion to `int8_t` (two's complement). -/
def i8 (x : Int) : Int := (x + 128) % 256 - 128

/-- Conversion to `int32_t` (two's complement). -/
def i32 (x : Int) : Int := (x + 2147483648) % 4294967296 - 2147483648

/-- The expression `x & mask` for an `int` operand `x` and a non-negative
literal `mask`: the bit pattern of `x` (two's complement, 32 bits) is combined
with the mask. -/
def andInt (x : Int) (mask : Nat) : Int := ((u32 x &&& mask : Nat) : Int)

/-- The read `Input[i]`; `none` when `i` lies outside the buffer. -/
def rd (Input : List Byte) (i : Nat) : Option Nat := (Input.get? i).map Fin.val

/-! ## class xTS -/

namespace xTS

def TS_PacketLength : Nat := 188
def TS_HeaderLength : Nat := 4
def PES_HeaderLength : Nat := 6

end xTS

/-! ## class xTS_PacketHeader -/

/-- The data members; the default values are those of the value-initialised
object `xTS_PacketHeader TS_PacketHeader{}` of `main`. -/
structure xTS_PacketHeader where
  m_SB : Nat := 0
  m_E : Nat := 0
  m_S : Nat := 0
  m_T : Nat := 0
  m_PID : Nat := 0
  m_TSC : Nat := 0
  m_AFC : Nat := 0
  m_CC : Nat := 0
  deriving DecidableEq, Repr

namespace xTS_PacketHeader

def Reset (h : xTS_PacketHeader) : xTS_PacketHeader :=
  { h with m_SB := 0, m_E := 0, m_S := 0, m_T := 0, m_PID := 0, m_TSC := 0, m_AFC := 0, m_CC := 0 }

def Parse (NOT_VALID : Int) (h : xTS_PacketHeader) (Input : Option (List Byte)) :
    Option (Int × xTS_PacketHeader) :=
  match Input with
  | none => some (NOT_VALID, h)
  | some Input =>
    (rd Input 0).bind fun b0 =>
    let h := { h with m_SB := u8 b0 }
    if h.m_SB ≠ 0x47 then
      some (NOT_VALID, h)
    else
      (rd Input 1).bind fun b1 =>
      (rd Input 2).bind fun b2 =>
      (rd Input 3).bind fun b3 =>
      some (0,
        { h with
          m_E := u8 ((b1 &&& 0b10000000) >>> 7)
          m_S := u8 ((b1 &&& 0b01000000) >>> 6)
          m_T := u8 ((b1 &&& 0b00100000) >>> 5)
          m_PID := u16 (((b1 &&& 0b00001111) <<< 8) ||| b2)
          m_TSC := u8 ((b3 &&& 0b11000000) >>> 6)
          m_AFC := u8 ((b3 &&& 0b00110000) >>> 4)
          m_CC := u8 (b3 &&& 0b00001111) })

def getSB (h : xTS_PacketHeader) : Nat := h.m_SB
def getE (h : xTS_PacketHeader) : Nat := h.m_E
def getS (h : xTS_PacketHeader) : Nat := h.m_S
def getT (h : xTS_PacketHeader) : Nat := h.m_T
def getPID (h : xTS_PacketHeader) : Nat := h.m_PID
def getTSC (h : xTS_PacketHeader) : Nat := h.m_TSC
def getAFC (h : xTS_PacketHeader) : Nat := h.m_AFC
def getCC (h : xTS_PacketHeader) : Nat := h.m_CC

def hasAdaptationField (h : xTS_PacketHeader) : Bool :=
  h.m_AFC == 0b10 || h.m_AFC == 0b11

def hasPayload (h : xTS_PacketHeader) : Bool :=
  h.m_AFC == 0b01 || h.m_AFC == 0b11

end xTS_PacketHeader

/-! ## class xTS_AdaptationField -/

/-- The data members; the default values are those of the value-initialised
object `xTS_AdaptationField TS_AdaptationField{}` of `main`. -/
structure xTS_AdaptationField where
  m_AdaptationFieldLength : Nat := 0
  m_DC : Nat := 0
  m_RA : Nat := 0
  m_SP : Nat := 0
  m_PR : Nat := 0
  m_OR : Nat := 0
  m_SF : Nat := 0
  m_TP : Nat := 0
  m_EX : Nat := 0
  deriving DecidableEq, Repr

namespace xTS_AdaptationField

def Reset (f : xTS_AdaptationField) : xTS_AdaptationField :=
  { f with
    m_AdaptationFieldLength := 0
    m_DC := 0, m_RA := 0, m_SP := 0, m_PR := 0, m_OR := 0, m_SF := 0, m_TP := 0, m_EX := 0 }

def Parse (NOT_VALID : Int) (f : xTS_AdaptationField) (PacketBuffer : Option (List Byte))
    (AdaptationFieldControl : Nat) : Option (Int × xTS_AdaptationField) :=
  match PacketBuffer with
  | none => some (NOT_VALID, f)
  | some PacketBuffer =>
    if AdaptationFieldControl ≠ 0b10 ∧ AdaptationFieldControl ≠ 0b11 then
      some (NOT_VALID, f)
    else
      (rd PacketBuffer 4).bind fun len =>
      (rd PacketBuffer 5).bind fun b5 =>
      let flags := u8 b5
      some (0,
        { f with
          m_AdaptationFieldLength := u8 len
          m_DC := u8 ((flags &&& 0b10000000) >>> 7)
          m_RA := u8 ((flags &&& 0b01000000) >>> 6)
          m_SP := u8 ((flags &&& 0b00100000) >>> 5)
          m_PR := u8 ((flags &&& 0b00010000) >>> 4)
          m_OR := u8 ((flags &&& 0b00001000) >>> 3)
          m_SF := u8 ((flags &&& 0b00000100) >>> 2)
          m_TP := u8 ((flags &&& 0b00000010) >>> 1)
          m_EX := u8 (flags &&& 0b00000001) })

def getAdaptationFieldLength (f : xTS_AdaptationField) : Nat := f.m_AdaptationFieldLength
def getDC (f : xTS_AdaptationField) : Nat := f.m_DC
def getRA (f : xTS_AdaptationField) : Nat := f.m_RA
def getSP (f : xTS_AdaptationField) : Nat := f.m_SP
def getPR (f : xTS_AdaptationField) : Nat := f.m_PR
def getOR (f : xTS_AdaptationField) : Nat := f.m_OR
def getSF (f : xTS_AdaptationField) : Nat := f.m_SF
def getTP (f : xTS_AdaptationField) : Nat := f.m_TP
def getEX (f : xTS_AdaptationField) : Nat := f.m_EX

/-- The sum `m_AdaptationFieldLength + 1` is formed in `int` and returned as
`uint32_t`. -/
def getNumBytes (f : xTS_AdaptationField) : Nat :=
  u32 ((f.m_AdaptationFieldLength : Int) + 1)

end xTS_AdaptationField

/-! ## class xPES_PacketHeader -/

/-- The data members with their default member initialisers. -/
structure xPES_PacketHeader where
  m_PacketStartCodePrefix : Nat := 0
  m_StreamId : Nat := 0
  m_PacketLength : Nat := 0
  deriving DecidableEq, Repr

namespace xPES_PacketHeader

def Reset (h : xPES_PacketHeader) : xPES_PacketHeader :=
  { h with m_PacketStartCodePrefix := 0, m_StreamId := 0, m_PacketLength := 0 }

def Parse (NOT_VALID : Int) (h : xPES_PacketHeader) (Input : Option (List Byte)) :
    Option (Int × xPES_PacketHeader) :=
  match Input with
  | none => some (NOT_VALID, h)
  | some Input =>
    (rd Input 0).bind fun b0 =>
    (rd Input 1).bind fun b1 =>
    (rd Input 2).bind fun b2 =>
    (rd Input 3).bind fun b3 =>
    (rd Input 4).bind fun b4 =>
    (rd Input 5).bind fun b5 =>
    some (0,
      { h with
        m_PacketStartCodePrefix := u32 ((((b0 <<< 16) ||| (b1 <<< 8)) ||| b2 : Nat) : Int)
        m_StreamId := u8 b3
        m_PacketLength := u16 ((b4 <<< 8) ||| b5) })

def getPacketStartCodePrefix (h : xPES_PacketHeader) : Nat := h.m_PacketStartCodePrefix
def getStreamId (h : xPES_PacketHeader) : Nat := h.m_StreamId
def getPacketLength (h : xPES_PacketHeader) : Nat := h.m_PacketLength

end xPES_PacketHeader

/-! ## class xPES_Assembler -/

inductive eResult where
  | UnexpectedPID
  | StreamPackedLost
  | AssemblingStarted
  | AssemblingContinue
  | AssemblingFinished
  deriving DecidableEq, Repr

/-- The members and their default member initialisers.  The constructor only
reserves capacity for `m_Buffer`, so a default-constructed assembler is `{}`. -/
structure xPES_Assembler where
  m_PID : Int := -1
  m_Buffer : List Byte := []
  m_DataOffset : Nat := 0
  m_LastContinuityCounter : Int := -1
  m_Started : Bool := false
  m_PESH : xPES_PacketHeader := {}
  deriving DecidableEq, Repr

namespace xPES_Assembler

def xBufferReset (a : xPES_Assembler) : xPES_Assembler :=
  { a with m_Buffer := [], m_DataOffset := 0 }

/-- The call `xBufferAppend(Data, Size)`: `Size` bytes are copied from `Data`,
so `Data` must hold at least `Size` bytes. -/
def xBufferAppend (a : xPES_Assembler) (Data : Option (List Byte)) (Size : Int) :
    Option xPES_Assembler :=
  match Data with
  | none => some a
  | some Data =>
    if Size > 0 then
      if Size.toNat ≤ Data.length then
        some { a with
          m_Buffer := a.m_Buffer ++ Data.take Size.toNat
          m_DataOffset := u32 ((a.m_DataOffset : Int) + Size) }
      else
        none
    else
      some a

def Init (a : xPES_Assembler) (PID : Int) : xPES_Assembler :=
  xBufferReset { a with m_PID := PID }

/-- The local `payloadStart` of `AbsorbPacket`; `none` when the adaptation
field is needed and its pointer is null. -/
def payloadStart (PacketHeader : xTS_PacketHeader)
    (AdaptationField : Option xTS_AdaptationField) : Option Nat :=
  if PacketHeader.hasAdaptationField then
    AdaptationField.map fun f => u32 ((xTS.TS_HeaderLength : Int) + f.getNumBytes)
  else
    some xTS.TS_HeaderLength

def AbsorbPacket (NOT_VALID : Int) (a : xPES_Assembler)
    (TransportStreamPacket : Option (List Byte)) (PacketHeader : Option xTS_PacketHeader)
    (AdaptationField : Option xTS_AdaptationField) : Option (eResult × xPES_Assembler) :=
  match TransportStreamPacket, PacketHeader with
  | none, _ => some (eResult.UnexpectedPID, a)
  | some _, none => some (eResult.UnexpectedPID, a)
  | some TransportStreamPacket, some PacketHeader =>
    if (PacketHeader.getPID : Int) ≠ a.m_PID then
      some (eResult.UnexpectedPID, a)
    else if a.m_Started = true ∧
        (PacketHeader.getCC : Int) ≠ i8 (andInt (a.m_LastContinuityCounter + 1) 0b0001111) then
      some (eResult.StreamPackedLost, xBufferReset { a with m_Started := false })
    else
      let a := { a with m_LastContinuityCounter := i8 PacketHeader.getCC }
      (payloadStart PacketHeader AdaptationField).bind fun payloadStart =>
      if PacketHeader.getS = 1 then
        if a.m_Started = true then
          let a := { a with m_Started := false }
          let a := a.xBufferReset
          let a := { a with m_PESH := a.m_PESH.Reset }
          (a.m_PESH.Parse NOT_VALID (some (TransportStreamPacket.drop payloadStart))).bind fun r =>
          let a := { a with m_PESH := r.2 }
          if r.1 = 0 then
            let a := { a with m_Started := true }
            (a.xBufferAppend (some (TransportStreamPacket.drop payloadStart))
                (i32 (u32 ((xTS.TS_PacketLength : Int) - payloadStart)))).bind fun a =>
            some (eResult.AssemblingStarted, a)
          else
            some (eResult.AssemblingFinished, a)
        else
          let a := a.xBufferReset
          let a := { a with m_PESH := a.m_PESH.Reset }
          (a.m_PESH.Parse NOT_VALID (some (TransportStreamPacket.drop payloadStart))).bind fun r =>
          let a := { a with m_PESH := r.2 }
          if r.1 = 0 then
            let a := { a with m_Started := true }
            (a.xBufferAppend (some (TransportStreamPacket.drop payloadStart))
                (i32 (u32 ((xTS.TS_PacketLength : Int) - payloadStart)))).bind fun a =>
            some (eResult.AssemblingStarted, a)
          else
            some (eResult.UnexpectedPID, a)
      else if a.m_Started = true ∧ PacketHeader.hasPayload = true then
        (a.xBufferAppend (some (TransportStreamPacket.drop payloadStart))
            (i32 (u32 ((xTS.TS_PacketLength : Int) - payloadStart)))).bind fun a =>
        if a.m_DataOffset ≥ xTS.PES_HeaderLength then
          let pesLength := u16 a.m_PESH.getPacketLength
          if pesLength > 0 ∧ a.m_DataOffset ≥ u32 ((pesLength : Int) + xTS.PES_HeaderLength) then
            some (eResult.AssemblingFinished, { a with m_Started := false })
          else
            some (eResult.AssemblingContinue, a)
        else
          some (eResult.AssemblingContinue, a)
      else
        some (eResult.UnexpectedPID, a)

def getPacket (a : xPES_Assembler) : List Byte := a.m_Buffer

def getNumPacketBytes (a : xPES_Assembler) : Int := i32 a.m_DataOffset

end xPES_Assembler

/-! ## The driver `main` -/

/-- What the `AssemblingFinished` case of `main` computes from the assembled
packet: the two locals `headerLength` and `dataLength`, and the bytes handed to
`fwrite` (`[]` when `fwrite` is not called). -/
structure Extraction where
  headerLength : Int := 0
  dataLength : Int := 0
  written : List Byte := []
  deriving DecidableEq, Repr

/-- The `AssemblingFinished` case of the `switch` in `main`, with
`pesPacket = PES_Assembler.getPacket()` and
`pesPacketLength = PES_Assembler.getNumPacketBytes()`. -/
def mainAssemblingFinished (pesPacket : List Byte) (pesPacketLength : Int) : Option Extraction :=
  if pesPacketLength ≥ 6 then
    (rd pesPacket 3).bind fun streamId =>
    (rd pesPacket 4).bind fun _ =>
    (rd pesPacket 5).bind fun _ =>
    (if (streamId ≥ 0xC0 ∧ streamId ≤ 0xDF) ∨ streamId = 0xBD then
        if pesPacketLength ≥ 9 then
          (rd pesPacket 8).bind fun pesHeaderDataLength =>
          some (i32 (9 + (pesHeaderDataLength : Int)))
        else
          some (6 : Int)
      else
        some (6 : Int)).bind fun headerLength =>
    let dataLength := i32 (pesPacketLength - headerLength)
    if dataLength > 0 ∧ headerLength < pesPacketLength then
      if headerLength.toNat + dataLength.toNat ≤ pesPacket.length then
        some { headerLength := headerLength, dataLength := dataLength
               written := (pesPacket.drop headerLength.toNat).take dataLength.toNat }
      else
        none
    else
      some { headerLength := headerLength, dataLength := dataLength, written := [] }
  else
    some { headerLength := 0, dataLength := 0, written := [] }

/-! ## Runs of the assembler -/

/-- One call `AbsorbPacket(TransportStreamPacket, &PacketHeader, AdaptationField)`
of a run: the packet bytes, the decoded header that is passed along (both
non-null) and the adaptation field pointer. -/
structure TsPacket where
  packet : List Byte
  header : xTS_PacketHeader
  adaptationField : Option xTS_AdaptationField
  deriving DecidableEq, Repr

/-- The bytes of the packet from the payload offset up to byte 187, the
payload that `AbsorbPacket` copies. -/
def TsPacket.payload (p : TsPacket) : List Byte :=
  match xPES_Assembler.payloadStart p.header p.adaptationField with
  | some off => (p.packet.drop off).take (xTS.TS_PacketLength - off)
  | none => []

/-- Feeds the packets to `AbsorbPacket` in order.  The result lists the
outcomes of the calls that returned and the state after the last packet; the
run stops with state `none` at a call whose behaviour is undefined. -/
def absorbAll (NOT_VALID : Int) (a : xPES_Assembler) :
    List TsPacket → List eResult × Option xPES_Assembler
  | [] => ([], some a)
  | p :: ps =>
    match a.AbsorbPacket NOT_VALID (some p.packet) (some p.header) p.adaptationField with
    | none => ([], none)
    | some r => ((r.1 :: (absorbAll NOT_VALID r.2 ps).1), (absorbAll NOT_VALID r.2 ps).2)

/-- A call of a member function of `xPES_Assembler` that changes the object. -/
inductive Call where
  | Init (PID : Int)
  | AbsorbPacket (TransportStreamPacket : Option (List Byte))
      (PacketHeader : Option xTS_PacketHeader) (AdaptationField : Option xTS_AdaptationField)
  deriving DecidableEq, Repr

/-- The call of `AbsorbPacket` that hands over a packet with its header. -/
def TsPacket.toCall (p : TsPacket) : Call :=
  Call.AbsorbPacket (some p.packet) (some p.header) p.adaptationField

/-- Performs the calls in order.  The result lists the outcomes of the calls of
`AbsorbPacket` that returned and the state after the last call; the run stops
with state `none` at a call whose behaviour is undefined. -/
def runCalls (NOT_VALID : Int) (a : xPES_Assembler) :
    List Call → List eResult × Option xPES_Assembler
  | [] => ([], some a)
  | Call.Init PID :: cs => runCalls NOT_VALID (a.Init PID) cs
  | Call.AbsorbPacket pkt hdr af :: cs =>
    match a.AbsorbPacket NOT_VALID pkt hdr af with
    | none => ([], none)
    | some r => ((r.1 :: (runCalls NOT_VALID r.2 cs).1), (runCalls NOT_VALID r.2 cs).2)

/-! ## The loop of the driver `main` -/

/-- The constant `audioPID` of `main`. -/
def audioPID : Nat := 136

/-- The objects of `main` that its loop changes, and the bytes written so far
to `audioFile`.  The default values are the state in which the loop is entered:
value-initialised header and adaptation field, the assembler after
`PES_Assembler.Init(audioPID)`, counters at zero and an empty output file. -/
structure mainState where
  TS_PacketHeader : xTS_PacketHeader := {}
  TS_AdaptationField : xTS_AdaptationField := {}
  PES_Assembler : xPES_Assembler := xPES_Assembler.Init {} audioPID
  TS_PacketId : Int := 0
  totalAudioPackets : Int := 0
  totalAudioBytes : Int := 0
  audioFile : List Byte := []
  deriving DecidableEq, Repr

/-- The body of the `while` loop of `main` after a complete packet has been
read into `TS_PacketBuffer`.  Output to the terminal is left out, and `fwrite`
is taken to write all the bytes it is given. -/
def mainLoopBody (NOT_VALID : Int) (st : mainState) (TS_PacketBuffer : List Byte) :
    Option mainState :=
  (st.TS_PacketHeader.Reset.Parse NOT_VALID (some TS_PacketBuffer)).bind fun r =>
  let st := { st with TS_PacketHeader := r.2 }
  if r.1 = NOT_VALID then
    some { st with TS_PacketId := i32 (st.TS_PacketId + 1) }
  else
    (if st.TS_PacketHeader.hasAdaptationField then
        (st.TS_AdaptationField.Reset.Parse NOT_VALID (some TS_PacketBuffer)
          (u8 st.TS_PacketHeader.getAFC)).bind fun q => some q.2
      else
        some st.TS_AdaptationField.Reset).bind fun af =>
    let st := { st with TS_AdaptationField := af }
    (if st.TS_PacketHeader.getPID = audioPID then
        (st.PES_Assembler.AbsorbPacket NOT_VALID (some TS_PacketBuffer)
          (some st.TS_PacketHeader) (some st.TS_AdaptationField)).bind fun res =>
        let st := { st with PES_Assembler := res.2 }
        if res.1 = eResult.AssemblingFinished then
          let pesPacket := st.PES_Assembler.getPacket
          let pesPacketLength := st.PES_Assembler.getNumPacketBytes
          (mainAssemblingFinished pesPacket pesPacketLength).bind fun e =>
          if e.dataLength > 0 ∧ e.headerLength < pesPacketLength then
            some { st with
              audioFile := st.audioFile ++ e.written
              totalAudioBytes := i32 (st.totalAudioBytes + e.dataLength)
              totalAudioPackets := i32 (st.totalAudioPackets + 1) }
          else
            some st
        else
          some st
      else
        some st).bind fun st =>
    some { st with TS_PacketId := i32 (st.TS_PacketId + 1) }

/-- The `while` loop of `main`.  The argument lists the blocks that the
successive calls of `fread` deliver; the loop ends at the first block that is
not a complete packet of 188 bytes, or when there is no more input. -/
def mainLoop (NOT_VALID : Int) (st : mainState) : List (List Byte) → Option mainState
  | [] => some st
  | TS_PacketBuffer :: rest =>
    if TS_PacketBuffer.length ≠ xTS.TS_PacketLength then
      some st
    else
      (mainLoopBody NOT_VALID st TS_PacketBuffer).bind fun st => mainLoop NOT_VALID st rest

/-- The packet with the header and the adaptation field that the loop body of
`main` decodes from it, as they are passed to `AbsorbPacket`; `none` for a
packet that the loop skips because `Parse` answers `NOT_VALID`. -/
def mainDecode (NOT_VALID : Int) (TS_PacketBuffer : List Byte) : Option TsPacket :=
  (xTS_PacketHeader.Parse NOT_VALID {} (some TS_PacketBuffer)).bind fun r =>
  if r.1 = NOT_VALID then
    none
  else
    (if r.2.hasAdaptationField then
        (xTS_AdaptationField.Parse NOT_VALID {} (some TS_PacketBuffer)
          (u8 r.2.getAFC)).bind fun q => some q.2
      else
        some {}).bind fun af =>
    some { packet := TS_PacketBuffer, header := r.2, adaptationField := some af }

/-! ## Sample streams -/

/-- A PES packet for stream id `0xC0` with declared length `L` (below 65536):
the six header bytes followed by `L` bytes `0xAA`. -/
def samplePes (L : Nat) : List Byte :=
  [0x00, 0x00, 0x01, 0xC0, Fin.ofNat (L / 256), Fin.ofNat (L % 256)] ++ List.replicate L 0xAA

/-- An assembled audio PES packet of 26 bytes: stream id `0xC0`, declared
length 20, PES header data length 5, twelve bytes of elementary stream. -/
def sampleAudioPes : List Byte :=
  [0x00, 0x00, 0x01, 0xC0, 0x00, 0x14, 0x80, 0x80, 0x05, 0x21, 0x00, 0x01, 0x00, 0x01] ++
    List.replicate 12 0xAA

/-- A transport packet for PID 136 without adaptation field
(`47 (pusi << 6) 88 (0x10 | cc)` and the payload), together with its decoded
header and the reset adaptation field that `main` passes along. -/
def sampleTs (pusi cc : Nat) (payload : List Byte) : TsPacket :=
  { packet := [0x47, Fin.ofNat (pusi * 64), 0x88, Fin.ofNat (0x10 + cc)] ++ payload
    header := { m_SB := 0x47, m_S := pusi, m_PID := 136, m_AFC := 1, m_CC := cc }
    adaptationField := some {} }

/-- The first of three packets that carry the PES packet `samplePes 546`. -/
def sampleFirst : TsPacket := sampleTs 1 14 ((samplePes 546).take 184)

/-- The two continuation packets that carry the rest of `samplePes 546`. -/
def sampleRest : List TsPacket :=
  [sampleTs 0 15 (((samplePes 546).drop 184).take 184), sampleTs 0 0 ((samplePes 546).drop 368)]

/-- Four packets with the counters 14, 15, 0, 1: a PES packet of declared length
546 spread over three packets, then the start of the next PES packet. -/
def sampleCounters : List TsPacket :=
  [sampleTs 1 14 ((samplePes 546).take 184),
   sampleTs 0 15 (((samplePes 546).drop 184).take 184),
   sampleTs 0 0 ((samplePes 546).drop 368),
   sampleTs 1 1 (samplePes 178)]

/-- Three packets with the counters 0, 1, 3 in which the packet with counter 1
completes the PES packet (declared length 362) begun by the first one. -/
def sampleGapAfterFinish : List TsPacket :=
  [sampleTs 1 0 ((samplePes 362).take 184),
   sampleTs 0 1 ((samplePes 362).drop 184),
   sampleTs 0 3 (List.replicate 184 0)]

/-- Three packets with the counters 0, 1, 3 in which the PES packet (declared
length 546) is still incomplete when the packet with counter 3 arrives. -/
def sampleGapWhileAssembling : List TsPacket :=
  [sampleTs 1 0 ((samplePes 546).take 184),
   sampleTs 0 1 (((samplePes 546).drop 184).take 184),
   sampleTs 0 3 ((samplePes 546).drop 368)]

/-- A transport packet for PID 136 with an adaptation field of length `afl`
and flag octet 0: `47 (pusi << 6) 88 ((afc << 4) | cc) afl 00` followed by
`rest` (stuffing, then payload), with its decoded header and adaptation field. -/
def sampleTsAf (pusi cc afc afl : Nat) (rest : List Byte) : TsPacket :=
  { packet :=
      [0x47, Fin.ofNat (pusi * 64), 0x88, Fin.ofNat (afc * 16 + cc), Fin.ofNat afl, 0x00] ++ rest
    header := { m_SB := 0x47, m_S := pusi, m_PID := 136, m_AFC := afc, m_CC := cc }
    adaptationField := some { m_AdaptationFieldLength := afl } }

/-- An assembler for PID 136 in the middle of a PES packet of declared length
362, with seven bytes accumulated and last continuity counter 3. -/
def sampleAssembling : xPES_Assembler :=
  { m_PID := 136, m_Buffer := [0x00, 0x00, 0x01, 0xC0, 0x01, 0x6A, 0xAA], m_DataOffset := 7
    m_LastContinuityCounter := 3, m_Started := true
    m_PESH := { m_PacketStartCodePrefix := 1, m_StreamId := 0xC0, m_PacketLength := 362 } }

/-- A finished video PES packet of 26 bytes: as `sampleAudioPes`, with stream
id `0xE0`. -/
def sampleVideoPes : List Byte :=
  [0x00, 0x00, 0x01, 0xE0, 0x00, 0x14, 0x80, 0x80, 0x05, 0x21, 0x00, 0x01, 0x00, 0x01] ++
    List.replicate 12 0xAA

/-- A 188-byte packet for PID 136 with payload unit start, adaptation field
control 3 and adaptation field length 183, so that the payload offset is 188. -/
def sampleOverrun : List Byte :=
  [0x47, 0x40, 0x88, 0x30, 0xB7, 0x00] ++ List.replicate 182 0xFF

/-- A transport packet for PID 137 with payload unit start. -/
def sampleForeign (cc : Nat) : TsPacket :=
  { packet := [0x47, 0x40, 0x89, Fin.ofNat (0x10 + cc)] ++ List.replicate 184 0x55
    header := { m_SB := 0x47, m_S := 1, m_PID := 137, m_AFC := 1, m_CC := cc }
    adaptationField := some {} }

/-- The continuation packet number `i` of `sampleUnbounded`: counter
`(i + 1) mod 16` and 184 payload bytes. -/
def sampleContinuation (i : Nat) : TsPacket :=
  sampleTs 0 ((i + 1) % 16) (List.replicate 184 0xAA)

/-- The start of a PES packet of declared length 0 (unbounded) with counter 0,
followed by `n` continuation packets and no further payload unit start. -/
def sampleUnbounded (n : Nat) : List TsPacket :=
  sampleTs 1 0 (samplePes 0 ++ List.replicate 178 0xAA) ::
    (List.range n).map sampleContinuation

/-- An audio PES packet of declared length 300 (306 bytes): stream id `0xC0`,
PES header data length 5, 292 bytes of elementary stream. -/
def samplePes300 : List Byte :=
  [0x00, 0x00, 0x01, 0xC0, 0x01, 0x2C, 0x80, 0x80, 0x05, 0x21, 0x00, 0x01, 0x00, 0x01] ++
    List.replicate 292 0xAA

/-- Three 188-byte packets for PID 136 with the counters 0, 1, 2 that carry
`samplePes300` in payloads of 184, 100 and 22 bytes; the second and the third
are filled up by adaptation fields of length 83 and 161. -/
def sampleStream300 : List (List Byte) :=
  [(sampleTs 1 0 (samplePes300.take 184)).packet,
   (sampleTsAf 0 1 3 83 (List.replicate 82 0xFF ++ (samplePes300.drop 184).take 100)).packet,
   (sampleTsAf 0 2 3 161 (List.replicate 160 0xFF ++ samplePes300.drop 284)).packet]

/-! # Properties -/

/-! ## Bit manipulation -/

theorem shiftRight_land (a m k : Nat) : (a &&& m) >>> k = (a >>> k) &&& (m >>> k) := by
  apply Nat.eq_of_testBit_eq
  intro i
  simp [Nat.testBit_shiftRight, Nat.testBit_and]

/-- Masking a bit field and shifting it down extracts `j` bits starting at bit `k`. -/
theorem land_shiftRight_field (a m k j : Nat) (hm : m >>> k = 2 ^ j - 1) :
    (a &&& m) >>> k = a / 2 ^ k % 2 ^ j := by
  rw [shiftRight_land, hm, Nat.and_pow_two_sub_one_eq_mod, Nat.shiftRight_eq_div_pow]

theorem shiftLeft8_lor (a b : Nat) (hb : b < 256) : (a <<< 8) ||| b = a * 256 + b := by
  rw [Nat.shiftLeft_eq, Nat.mul_comm, ← Nat.mul_add_lt_is_or (by simpa using hb)]

theorem shiftLeft16_lor (a b : Nat) (hb : b < 65536) : (a <<< 16) ||| b = a * 65536 + b := by
  rw [Nat.shiftLeft_eq, Nat.mul_comm, ← Nat.mul_add_lt_is_or (by simpa using hb)]

theorem u8_of_lt (x : Nat) (h : x < 256) : u8 x = x := Nat.mod_eq_of_lt h

theorem u8_bit (x : Nat) : u8 (x % 2) = x % 2 :=
  Nat.mod_eq_of_lt (Nat.lt_of_lt_of_le (Nat.mod_lt x (by decide)) (by decide))

theorem rd_cons_zero (b : Byte) (l : List Byte) : rd (b :: l) 0 = some b.val := rfl

theorem rd_cons_succ (b : Byte) (l : List Byte) (i : Nat) : rd (b :: l) (i + 1) = rd l i := by
  simp [rd]

/-! ## xTS_PacketHeader -/

/-- The normal path of `Parse`, in closed form. -/
theorem xTS_PacketHeader.Parse_sync (NOT_VALID : Int) (h0 : xTS_PacketHeader)
    (b1 b2 b3 : Byte) (rest : List Byte) :
    xTS_PacketHeader.Parse NOT_VALID h0 (some (0x47 :: b1 :: b2 :: b3 :: rest)) =
      some (0,
        { m_SB := 0x47
          m_E := u8 ((b1.val &&& 0b10000000) >>> 7)
          m_S := u8 ((b1.val &&& 0b01000000) >>> 6)
          m_T := u8 ((b1.val &&& 0b00100000) >>> 5)
          m_PID := u16 (((b1.val &&& 0b00001111) <<< 8) ||| b2.val)
          m_TSC := u8 ((b3.val &&& 0b11000000) >>> 6)
          m_AFC := u8 ((b3.val &&& 0b00110000) >>> 4)
          m_CC := u8 (b3.val &&& 0b00001111) }) := by
  rfl

/-- The packet identifier stored by `Parse` is built from the low four bits of
byte 1 only, so it is always below 4096. -/
theorem xTS_PacketHeader.Parse_PID (NOT_VALID : Int) (h0 h : xTS_PacketHeader)
    (b0 b1 b2 b3 : Byte) (rest : List Byte) (rc : Int) (hsync : b0 = 0x47)
    (hp : xTS_PacketHeader.Parse NOT_VALID h0 (some (b0 :: b1 :: b2 :: b3 :: rest)) = some (rc, h)) :
    h.getPID = (b1.val % 16) * 256 + b2.val ∧ h.getPID < 4096 := by
  subst hsync
  have h1 := b1.isLt
  have h2 := b2.isLt
  have hm : b1.val &&& 0b00001111 = b1.val % 16 := Nat.and_pow_two_sub_one_eq_mod b1.val 4
  rw [xTS_PacketHeader.Parse_sync] at hp
  simp only [Option.some.injEq, Prod.mk.injEq] at hp
  obtain ⟨-, rfl⟩ := hp
  simp only [xTS_PacketHeader.getPID, u16]
  rw [hm, shiftLeft8_lor _ _ h2]
  omega

/-- C1 (evaluation of the code): the packet `47 1F FF 10 00 ... 00` carries the
13-bit packet identifier `0x1FFF`; `Parse` accepts it and stores the packet
identifier `0x0FFF`, because the mask applied to byte 1 is `0b00001111`. -/
theorem C1_Parse_PID_0x1FFF :
    (xTS_PacketHeader.Parse (-1) {} (some ([0x47, 0x1F, 0xFF, 0x10] ++ List.replicate 184 0))).map
        (fun r => (r.1, r.2.getPID)) = some (0, 0x0FFF) ∧
      (((0x1F : Nat) &&& 0x1F) <<< 8) ||| 0xFF = 0x1FFF := by
  decide

/-- C2: on every 188-byte input that starts with the sync byte `0x47`, `Parse`
returns 0 and stores SB = byte 0, E, S, T = bits 7, 6, 5 of byte 1,
TSC = bits 7..6, AFC = bits 5..4 and CC = bits 3..0 of byte 3; on the parsed
header `hasAdaptationField()` holds exactly when AFC is 2 or 3 and
`hasPayload()` exactly when AFC is 1 or 3. -/
theorem C2_Parse_fields (NOT_VALID : Int) (h0 : xTS_PacketHeader) (b0 b1 b2 b3 : Byte)
    (rest : List Byte) (hlen : (b0 :: b1 :: b2 :: b3 :: rest).length = 188)
    (hsync : b0 = 0x47) :
    ∃ h : xTS_PacketHeader,
      xTS_PacketHeader.Parse NOT_VALID h0 (some (b0 :: b1 :: b2 :: b3 :: rest)) = some (0, h) ∧
      h.getSB = b0.val ∧
      h.getE = b1.val / 128 % 2 ∧
      h.getS = b1.val / 64 % 2 ∧
      h.getT = b1.val / 32 % 2 ∧
      h.getTSC = b3.val / 64 ∧
      h.getAFC = b3.val / 16 % 4 ∧
      h.getCC = b3.val % 16 ∧
      (h.hasAdaptationField = true ↔ h.getAFC = 2 ∨ h.getAFC = 3) ∧
      (h.hasPayload = true ↔ h.getAFC = 1 ∨ h.getAFC = 3) := by
  subst hsync
  have h1 := b1.isLt
  have h3 := b3.isLt
  have e7 : (b1.val &&& 0b10000000) >>> 7 = b1.val / 2 ^ 7 % 2 ^ 1 :=
    land_shiftRight_field _ _ 7 1 (by decide)
  have e6 : (b1.val &&& 0b01000000) >>> 6 = b1.val / 2 ^ 6 % 2 ^ 1 :=
    land_shiftRight_field _ _ 6 1 (by decide)
  have e5 : (b1.val &&& 0b00100000) >>> 5 = b1.val / 2 ^ 5 % 2 ^ 1 :=
    land_shiftRight_field _ _ 5 1 (by decide)
  have t6 : (b3.val &&& 0b11000000) >>> 6 = b3.val / 2 ^ 6 % 2 ^ 2 :=
    land_shiftRight_field _ _ 6 2 (by decide)
  have a4 : (b3.val &&& 0b00110000) >>> 4 = b3.val / 2 ^ 4 % 2 ^ 2 :=
    land_shiftRight_field _ _ 4 2 (by decide)
  have c0 : b3.val &&& 0b00001111 = b3.val % 2 ^ 4 := Nat.and_pow_two_sub_one_eq_mod b3.val 4
  norm_num at e7 e6 e5 t6 a4 c0
  refine ⟨_, xTS_PacketHeader.Parse_sync NOT_VALID h0 b1 b2 b3 rest, ?_⟩
  · simp only [xTS_PacketHeader.getSB, xTS_PacketHeader.getE, xTS_PacketHeader.getS,
      xTS_PacketHeader.getT, xTS_PacketHeader.getTSC, xTS_PacketHeader.getAFC,
      xTS_PacketHeader.getCC, xTS_PacketHeader.hasAdaptationField,
      xTS_PacketHeader.hasPayload, u8, e7, e6, e5, t6, a4, c0, Bool.or_eq_true, beq_iff_eq]
    exact ⟨by decide, by omega, by omega, by omega, by omega, by omega, by omega, trivial,
      trivial⟩

/-- Witness of C2 on the packet `47 41 00 37 00 ... 00` (S = 1, AFC = 3, CC = 7). -/
theorem C2_Parse_fields_witness :
    (((0x47 : Byte) :: 0x41 :: 0x00 :: 0x37 :: List.replicate 184 0).length = 188 ∧
      (0x47 : Byte) = 0x47) ∧
    ∃ h : xTS_PacketHeader,
      xTS_PacketHeader.Parse (-1) {} (some (0x47 :: 0x41 :: 0x00 :: 0x37 :: List.replicate 184 0)) =
        some (0, h) ∧
      h.getSB = (0x47 : Byte).val ∧
      h.getE = (0x41 : Byte).val / 128 % 2 ∧
      h.getS = (0x41 : Byte).val / 64 % 2 ∧
      h.getT = (0x41 : Byte).val / 32 % 2 ∧
      h.getTSC = (0x37 : Byte).val / 64 ∧
      h.getAFC = (0x37 : Byte).val / 16 % 4 ∧
      h.getCC = (0x37 : Byte).val % 16 ∧
      (h.hasAdaptationField = true ↔ h.getAFC = 2 ∨ h.getAFC = 3) ∧
      (h.hasPayload = true ↔ h.getAFC = 1 ∨ h.getAFC = 3) :=
  ⟨⟨by simp only [List.length_cons, List.length_replicate], rfl⟩,
    C2_Parse_fields (-1) {} 0x47 0x41 0x00 0x37 (List.replicate 184 0)
      (by simp only [List.length_cons, List.length_replicate]) rfl⟩

/-- C3 (counterexample): a header that was just `Reset` and is then given a
packet starting with `0x48` fails with `NOT_VALID` (here -1), but its SB is
`0x48` afterwards, not zero: the sync byte is stored before it is checked. -/
theorem C3_failed_Parse_stores_SB :
    xTS_PacketHeader.Parse (-1) (xTS_PacketHeader.Reset {}) (some (0x48 :: List.replicate 187 0)) =
        some (-1, { m_SB := 0x48, m_E := 0, m_S := 0, m_T := 0, m_PID := 0, m_TSC := 0,
                    m_AFC := 0, m_CC := 0 }) ∧
      (0x48 : Nat) ≠ 0 := by
  decide

/-- C3 (amended): for every input whose first byte is not `0x47`, `Parse` fails
with `NOT_VALID` and populates no field other than SB: on a header that was
`Reset` immediately before the call, SB holds the first byte of the input and
E, S, T, PID, TSC, AFC and CC are still zero. -/
theorem C3_Parse_bad_sync (NOT_VALID : Int) (h0 : xTS_PacketHeader) (b0 : Byte)
    (rest : List Byte) (hsync : b0 ≠ 0x47) :
    xTS_PacketHeader.Parse NOT_VALID h0.Reset (some (b0 :: rest)) =
      some (NOT_VALID, { m_SB := b0.val, m_E := 0, m_S := 0, m_T := 0, m_PID := 0, m_TSC := 0,
                         m_AFC := 0, m_CC := 0 }) := by
  have hb := b0.isLt
  have hne : b0.val ≠ 0x47 := fun h => hsync (Fin.ext h)
  have hu : u8 b0.val = b0.val := by unfold u8; omega
  simp only [xTS_PacketHeader.Parse, xTS_PacketHeader.Reset, rd_cons_zero, Option.bind, hu,
    ne_eq, hne, not_false_eq_true, if_true]

/-- Witness of the amended C3 on a packet that starts with `0x00`. -/
theorem C3_Parse_bad_sync_witness :
    (0x00 : Byte) ≠ 0x47 ∧
    xTS_PacketHeader.Parse (-1) (xTS_PacketHeader.Reset { m_SB := 0x47, m_PID := 136, m_CC := 5 })
        (some (0x00 :: List.replicate 187 0x47)) =
      some (-1, { m_SB := (0x00 : Byte).val, m_E := 0, m_S := 0, m_T := 0, m_PID := 0, m_TSC := 0,
                  m_AFC := 0, m_CC := 0 }) :=
  ⟨by decide,
    C3_Parse_bad_sync (-1) { m_SB := 0x47, m_PID := 136, m_CC := 5 } 0x00
      (List.replicate 187 0x47) (by decide)⟩

/-! ## xTS_AdaptationField -/

/-- The normal path of `xTS_AdaptationField::Parse`, in closed form. -/
theorem xTS_AdaptationField.Parse_present (NOT_VALID : Int) (f : xTS_AdaptationField)
    (afc : Nat) (hafc : afc = 0b10 ∨ afc = 0b11) (b0 b1 b2 b3 b4 b5 : Byte) (rest : List Byte) :
    xTS_AdaptationField.Parse NOT_VALID f (some (b0 :: b1 :: b2 :: b3 :: b4 :: b5 :: rest)) afc =
      some (0,
        { m_AdaptationFieldLength := b4.val
          m_DC := b5.val / 128 % 2
          m_RA := b5.val / 64 % 2
          m_SP := b5.val / 32 % 2
          m_PR := b5.val / 16 % 2
          m_OR := b5.val / 8 % 2
          m_SF := b5.val / 4 % 2
          m_TP := b5.val / 2 % 2
          m_EX := b5.val % 2 }) := by
  have raw : xTS_AdaptationField.Parse NOT_VALID f
      (some (b0 :: b1 :: b2 :: b3 :: b4 :: b5 :: rest)) afc =
      some (0,
        { m_AdaptationFieldLength := u8 b4.val
          m_DC := u8 ((u8 b5.val &&& 0b10000000) >>> 7)
          m_RA := u8 ((u8 b5.val &&& 0b01000000) >>> 6)
          m_SP := u8 ((u8 b5.val &&& 0b00100000) >>> 5)
          m_PR := u8 ((u8 b5.val &&& 0b00010000) >>> 4)
          m_OR := u8 ((u8 b5.val &&& 0b00001000) >>> 3)
          m_SF := u8 ((u8 b5.val &&& 0b00000100) >>> 2)
          m_TP := u8 ((u8 b5.val &&& 0b00000010) >>> 1)
          m_EX := u8 (u8 b5.val &&& 0b00000001) }) := by
    rcases hafc with rfl | rfl <;> rfl
  rw [raw]
  have hu5 : u8 b5.val = b5.val := u8_of_lt _ b5.isLt
  have hu4 : u8 b4.val = b4.val := u8_of_lt _ b4.isLt
  have e7 : (b5.val &&& 0b10000000) >>> 7 = b5.val / 128 % 2 :=
    land_shiftRight_field _ _ 7 1 (by decide)
  have e6 : (b5.val &&& 0b01000000) >>> 6 = b5.val / 64 % 2 :=
    land_shiftRight_field _ _ 6 1 (by decide)
  have e5 : (b5.val &&& 0b00100000) >>> 5 = b5.val / 32 % 2 :=
    land_shiftRight_field _ _ 5 1 (by decide)
  have e4 : (b5.val &&& 0b00010000) >>> 4 = b5.val / 16 % 2 :=
    land_shiftRight_field _ _ 4 1 (by decide)
  have e3 : (b5.val &&& 0b00001000) >>> 3 = b5.val / 8 % 2 :=
    land_shiftRight_field _ _ 3 1 (by decide)
  have e2 : (b5.val &&& 0b00000100) >>> 2 = b5.val / 4 % 2 :=
    land_shiftRight_field _ _ 2 1 (by decide)
  have e1 : (b5.val &&& 0b00000010) >>> 1 = b5.val / 2 % 2 :=
    land_shiftRight_field _ _ 1 1 (by decide)
  have e0 : b5.val &&& 0b00000001 = b5.val % 2 := Nat.and_one_is_mod b5.val
  rw [hu5, hu4, e7, e6, e5, e4, e3, e2, e1, e0]
  simp only [u8_bit]

/-- The failing path of `xTS_AdaptationField::Parse`: nothing is read and
nothing is stored. -/
theorem xTS_AdaptationField.Parse_absent (NOT_VALID : Int) (f : xTS_AdaptationField)
    (afc : Nat) (hafc : afc ≠ 0b10 ∧ afc ≠ 0b11) (PacketBuffer : List Byte) :
    xTS_AdaptationField.Parse NOT_VALID f (some PacketBuffer) afc = some (NOT_VALID, f) := by
  simp only [xTS_AdaptationField.Parse, hafc, and_self, if_true, ne_eq, not_false_eq_true]

/-- C9: on a (non-null) packet, `xTS_AdaptationField::Parse` returns `NOT_VALID`
exactly when `afc` is neither `0b10` nor `0b11`, and then leaves every field
unchanged; otherwise it returns 0, the length is byte 4, the eight flags are the
bits of byte 5 from the most to the least significant one (DC, RA, SP, PR, OR,
SF, TP, EX), and `getNumBytes()` is length + 1, a value in 1..256.  `NOT_VALID`
is only assumed to differ from the success code 0. -/
theorem C9_AdaptationField_Parse (NOT_VALID : Int) (hNV : NOT_VALID ≠ 0)
    (f : xTS_AdaptationField) (afc : Nat) (b0 b1 b2 b3 b4 b5 : Byte) (rest : List Byte) :
    ∃ (rc : Int) (g : xTS_AdaptationField),
      xTS_AdaptationField.Parse NOT_VALID f (some (b0 :: b1 :: b2 :: b3 :: b4 :: b5 :: rest)) afc =
        some (rc, g) ∧
      (rc = NOT_VALID ↔ (afc ≠ 0b10 ∧ afc ≠ 0b11)) ∧
      (rc = NOT_VALID → g = f) ∧
      (rc ≠ NOT_VALID →
        rc = 0 ∧
        g.getAdaptationFieldLength = b4.val ∧
        g.getDC = b5.val / 128 % 2 ∧
        g.getRA = b5.val / 64 % 2 ∧
        g.getSP = b5.val / 32 % 2 ∧
        g.getPR = b5.val / 16 % 2 ∧
        g.getOR = b5.val / 8 % 2 ∧
        g.getSF = b5.val / 4 % 2 ∧
        g.getTP = b5.val / 2 % 2 ∧
        g.getEX = b5.val % 2 ∧
        g.getNumBytes = g.getAdaptationFieldLength + 1 ∧
        1 ≤ g.getNumBytes ∧ g.getNumBytes ≤ 256) := by
  by_cases hafc : afc ≠ 0b10 ∧ afc ≠ 0b11
  · refine ⟨NOT_VALID, f, xTS_AdaptationField.Parse_absent NOT_VALID f afc hafc _, ?_, ?_, ?_⟩
    · exact ⟨fun _ => hafc, fun _ => rfl⟩
    · intro _; rfl
    · intro h; exact absurd rfl h
  · have hafc2 : afc = 0b10 ∨ afc = 0b11 := by omega
    refine ⟨0, _, xTS_AdaptationField.Parse_present NOT_VALID f afc hafc2 b0 b1 b2 b3 b4 b5 rest,
      ?_, ?_, ?_⟩
    · exact ⟨fun h => absurd h.symm hNV, fun h => absurd h hafc⟩
    · intro h; exact absurd h.symm hNV
    · intro _
      have h4 := b4.isLt
      simp only [xTS_AdaptationField.getAdaptationFieldLength, xTS_AdaptationField.getDC,
        xTS_AdaptationField.getRA, xTS_AdaptationField.getSP, xTS_AdaptationField.getPR,
        xTS_AdaptationField.getOR, xTS_AdaptationField.getSF, xTS_AdaptationField.getTP,
        xTS_AdaptationField.getEX, xTS_AdaptationField.getNumBytes, u32, true_and]
      omega

/-- Witness of C9 with `NOT_VALID = -1` on a packet whose adaptation field has
length 7 and flag octet `0x50`, parsed with `afc = 3`. -/
theorem C9_AdaptationField_Parse_witness :
    (-1 : Int) ≠ 0 ∧
    ∃ (rc : Int) (g : xTS_AdaptationField),
      xTS_AdaptationField.Parse (-1) {}
          (some (0x47 :: 0x40 :: 0x88 :: 0x35 :: 0x07 :: 0x50 :: List.replicate 182 0xFF)) 3 =
        some (rc, g) ∧
      (rc = -1 ↔ ((3 : Nat) ≠ 0b10 ∧ (3 : Nat) ≠ 0b11)) ∧
      (rc = -1 → g = {}) ∧
      (rc ≠ -1 →
        rc = 0 ∧
        g.getAdaptationFieldLength = (0x07 : Byte).val ∧
        g.getDC = (0x50 : Byte).val / 128 % 2 ∧
        g.getRA = (0x50 : Byte).val / 64 % 2 ∧
        g.getSP = (0x50 : Byte).val / 32 % 2 ∧
        g.getPR = (0x50 : Byte).val / 16 % 2 ∧
        g.getOR = (0x50 : Byte).val / 8 % 2 ∧
        g.getSF = (0x50 : Byte).val / 4 % 2 ∧
        g.getTP = (0x50 : Byte).val / 2 % 2 ∧
        g.getEX = (0x50 : Byte).val % 2 ∧
        g.getNumBytes = g.getAdaptationFieldLength + 1 ∧
        1 ≤ g.getNumBytes ∧ g.getNumBytes ≤ 256) :=
  ⟨by decide,
    C9_AdaptationField_Parse (-1) (by decide) {} 3 0x47 0x40 0x88 0x35 0x07 0x50
      (List.replicate 182 0xFF)⟩

/-! ## xPES_PacketHeader -/

/-- The three prefix bytes, combined with shifts and ors, form the 24-bit
big-endian number. -/
theorem prefix24 (b0 b1 b2 : Byte) :
    ((b0.val <<< 16) ||| (b1.val <<< 8)) ||| b2.val = b0.val * 65536 + b1.val * 256 + b2.val := by
  have h0 := b0.isLt
  have h1 := b1.isLt
  have h2 := b2.isLt
  have e1 : b1.val <<< 8 = b1.val * 256 := by rw [Nat.shiftLeft_eq]
  rw [e1, shiftLeft16_lor _ _ (by omega)]
  have e2 : b0.val * 65536 + b1.val * 256 = (b0.val * 256 + b1.val) <<< 8 := by
    rw [Nat.shiftLeft_eq]; norm_num; omega
  rw [e2, shiftLeft8_lor _ _ h2]
  omega

/-- The closed form of `xPES_PacketHeader::Parse` on a buffer of at least six bytes. -/
theorem xPES_PacketHeader.Parse_six (NOT_VALID : Int) (h0 : xPES_PacketHeader)
    (b0 b1 b2 b3 b4 b5 : Byte) (rest : List Byte) :
    xPES_PacketHeader.Parse NOT_VALID h0 (some (b0 :: b1 :: b2 :: b3 :: b4 :: b5 :: rest)) =
      some (0,
        { m_PacketStartCodePrefix := b0.val * 65536 + b1.val * 256 + b2.val
          m_StreamId := b3.val
          m_PacketLength := b4.val * 256 + b5.val }) := by
  have h0 := b0.isLt
  have h1 := b1.isLt
  have h2 := b2.isLt
  have h3 := b3.isLt
  have h4 := b4.isLt
  have h5 := b5.isLt
  have hu3 : u8 b3.val = b3.val := by unfold u8; omega
  have hl : u16 ((b4.val <<< 8) ||| b5.val) = b4.val * 256 + b5.val := by
    rw [shiftLeft8_lor _ _ h5]; unfold u16; omega
  have hp : u32 ((((b0.val <<< 16) ||| (b1.val <<< 8)) ||| b2.val : Nat) : Int) =
      b0.val * 65536 + b1.val * 256 + b2.val := by
    rw [prefix24]; unfold u32; omega
  simp only [xPES_PacketHeader.Parse, rd_cons_zero, rd_cons_succ, Option.bind, hu3, hl, hp]

/-- C10: on every (non-null) input of at least six bytes `xPES_PacketHeader::Parse`
returns 0, whatever the bytes are, and stores
startCodePrefix = (b0 << 16) | (b1 << 8) | b2, a value below 2^24,
streamId = b3 and packetLength = (b4 << 8) | b5, the big-endian 16-bit number
in 0..65535. -/
theorem C10_PES_Parse_total (NOT_VALID : Int) (h0 : xPES_PacketHeader)
    (b0 b1 b2 b3 b4 b5 : Byte) (rest : List Byte) :
    ∃ h : xPES_PacketHeader,
      xPES_PacketHeader.Parse NOT_VALID h0 (some (b0 :: b1 :: b2 :: b3 :: b4 :: b5 :: rest)) =
        some (0, h) ∧
      h.getPacketStartCodePrefix = ((b0.val <<< 16) ||| (b1.val <<< 8)) ||| b2.val ∧
      h.getPacketStartCodePrefix = b0.val * 65536 + b1.val * 256 + b2.val ∧
      h.getPacketStartCodePrefix < 2 ^ 24 ∧
      h.getStreamId = b3.val ∧
      h.getPacketLength = (b4.val <<< 8) ||| b5.val ∧
      h.getPacketLength = b4.val * 256 + b5.val ∧
      h.getPacketLength ≤ 65535 := by
  have hb0 := b0.isLt
  have h1 := b1.isLt
  have h2 := b2.isLt
  have h4 := b4.isLt
  have h5 := b5.isLt
  refine ⟨_, xPES_PacketHeader.Parse_six NOT_VALID h0 b0 b1 b2 b3 b4 b5 rest, ?_⟩
  simp only [xPES_PacketHeader.getPacketStartCodePrefix, xPES_PacketHeader.getStreamId,
    xPES_PacketHeader.getPacketLength, prefix24, shiftLeft8_lor _ _ h5, true_and]
  omega

/-! ## The driver: stripping the PES header -/

theorem rd_of_lt (l : List Byte) (i : Nat) (h : i < l.length) :
    ∃ b : Byte, rd l i = some b.val := by
  refine ⟨l.get ⟨i, h⟩, ?_⟩
  simp [rd, List.getElem?_eq_getElem h]

theorem rd_eq_none (l : List Byte) (i : Nat) (h : l.length ≤ i) : rd l i = none := by
  simp [rd, List.getElem?_eq_none h]

theorem i32_of_range (x : Int) (h1 : -2147483648 ≤ x) (h2 : x < 2147483648) : i32 x = x := by
  unfold i32; omega

/-- The final test of the `AssemblingFinished` case of `main` in closed form,
for a header length `H` and a buffer of `n` bytes. -/
theorem mainAssemblingFinished_eq (buffer : List Byte) (n H : Nat) (hlen : buffer.length = n) :
    (if 0 < (n : Int) - H ∧ (H : Int) < n then
        if ((H : Int)).toNat + ((n : Int) - H).toNat ≤ buffer.length then
          some ({ headerLength := H, dataLength := (n : Int) - H
                  written := (buffer.drop ((H : Int)).toNat).take ((n : Int) - H).toNat } :
                  Extraction)
        else none
      else some { headerLength := H, dataLength := (n : Int) - H, written := [] }) =
    some { headerLength := H, dataLength := (n : Int) - H
           written := if H < n then buffer.drop H else [] } := by
  by_cases hlt : H < n
  · have c1 : 0 < (n : Int) - H ∧ (H : Int) < n := by omega
    have c2 : ((H : Int)).toNat + ((n : Int) - H).toNat ≤ buffer.length := by omega
    have e1 : ((H : Int)).toNat = H := by omega
    have e2 : ((n : Int) - H).toNat = n - H := by omega
    rw [if_pos c1, if_pos c2, if_pos hlt, e1, e2]
    have : (buffer.drop H).take (n - H) = buffer.drop H := by
      apply List.take_of_length_le
      rw [List.length_drop]; omega
    rw [this]
  · have c1 : ¬ (0 < (n : Int) - H ∧ (H : Int) < n) := by omega
    rw [if_neg c1, if_neg hlt]

/-- C8: for a finished PES buffer of `n >= 6` bytes the driver takes the header
length 9 + buffer[8] when the stream id buffer[3] lies in 0xC0..0xDF or is 0xBD
and `n >= 9`, and 6 otherwise; if the header length is below `n` it writes
exactly the bytes buffer[headerLength .. n-1], and otherwise it writes nothing.
For stream id 0xC0 and buffer[8] = 5 the header length is 14, so the written
bytes start at offset 14 and `DataLen` is `n - 14`. -/
theorem C8_extraction (buffer : List Byte) (n : Nat) (hlen : buffer.length = n) (h6 : 6 ≤ n)
    (h31 : n < 2147483648) :
    ∃ (e : Extraction) (streamId : Nat),
      mainAssemblingFinished buffer n = some e ∧
      rd buffer 3 = some streamId ∧
      ((((0xC0 ≤ streamId ∧ streamId ≤ 0xDF) ∨ streamId = 0xBD) ∧ 9 ≤ n) →
        ∃ pesHeaderDataLength : Nat,
          rd buffer 8 = some pesHeaderDataLength ∧ e.headerLength = 9 + pesHeaderDataLength) ∧
      (¬ (((0xC0 ≤ streamId ∧ streamId ≤ 0xDF) ∨ streamId = 0xBD) ∧ 9 ≤ n) →
        e.headerLength = 6) ∧
      (e.headerLength < n →
        e.written = buffer.drop e.headerLength.toNat ∧
        (e.written.length : Int) = n - e.headerLength) ∧
      (e.headerLength ≥ n → e.written = []) ∧
      (streamId = 0xC0 → rd buffer 8 = some 5 →
        e.headerLength = 14 ∧ e.dataLength = n - 14 ∧
        e.written = buffer.drop 14 ∧ e.written.length = n - 14) := by
  obtain ⟨s3, hs3⟩ := rd_of_lt buffer 3 (by omega)
  obtain ⟨s4, hs4⟩ := rd_of_lt buffer 4 (by omega)
  obtain ⟨s5, hs5⟩ := rd_of_lt buffer 5 (by omega)
  have hn6 : (n : Int) ≥ 6 := by omega
  by_cases haudio : ((0xC0 ≤ s3.val ∧ s3.val ≤ 0xDF) ∨ s3.val = 0xBD) ∧ 9 ≤ n
  · obtain ⟨s8, hs8⟩ := rd_of_lt buffer 8 (by omega)
    have h8 := s8.isLt
    have hn9 : (n : Int) ≥ 9 := by omega
    have hcls : (s3.val ≥ 0xC0 ∧ s3.val ≤ 0xDF) ∨ s3.val = 0xBD := haudio.1
    have hH : i32 (9 + (s8.val : Int)) = ((9 + s8.val : Nat) : Int) := by
      rw [i32_of_range _ (by omega) (by omega)]; omega
    have hD : i32 ((n : Int) - ((9 + s8.val : Nat) : Int)) = (n : Int) - ((9 + s8.val : Nat) : Int) :=
      i32_of_range _ (by omega) (by omega)
    have hval : mainAssemblingFinished buffer n =
        some { headerLength := ((9 + s8.val : Nat) : Int)
               dataLength := (n : Int) - ((9 + s8.val : Nat) : Int)
               written := if 9 + s8.val < n then buffer.drop (9 + s8.val) else [] } := by
      unfold mainAssemblingFinished
      rw [if_pos hn6, hs3, hs4, hs5]
      simp only [Option.bind]
      rw [if_pos hcls, if_pos hn9, hs8]
      simp only [Option.bind]
      rw [hH, hD]
      exact mainAssemblingFinished_eq buffer n (9 + s8.val) hlen
    refine ⟨_, s3.val, hval, hs3, ?_, ?_, ?_, ?_, ?_⟩
    · intro _; exact ⟨s8.val, hs8, by push_cast; rfl⟩
    · intro h; exact absurd haudio h
    · intro h
      have hlt : 9 + s8.val < n := by
        have h2 : ((9 + s8.val : Nat) : Int) < n := h
        omega
      simp only [if_pos hlt, List.length_drop]
      constructor
      · congr 1
      · push_cast; omega
    · intro h
      have hlt : ¬ (9 + s8.val < n) := by
        have h2 : ((9 + s8.val : Nat) : Int) ≥ n := h
        omega
      simp only [if_neg hlt]
    · intro _ h5
      rw [hs8] at h5
      have e5 : s8.val = 5 := by simpa using h5
      simp only [e5, List.length_drop] 
      refine ⟨by norm_num, by norm_num, ?_, ?_⟩
      · by_cases hlt : 9 + 5 < n
        · simp only [if_pos hlt]
        · simp only [if_neg hlt]
          exact (List.drop_of_length_le (by omega)).symm
      · by_cases hlt : 9 + 5 < n
        · simp only [if_pos hlt, List.length_drop]; omega
        · simp only [if_neg hlt, List.length_nil]; omega
  · have hval : mainAssemblingFinished buffer n =
        some { headerLength := ((6 : Nat) : Int)
               dataLength := (n : Int) - ((6 : Nat) : Int)
               written := if 6 < n then buffer.drop 6 else [] } := by
      have hD : i32 ((n : Int) - 6) = (n : Int) - ((6 : Nat) : Int) := by
        rw [i32_of_range _ (by omega) (by omega)]; rfl
      by_cases hcls : (s3.val ≥ 0xC0 ∧ s3.val ≤ 0xDF) ∨ s3.val = 0xBD
      · have hn9 : ¬ ((n : Int) ≥ 9) := by
          intro h; exact haudio ⟨hcls, by omega⟩
        unfold mainAssemblingFinished
        rw [if_pos hn6, hs3, hs4, hs5]
        simp only [Option.bind]
        rw [if_pos hcls, if_neg hn9]
        simp only [Option.bind]
        rw [hD]
        exact mainAssemblingFinished_eq buffer n 6 hlen
      · unfold mainAssemblingFinished
        rw [if_pos hn6, hs3, hs4, hs5]
        simp only [Option.bind]
        rw [if_neg hcls]
        simp only [Option.bind]
        rw [hD]
        exact mainAssemblingFinished_eq buffer n 6 hlen
    refine ⟨_, s3.val, hval, hs3, ?_, ?_, ?_, ?_, ?_⟩
    · intro h; exact absurd h haudio
    · intro _; rfl
    · intro h
      have hlt : 6 < n := by
        have h2 : ((6 : Nat) : Int) < n := h
        omega
      simp only [if_pos hlt, List.length_drop]
      constructor
      · congr 1
      · push_cast; omega
    · intro h
      have hlt : ¬ (6 < n) := by
        have h2 : ((6 : Nat) : Int) ≥ n := h
        omega
      simp only [if_neg hlt]
    · intro hc h5
      exfalso
      apply haudio
      refine ⟨Or.inl (by omega), ?_⟩
      by_contra hn9
      rw [rd_eq_none buffer 8 (by omega)] at h5
      exact absurd h5 (by simp)

/-- Witness of C8 on `sampleAudioPes` (26 bytes, stream id `0xC0`, byte 8 equal
to 5): the header length is 14 and the twelve bytes from offset 14 are written. -/
theorem C8_extraction_witness :
    (sampleAudioPes.length = 26 ∧ 6 ≤ 26 ∧ 26 < 2147483648) ∧
    ∃ (e : Extraction) (streamId : Nat),
      mainAssemblingFinished sampleAudioPes ((26 : Nat) : Int) = some e ∧
      rd sampleAudioPes 3 = some streamId ∧
      ((((0xC0 ≤ streamId ∧ streamId ≤ 0xDF) ∨ streamId = 0xBD) ∧ 9 ≤ 26) →
        ∃ pesHeaderDataLength : Nat,
          rd sampleAudioPes 8 = some pesHeaderDataLength ∧
            e.headerLength = 9 + pesHeaderDataLength) ∧
      (¬ (((0xC0 ≤ streamId ∧ streamId ≤ 0xDF) ∨ streamId = 0xBD) ∧ 9 ≤ 26) →
        e.headerLength = 6) ∧
      (e.headerLength < ((26 : Nat) : Int) →
        e.written = sampleAudioPes.drop e.headerLength.toNat ∧
        (e.written.length : Int) = ((26 : Nat) : Int) - e.headerLength) ∧
      (e.headerLength ≥ ((26 : Nat) : Int) → e.written = []) ∧
      (streamId = 0xC0 → rd sampleAudioPes 8 = some 5 →
        e.headerLength = 14 ∧ e.dataLength = ((26 : Nat) : Int) - 14 ∧
        e.written = sampleAudioPes.drop 14 ∧ e.written.length = 26 - 14) :=
  ⟨⟨by decide, by decide, by decide⟩,
    C8_extraction sampleAudioPes 26 (by decide) (by decide) (by decide)⟩

/-! ## xPES_Assembler: single calls -/

/-- The expected continuity counter `(m_LastContinuityCounter + 1) & 0b0001111`,
stored in an `int8_t`, is the remainder modulo 16. -/
theorem expectedCC_eq (x : Int) : i8 (andInt x 0b0001111) = x % 16 := by
  have h : u32 x &&& 0b0001111 = u32 x % 2 ^ 4 := Nat.and_pow_two_sub_one_eq_mod (u32 x) 4
  unfold andInt
  rw [h]
  unfold i8 u32
  omega

theorem i8_mod16 (c : Nat) : (i8 (c : Int) + 1) % 16 = (((c + 1) % 16 : Nat) : Int) := by
  unfold i8
  omega

/-- A packet for another PID is rejected and the assembler is left as it was. -/
theorem xPES_Assembler.AbsorbPacket_foreign (NOT_VALID : Int) (a : xPES_Assembler)
    (pkt : List Byte) (hdr : xTS_PacketHeader) (af : Option xTS_AdaptationField)
    (hpid : (hdr.getPID : Int) ≠ a.m_PID) :
    a.AbsorbPacket NOT_VALID (some pkt) (some hdr) af = some (eResult.UnexpectedPID, a) := by
  simp only [xPES_Assembler.AbsorbPacket, hpid, ne_eq, not_false_eq_true, if_true]

/-- A continuity error while assembling drops the packet in progress. -/
theorem xPES_Assembler.AbsorbPacket_lost (NOT_VALID : Int) (a : xPES_Assembler)
    (pkt : List Byte) (hdr : xTS_PacketHeader) (af : Option xTS_AdaptationField)
    (hpid : (hdr.getPID : Int) = a.m_PID) (hst : a.m_Started = true)
    (hcc : (hdr.getCC : Int) ≠ (a.m_LastContinuityCounter + 1) % 16) :
    a.AbsorbPacket NOT_VALID (some pkt) (some hdr) af =
      some (eResult.StreamPackedLost,
        { a with m_Started := false, m_Buffer := [], m_DataOffset := 0 }) := by
  have hcc2 : (hdr.getCC : Int) ≠ i8 (andInt (a.m_LastContinuityCounter + 1) 0b0001111) := by
    rw [expectedCC_eq]; exact hcc
  simp only [xPES_Assembler.AbsorbPacket, hpid, ne_eq, not_true_eq_false, if_false, hst, hcc2,
    not_false_eq_true, and_self, if_true, xPES_Assembler.xBufferReset]

theorem exists_six (l : List Byte) (h : 6 ≤ l.length) :
    ∃ (b0 b1 b2 b3 b4 b5 : Byte) (rest : List Byte),
      l = b0 :: b1 :: b2 :: b3 :: b4 :: b5 :: rest := by
  rcases l with _ | ⟨b0, _ | ⟨b1, _ | ⟨b2, _ | ⟨b3, _ | ⟨b4, _ | ⟨b5, rest⟩⟩⟩⟩⟩⟩ <;>
    simp only [List.length_nil, List.length_cons] at h <;> first | omega | skip
  exact ⟨b0, b1, b2, b3, b4, b5, rest, rfl⟩

/-- On at least six bytes `xPES_PacketHeader::Parse` returns 0 and the stored
packet length is the big-endian number in bytes 4 and 5. -/
theorem xPES_PacketHeader.Parse_of_length (NOT_VALID : Int) (h0 : xPES_PacketHeader)
    (l : List Byte) (h : 6 ≤ l.length) :
    ∃ pesh : xPES_PacketHeader,
      xPES_PacketHeader.Parse NOT_VALID h0 (some l) = some (0, pesh) ∧
      pesh.m_PacketLength < 65536 ∧
      ∀ x y : Nat, rd l 4 = some x → rd l 5 = some y → pesh.m_PacketLength = x * 256 + y := by
  obtain ⟨b0, b1, b2, b3, b4, b5, rest, rfl⟩ := exists_six l h
  refine ⟨_, xPES_PacketHeader.Parse_six NOT_VALID h0 b0 b1 b2 b3 b4 b5 rest, ?_, ?_⟩
  · have h4 := b4.isLt
    have h5 := b5.isLt
    show b4.val * 256 + b5.val < 65536
    omega
  · intro x y hx hy
    simp only [rd_cons_zero, rd_cons_succ, Option.some.injEq] at hx hy
    subst hx hy
    rfl

/-- The copy of the payload `packet[off .. 187]` into the buffer. -/
theorem xPES_Assembler.xBufferAppend_payload (a : xPES_Assembler) (pkt : List Byte) (off : Nat)
    (hlen : pkt.length = 188) (hoff : off ≤ 188)
    (hD : a.m_DataOffset + (188 - off) < 4294967296) :
    a.xBufferAppend (some (pkt.drop off)) (i32 (u32 ((xTS.TS_PacketLength : Int) - off))) =
      some { a with
        m_Buffer := a.m_Buffer ++ pkt.drop off
        m_DataOffset := a.m_DataOffset + (188 - off) } := by
  have hsz : i32 (u32 ((xTS.TS_PacketLength : Int) - off)) = ((188 - off : Nat) : Int) := by
    unfold i32 u32 xTS.TS_PacketLength
    omega
  rw [hsz]
  unfold xPES_Assembler.xBufferAppend
  by_cases hlt : off < 188
  · have c1 : ((188 - off : Nat) : Int) > 0 := by omega
    have c2 : ((188 - off : Nat) : Int).toNat ≤ (pkt.drop off).length := by
      rw [List.length_drop]; omega
    have e1 : ((188 - off : Nat) : Int).toNat = 188 - off := by omega
    have e2 : u32 ((a.m_DataOffset : Int) + ((188 - off : Nat) : Int)) =
        a.m_DataOffset + (188 - off) := by
      unfold u32; omega
    have e3 : (pkt.drop off).take (188 - off) = pkt.drop off := by
      apply List.take_of_length_le
      rw [List.length_drop]; omega
    simp only [if_pos c1, e1, e2, e3]
    rw [if_pos (by rw [List.length_drop]; omega)]
  · have e0 : off = 188 := by omega
    subst e0
    have e3 : pkt.drop 188 = [] := List.drop_of_length_le (by omega)
    simp only [e3, Nat.sub_self, Nat.cast_zero, gt_iff_lt, lt_self_iff_false, if_false,
      List.append_nil, Nat.add_zero]

/-- Start of a PES packet: a packet for the target PID that passes the
continuity check, carries the payload unit start indicator and leaves room for
the six header bytes restarts the assembly with exactly its payload bytes. -/
theorem xPES_Assembler.AbsorbPacket_start (NOT_VALID : Int) (a : xPES_Assembler)
    (pkt : List Byte) (hdr : xTS_PacketHeader) (af : Option xTS_AdaptationField) (off : Nat)
    (hpid : (hdr.getPID : Int) = a.m_PID)
    (hcc : a.m_Started = true → (hdr.getCC : Int) = (a.m_LastContinuityCounter + 1) % 16)
    (hS : hdr.getS = 1)
    (hoff : xPES_Assembler.payloadStart hdr af = some off)
    (hlen : pkt.length = 188) (hfit : off + 6 ≤ 188) :
    ∃ pesh : xPES_PacketHeader,
      xPES_PacketHeader.Parse NOT_VALID {} (some (pkt.drop off)) = some (0, pesh) ∧
      a.AbsorbPacket NOT_VALID (some pkt) (some hdr) af =
        some (eResult.AssemblingStarted,
          { m_PID := a.m_PID
            m_Buffer := pkt.drop off
            m_DataOffset := 188 - off
            m_LastContinuityCounter := i8 hdr.getCC
            m_Started := true
            m_PESH := pesh }) := by
  have hl6 : 6 ≤ (pkt.drop off).length := by rw [List.length_drop]; omega
  obtain ⟨pesh, hparse, -, -⟩ := xPES_PacketHeader.Parse_of_length NOT_VALID {} (pkt.drop off) hl6
  refine ⟨pesh, hparse, ?_⟩
  have hcheck : ¬ (a.m_Started = true ∧
      (hdr.getCC : Int) ≠ i8 (andInt (a.m_LastContinuityCounter + 1) 0b0001111)) := by
    rw [expectedCC_eq]
    intro h
    exact h.2 (hcc h.1)
  have hreset : ∀ h : xPES_PacketHeader, h.Reset = {} := fun _ => rfl
  have happ : ∀ b : xPES_Assembler, b.m_Buffer = [] → b.m_DataOffset = 0 →
      b.xBufferAppend (some (pkt.drop off)) (i32 (u32 ((xTS.TS_PacketLength : Int) - off))) =
        some { b with m_Buffer := pkt.drop off, m_DataOffset := 188 - off } := by
    intro b hb hd
    rw [xPES_Assembler.xBufferAppend_payload b pkt off hlen (by omega) (by omega), hb, hd]
    simp only [List.nil_append, Nat.zero_add]
  unfold xPES_Assembler.AbsorbPacket
  simp only []
  rw [if_neg (not_not.mpr hpid), if_neg hcheck, hoff, Option.some_bind, if_pos hS]
  simp only [xPES_Assembler.xBufferReset, hreset]
  rw [hparse]
  by_cases hst : a.m_Started = true
  · rw [if_pos hst, Option.some_bind, if_pos rfl, happ _ rfl rfl, Option.some_bind]
  · rw [if_neg hst, Option.some_bind, if_pos rfl, happ _ rfl rfl, Option.some_bind]

/-- Continuation of a PES packet in progress: the payload `packet[off .. 187]`
is appended, and the packet is finished exactly when the stored packet length
is non-zero and the accumulated length has reached packet length + 6. -/
theorem xPES_Assembler.AbsorbPacket_continue (NOT_VALID : Int) (a : xPES_Assembler)
    (pkt : List Byte) (hdr : xTS_PacketHeader) (af : Option xTS_AdaptationField) (off : Nat)
    (hpid : (hdr.getPID : Int) = a.m_PID) (hst : a.m_Started = true)
    (hcc : (hdr.getCC : Int) = (a.m_LastContinuityCounter + 1) % 16)
    (hS : hdr.getS ≠ 1) (hpl : hdr.hasPayload = true)
    (hoff : xPES_Assembler.payloadStart hdr af = some off)
    (hlen : pkt.length = 188) (hfit : off ≤ 188)
    (hD : a.m_DataOffset + (188 - off) < 4294967296)
    (hL : a.m_PESH.m_PacketLength < 65536) :
    a.AbsorbPacket NOT_VALID (some pkt) (some hdr) af =
      some
        (if a.m_PESH.m_PacketLength ≠ 0 ∧
            a.m_PESH.m_PacketLength + 6 ≤ a.m_DataOffset + (188 - off) then
          (eResult.AssemblingFinished,
            { a with
              m_LastContinuityCounter := i8 hdr.getCC
              m_Buffer := a.m_Buffer ++ pkt.drop off
              m_DataOffset := a.m_DataOffset + (188 - off)
              m_Started := false })
        else
          (eResult.AssemblingContinue,
            { a with
              m_LastContinuityCounter := i8 hdr.getCC
              m_Buffer := a.m_Buffer ++ pkt.drop off
              m_DataOffset := a.m_DataOffset + (188 - off) })) := by
  have hcheck : ¬ (a.m_Started = true ∧
      (hdr.getCC : Int) ≠ i8 (andInt (a.m_LastContinuityCounter + 1) 0b0001111)) := by
    rw [expectedCC_eq]
    intro h
    exact h.2 hcc
  have happ := xPES_Assembler.xBufferAppend_payload
    { a with m_LastContinuityCounter := i8 hdr.getCC } pkt off hlen hfit hD
  unfold xPES_Assembler.AbsorbPacket
  simp only []
  rw [if_neg (not_not.mpr hpid), if_neg hcheck, hoff, Option.some_bind, if_neg hS,
    if_pos ⟨hst, hpl⟩, happ, Option.some_bind]
  have hu16 : u16 a.m_PESH.m_PacketLength = a.m_PESH.m_PacketLength := by unfold u16; omega
  have hu32 : u32 ((a.m_PESH.m_PacketLength : Int) + (xTS.PES_HeaderLength : Nat)) =
      a.m_PESH.m_PacketLength + 6 := by
    unfold u32 xTS.PES_HeaderLength; omega
  simp only [xPES_PacketHeader.getPacketLength, hu16, hu32]
  by_cases hfin : a.m_PESH.m_PacketLength ≠ 0 ∧
      a.m_PESH.m_PacketLength + 6 ≤ a.m_DataOffset + (188 - off)
  · have h6 : a.m_DataOffset + (188 - off) ≥ xTS.PES_HeaderLength := by
      unfold xTS.PES_HeaderLength; omega
    have hfin2 : a.m_PESH.m_PacketLength > 0 ∧
        a.m_DataOffset + (188 - off) ≥ a.m_PESH.m_PacketLength + 6 := by omega
    rw [if_pos h6, if_pos hfin2, if_pos hfin]
  · have hfin2 : ¬ (a.m_PESH.m_PacketLength > 0 ∧
        a.m_DataOffset + (188 - off) ≥ a.m_PESH.m_PacketLength + 6) := by omega
    rw [if_neg hfin2, if_neg hfin]
    simp only [ite_self]

/-- `xBufferAppend` only touches the buffer and the data offset. -/
theorem xPES_Assembler.xBufferAppend_frame (a b : xPES_Assembler) (Data : Option (List Byte))
    (Size : Int) (h : a.xBufferAppend Data Size = some b) :
    b.m_PID = a.m_PID ∧ b.m_LastContinuityCounter = a.m_LastContinuityCounter ∧
      b.m_Started = a.m_Started ∧ b.m_PESH = a.m_PESH := by
  unfold xPES_Assembler.xBufferAppend at h
  cases Data with
  | none =>
    simp only [Option.some.injEq] at h
    subst h
    exact ⟨rfl, rfl, rfl, rfl⟩
  | some d =>
    simp only at h
    split at h
    · split at h
      · simp only [Option.some.injEq] at h
        subst h
        exact ⟨rfl, rfl, rfl, rfl⟩
      · exact absurd h (by simp)
    · simp only [Option.some.injEq] at h
      subst h
      exact ⟨rfl, rfl, rfl, rfl⟩

/-- A packet for the target PID that passes the continuity check never yields
`StreamPackedLost`; it keeps the target PID and records its continuity counter,
and an assembly in progress stays in progress unless the call reports
`AssemblingFinished`. -/
theorem xPES_Assembler.AbsorbPacket_pass (NOT_VALID : Int) (a : xPES_Assembler)
    (pkt : List Byte) (hdr : xTS_PacketHeader) (af : Option xTS_AdaptationField)
    (hpid : (hdr.getPID : Int) = a.m_PID)
    (hcc : a.m_Started = true → (hdr.getCC : Int) = (a.m_LastContinuityCounter + 1) % 16)
    (r : eResult) (b : xPES_Assembler)
    (h : a.AbsorbPacket NOT_VALID (some pkt) (some hdr) af = some (r, b)) :
    r ≠ eResult.StreamPackedLost ∧ b.m_PID = a.m_PID ∧
      b.m_LastContinuityCounter = i8 hdr.getCC ∧
      (a.m_Started = true → r ≠ eResult.AssemblingFinished → b.m_Started = true) ∧
      (r = eResult.AssemblingFinished → b.m_Started = false) := by
  have hcheck : ¬ (a.m_Started = true ∧
      (hdr.getCC : Int) ≠ i8 (andInt (a.m_LastContinuityCounter + 1) 0b0001111)) := by
    rw [expectedCC_eq]
    intro h
    exact h.2 (hcc h.1)
  unfold xPES_Assembler.AbsorbPacket at h
  simp only [] at h
  rw [if_neg (not_not.mpr hpid), if_neg hcheck, Option.bind_eq_some] at h
  obtain ⟨off, -, h⟩ := h
  have hstart : ∀ (a0 : xPES_Assembler) (res : eResult), res ≠ eResult.StreamPackedLost →
      a0.m_PID = a.m_PID → a0.m_LastContinuityCounter = i8 hdr.getCC →
      ((xPES_PacketHeader.Parse NOT_VALID a0.m_PESH.Reset (some (pkt.drop off))).bind fun p =>
        if p.1 = 0 then
          (xPES_Assembler.xBufferAppend
              { m_PID := a0.m_PID, m_Buffer := [], m_DataOffset := 0
                m_LastContinuityCounter := a0.m_LastContinuityCounter, m_Started := true
                m_PESH := p.2 }
              (some (pkt.drop off)) (i32 (u32 ((xTS.TS_PacketLength : Int) - off)))).bind fun c =>
            some (eResult.AssemblingStarted, c)
        else
          some (res,
            { m_PID := a0.m_PID, m_Buffer := [], m_DataOffset := 0
              m_LastContinuityCounter := a0.m_LastContinuityCounter
              m_Started := a0.m_Started, m_PESH := p.2 })) = some (r, b) →
      r ≠ eResult.StreamPackedLost ∧ b.m_PID = a.m_PID ∧
        b.m_LastContinuityCounter = i8 hdr.getCC ∧ (r = res ∨ b.m_Started = true) ∧
        (r = eResult.AssemblingFinished → b.m_Started = a0.m_Started) := by
    intro a0 res hres h1 h2 h
    rw [Option.bind_eq_some] at h
    obtain ⟨p, -, h⟩ := h
    by_cases hp : p.1 = 0
    · rw [if_pos hp, Option.bind_eq_some] at h
      obtain ⟨c, hc, h⟩ := h
      obtain ⟨f1, f2, f3, -⟩ := xPES_Assembler.xBufferAppend_frame _ _ _ _ hc
      simp only [Option.some.injEq, Prod.mk.injEq] at h
      obtain ⟨rfl, rfl⟩ := h
      exact ⟨by decide, f1.trans h1, f2.trans h2, Or.inr f3, fun h => absurd h (by decide)⟩
    · rw [if_neg hp] at h
      simp only [Option.some.injEq, Prod.mk.injEq] at h
      obtain ⟨rfl, rfl⟩ := h
      exact ⟨hres, h1, h2, Or.inl rfl, fun _ => rfl⟩
  by_cases hS : hdr.getS = 1
  · rw [if_pos hS] at h
    by_cases hst : a.m_Started = true
    · rw [if_pos hst] at h
      obtain ⟨g1, g2, g3, g4, g5⟩ :=
        hstart { a with m_Started := false, m_LastContinuityCounter := i8 hdr.getCC }
          eResult.AssemblingFinished (by decide) rfl rfl h
      refine ⟨g1, g2, g3, fun _ hne => ?_, g5⟩
      rcases g4 with g4 | g4
      · exact absurd g4 hne
      · exact g4
    · rw [if_neg hst] at h
      obtain ⟨g1, g2, g3, -, g5⟩ :=
        hstart { a with m_LastContinuityCounter := i8 hdr.getCC }
          eResult.UnexpectedPID (by decide) rfl rfl h
      exact ⟨g1, g2, g3, fun h1 => absurd h1 hst,
        fun h1 => (g5 h1).trans (Bool.eq_false_iff.mpr hst)⟩
  · rw [if_neg hS] at h
    by_cases hcont : a.m_Started = true ∧ hdr.hasPayload = true
    · rw [if_pos hcont, Option.bind_eq_some] at h
      obtain ⟨c, hc, h⟩ := h
      obtain ⟨f1, f2, f3, -⟩ := xPES_Assembler.xBufferAppend_frame _ _ _ _ hc
      split at h
      · split at h
        · simp only [Option.some.injEq, Prod.mk.injEq] at h
          obtain ⟨rfl, rfl⟩ := h
          exact ⟨by decide, f1, f2, fun _ hne => absurd rfl hne, fun _ => rfl⟩
        · simp only [Option.some.injEq, Prod.mk.injEq] at h
          obtain ⟨rfl, rfl⟩ := h
          exact ⟨by decide, f1, f2, fun h1 _ => f3.trans h1, fun h => absurd h (by decide)⟩
      · simp only [Option.some.injEq, Prod.mk.injEq] at h
        obtain ⟨rfl, rfl⟩ := h
        exact ⟨by decide, f1, f2, fun h1 _ => f3.trans h1, fun h => absurd h (by decide)⟩
    · rw [if_neg hcont] at h
      simp only [Option.some.injEq, Prod.mk.injEq] at h
      obtain ⟨rfl, rfl⟩ := h
      exact ⟨by decide, rfl, rfl, fun h1 _ => h1, fun h => absurd h (by decide)⟩

/-- The payload offset is at most 4 + 256 when the adaptation field length is
a `uint8_t`. -/
theorem xPES_Assembler.payloadStart_le (hdr : xTS_PacketHeader)
    (af : Option xTS_AdaptationField) (off : Nat)
    (haf : ∀ f, af = some f → f.m_AdaptationFieldLength < 256)
    (h : xPES_Assembler.payloadStart hdr af = some off) : off ≤ 260 := by
  unfold xPES_Assembler.payloadStart at h
  split at h
  · cases af with
    | none => exact absurd h (by simp)
    | some f =>
      have hf := haf f rfl
      simp only [Option.map_some', Option.some.injEq] at h
      subst h
      unfold u32 xTS_AdaptationField.getNumBytes u32 xTS.TS_HeaderLength
      omega
  · simp only [Option.some.injEq] at h
    subst h
    unfold xTS.TS_HeaderLength
    omega

/-- Copying the payload of a 188-byte packet never reads outside the packet,
whatever the payload offset is: past byte 187 the size is not positive. -/
theorem xPES_Assembler.xBufferAppend_defined (a : xPES_Assembler) (pkt : List Byte) (off : Nat)
    (hlen : pkt.length = 188) (hoff : off ≤ 260) :
    ∃ b, a.xBufferAppend (some (pkt.drop off))
      (i32 (u32 ((xTS.TS_PacketLength : Int) - off))) = some b := by
  by_cases hle : off ≤ 188
  · have hsz : i32 (u32 ((xTS.TS_PacketLength : Int) - off)) = ((188 - off : Nat) : Int) := by
      unfold i32 u32 xTS.TS_PacketLength
      omega
    rw [hsz]
    unfold xPES_Assembler.xBufferAppend
    simp only []
    split
    · rw [if_pos (by rw [List.length_drop]; omega)]
      exact ⟨_, rfl⟩
    · exact ⟨_, rfl⟩
  · have hsz : ¬ (i32 (u32 ((xTS.TS_PacketLength : Int) - off)) > 0) := by
      unfold i32 u32 xTS.TS_PacketLength
      omega
    unfold xPES_Assembler.xBufferAppend
    simp only []
    rw [if_neg hsz]
    exact ⟨_, rfl⟩

/-- The condition under which a call of `AbsorbPacket` stays within the packet:
the packet has 188 bytes, the adaptation field pointer is usable when the
header announces an adaptation field, and a packet that starts a PES packet
leaves room for the six bytes of the PES header. -/
theorem xPES_Assembler.AbsorbPacket_defined (NOT_VALID : Int) (a : xPES_Assembler)
    (pkt : List Byte) (hdr : xTS_PacketHeader) (af : Option xTS_AdaptationField) (off : Nat)
    (hlen : pkt.length = 188)
    (haf : ∀ f, af = some f → f.m_AdaptationFieldLength < 256)
    (hoff : xPES_Assembler.payloadStart hdr af = some off)
    (hfit : hdr.getS = 1 → off + 6 ≤ 188) :
    ∃ r b, a.AbsorbPacket NOT_VALID (some pkt) (some hdr) af = some (r, b) := by
  have hle := xPES_Assembler.payloadStart_le hdr af off haf hoff
  cases hres : a.AbsorbPacket NOT_VALID (some pkt) (some hdr) af with
  | some x => exact ⟨x.1, x.2, rfl⟩
  | none =>
    exfalso
    unfold xPES_Assembler.AbsorbPacket at hres
    simp only [] at hres
    split at hres
    · exact absurd hres (by simp)
    · split at hres
      · exact absurd hres (by simp)
      · rw [hoff, Option.some_bind] at hres
        by_cases hS : hdr.getS = 1
        · have hl6 : 6 ≤ (pkt.drop off).length := by
            have := hfit hS
            rw [List.length_drop]; omega
          obtain ⟨pesh, hparse, -, -⟩ :=
            xPES_PacketHeader.Parse_of_length NOT_VALID {} (pkt.drop off) hl6
          have hreset : ∀ h : xPES_PacketHeader, h.Reset = {} := fun _ => rfl
          rw [if_pos hS] at hres
          simp only [xPES_Assembler.xBufferReset, hreset] at hres
          rw [hparse] at hres
          obtain ⟨c, hc⟩ := xPES_Assembler.xBufferAppend_defined
            { m_PID := a.m_PID, m_Buffer := [], m_DataOffset := 0
              m_LastContinuityCounter := i8 hdr.getCC, m_Started := true, m_PESH := pesh }
            pkt off hlen hle
          split at hres
          · rw [Option.some_bind, if_pos rfl, hc, Option.some_bind] at hres
            exact absurd hres (by simp)
          · rw [Option.some_bind, if_pos rfl, hc, Option.some_bind] at hres
            exact absurd hres (by simp)
        · rw [if_neg hS] at hres
          split at hres
          · obtain ⟨c, hc⟩ := xPES_Assembler.xBufferAppend_defined
              { a with m_LastContinuityCounter := i8 hdr.getCC } pkt off hlen hle
            rw [hc, Option.some_bind] at hres
            split at hres
            · split at hres
              · exact absurd hres (by simp)
              · exact absurd hres (by simp)
            · exact absurd hres (by simp)
          · exact absurd hres (by simp)

/-! ## xPES_Assembler: runs -/

theorem absorbAll_nil (NOT_VALID : Int) (a : xPES_Assembler) :
    absorbAll NOT_VALID a [] = ([], some a) := rfl

theorem absorbAll_cons_some (NOT_VALID : Int) (a b : xPES_Assembler) (p : TsPacket)
    (ps : List TsPacket) (r : eResult)
    (h : a.AbsorbPacket NOT_VALID (some p.packet) (some p.header) p.adaptationField =
      some (r, b)) :
    absorbAll NOT_VALID a (p :: ps) =
      (r :: (absorbAll NOT_VALID b ps).1, (absorbAll NOT_VALID b ps).2) := by
  simp only [absorbAll, h]

theorem absorbAll_cons_none (NOT_VALID : Int) (a : xPES_Assembler) (p : TsPacket)
    (ps : List TsPacket)
    (h : a.AbsorbPacket NOT_VALID (some p.packet) (some p.header) p.adaptationField = none) :
    absorbAll NOT_VALID a (p :: ps) = ([], none) := by
  simp only [absorbAll, h]

/-- A run over target-PID packets with consecutive continuity counters reports
no loss, from any state whose expectation matches the first packet. -/
theorem absorbAll_no_loss (NOT_VALID : Int) (pkts : List TsPacket) :
    ∀ a : xPES_Assembler,
      (∀ p ∈ pkts, (p.header.getPID : Int) = a.m_PID) →
      List.Chain' (fun p q : TsPacket => q.header.getCC = (p.header.getCC + 1) % 16) pkts →
      (∀ p, pkts.head? = some p → a.m_Started = true →
        (p.header.getCC : Int) = (a.m_LastContinuityCounter + 1) % 16) →
      eResult.StreamPackedLost ∉ (absorbAll NOT_VALID a pkts).1 := by
  induction pkts with
  | nil =>
    intro a _ _ _
    simp [absorbAll]
  | cons p ps ih =>
    intro a hpid hchain hhead
    cases hres : a.AbsorbPacket NOT_VALID (some p.packet) (some p.header) p.adaptationField with
    | none =>
      rw [absorbAll_cons_none NOT_VALID a p ps hres]
      simp
    | some x =>
      obtain ⟨r, b⟩ := x
      rw [absorbAll_cons_some NOT_VALID a b p ps r hres]
      obtain ⟨hr, hbpid, hblast, -, -⟩ := xPES_Assembler.AbsorbPacket_pass NOT_VALID a p.packet
        p.header p.adaptationField (hpid p (List.mem_cons_self _ _)) (hhead p rfl) r b hres
      have hrec := ih b
        (fun q hq => by rw [hbpid]; exact hpid q (List.mem_cons_of_mem _ hq))
        (List.Chain'.tail hchain)
        (by
          intro q hq _
          cases ps with
          | nil => simp at hq
          | cons q2 qs =>
            simp only [List.head?_cons, Option.some.injEq] at hq
            subst hq
            have hrel : q2.header.getCC = (p.header.getCC + 1) % 16 :=
              (List.chain'_cons.mp hchain).1
            rw [hblast, i8_mod16, hrel])
      simp only [List.mem_cons, not_or]
      exact ⟨fun h => hr h.symm, hrec⟩

/-- A run over packets on which every call is defined returns one outcome for
each packet and ends in a state. -/
theorem absorbAll_defined (NOT_VALID : Int) (pkts : List TsPacket) :
    ∀ a : xPES_Assembler,
      (∀ p ∈ pkts, p.packet.length = 188 ∧
        (∀ f, p.adaptationField = some f → f.m_AdaptationFieldLength < 256) ∧
        ∃ off, xPES_Assembler.payloadStart p.header p.adaptationField = some off ∧
          (p.header.getS = 1 → off + 6 ≤ 188)) →
      (absorbAll NOT_VALID a pkts).1.length = pkts.length ∧
        (absorbAll NOT_VALID a pkts).2.isSome = true := by
  induction pkts with
  | nil =>
    intro a _
    simp [absorbAll]
  | cons p ps ih =>
    intro a hwf
    obtain ⟨hlen, haf, off, hoff, hfit⟩ := hwf p (List.mem_cons_self _ _)
    obtain ⟨r, b, hres⟩ := xPES_Assembler.AbsorbPacket_defined NOT_VALID a p.packet p.header
      p.adaptationField off hlen haf hoff hfit
    rw [absorbAll_cons_some NOT_VALID a b p ps r hres]
    obtain ⟨h1, h2⟩ := ih b (fun q hq => hwf q (List.mem_cons_of_mem _ hq))
    exact ⟨by simp only [List.length_cons, h1], h2⟩

/-! ## PID filter -/

/-- C5: a packet whose header PID differs from the target PID is answered with
`UnexpectedPID` and every member of the assembler (target PID, buffer, data
offset, last continuity counter, started flag, stored PES header) is unchanged. -/
theorem C5_foreign_PID_frame (NOT_VALID : Int) (a : xPES_Assembler)
    (pkt : Option (List Byte)) (hdr : xTS_PacketHeader) (af : Option xTS_AdaptationField)
    (hpid : (hdr.getPID : Int) ≠ a.m_PID) :
    a.AbsorbPacket NOT_VALID pkt (some hdr) af = some (eResult.UnexpectedPID, a) := by
  cases pkt with
  | none => rfl
  | some pkt => exact xPES_Assembler.AbsorbPacket_foreign NOT_VALID a pkt hdr af hpid

/-- Witness of C5: an assembler for PID 136 in the middle of a PES packet is
handed a packet of PID 137 with payload unit start and a wrong counter. -/
theorem C5_foreign_PID_frame_witness :
    (((({ m_PID := 137, m_S := 1, m_AFC := 1, m_CC := 9 } : xTS_PacketHeader).getPID : Nat) :
        Int) ≠
      ({ m_PID := 136, m_Buffer := [0x00, 0x00, 0x01, 0xC0, 0x01, 0x6A, 0xAA], m_DataOffset := 7
         m_LastContinuityCounter := 3, m_Started := true
         m_PESH := { m_PacketStartCodePrefix := 1, m_StreamId := 0xC0, m_PacketLength := 362 } } :
        xPES_Assembler).m_PID) ∧
    xPES_Assembler.AbsorbPacket (-1)
        { m_PID := 136, m_Buffer := [0x00, 0x00, 0x01, 0xC0, 0x01, 0x6A, 0xAA], m_DataOffset := 7
          m_LastContinuityCounter := 3, m_Started := true
          m_PESH := { m_PacketStartCodePrefix := 1, m_StreamId := 0xC0, m_PacketLength := 362 } }
        (some ([0x47, 0x40, 0x89, 0x19] ++ List.replicate 184 0x55))
        (some { m_PID := 137, m_S := 1, m_AFC := 1, m_CC := 9 }) (some {}) =
      some (eResult.UnexpectedPID,
        { m_PID := 136, m_Buffer := [0x00, 0x00, 0x01, 0xC0, 0x01, 0x6A, 0xAA], m_DataOffset := 7
          m_LastContinuityCounter := 3, m_Started := true
          m_PESH := { m_PacketStartCodePrefix := 1, m_StreamId := 0xC0, m_PacketLength := 362 } }) :=
  ⟨by decide, C5_foreign_PID_frame (-1) _ _ _ _ (by decide)⟩

/-! ## Continuity counter -/

/-- C6: a freshly initialised assembler that is fed target-PID packets whose
continuity counters are consecutive modulo 16 never answers `StreamPackedLost`,
whatever the payload unit start indicators and adaptation field controls are.
If moreover every call stays inside its 188-byte packet, every packet of the
sequence gets an outcome. -/
theorem C6_no_false_loss (NOT_VALID : Int) (PID : Int) (pkts : List TsPacket)
    (hpid : ∀ p ∈ pkts, (p.header.getPID : Int) = PID)
    (hcc : List.Chain' (fun p q : TsPacket => q.header.getCC = (p.header.getCC + 1) % 16)
      pkts) :
    eResult.StreamPackedLost ∉ (absorbAll NOT_VALID (xPES_Assembler.Init {} PID) pkts).1 ∧
    ((∀ p ∈ pkts, p.packet.length = 188 ∧
        (∀ f, p.adaptationField = some f → f.m_AdaptationFieldLength < 256) ∧
        ∃ off, xPES_Assembler.payloadStart p.header p.adaptationField = some off ∧
          (p.header.getS = 1 → off + 6 ≤ 188)) →
      (absorbAll NOT_VALID (xPES_Assembler.Init {} PID) pkts).1.length = pkts.length ∧
      (absorbAll NOT_VALID (xPES_Assembler.Init {} PID) pkts).2.isSome = true) := by
  refine ⟨?_, absorbAll_defined NOT_VALID pkts _⟩
  apply absorbAll_no_loss NOT_VALID pkts (xPES_Assembler.Init {} PID) hpid hcc
  intro p _ hst
  exact absurd hst (by simp [xPES_Assembler.Init, xPES_Assembler.xBufferReset])

set_option maxRecDepth 100000 in
/-- Witness of C6 on four packets with the counters 14, 15, 0, 1; the run
answers Started, Continue, Finished, Started. -/
theorem C6_no_false_loss_witness :
    ((∀ p ∈ sampleCounters, (p.header.getPID : Int) = 136) ∧
      List.Chain' (fun p q : TsPacket => q.header.getCC = (p.header.getCC + 1) % 16)
        sampleCounters) ∧
    (eResult.StreamPackedLost ∉
        (absorbAll (-1) (xPES_Assembler.Init {} 136) sampleCounters).1 ∧
      ((∀ p ∈ sampleCounters, p.packet.length = 188 ∧
          (∀ f, p.adaptationField = some f → f.m_AdaptationFieldLength < 256) ∧
          ∃ off, xPES_Assembler.payloadStart p.header p.adaptationField = some off ∧
            (p.header.getS = 1 → off + 6 ≤ 188)) →
        (absorbAll (-1) (xPES_Assembler.Init {} 136) sampleCounters).1.length =
          sampleCounters.length ∧
        (absorbAll (-1) (xPES_Assembler.Init {} 136) sampleCounters).2.isSome = true)) ∧
    (absorbAll (-1) (xPES_Assembler.Init {} 136) sampleCounters).1 =
      [eResult.AssemblingStarted, eResult.AssemblingContinue, eResult.AssemblingFinished,
        eResult.AssemblingStarted] :=
  ⟨⟨by decide, by simp [sampleCounters, sampleTs, xTS_PacketHeader.getCC]⟩,
    C6_no_false_loss (-1) 136 sampleCounters (by decide)
      (by simp [sampleCounters, sampleTs, xTS_PacketHeader.getCC]),
    by decide⟩

/-- C7 (counterexample): in `sampleGapAfterFinish` the counters are 0, 1, 3 and
the first packet carries the payload unit start indicator, but the packet with
counter 1 completes the PES packet, so the assembler is idle when counter 3
arrives: the run answers Started, Finished, UnexpectedPID and reports no loss. -/
theorem C7_gap_after_finish_not_reported :
    sampleGapAfterFinish.map (fun p => (p.header.getPID, p.header.getS, p.header.getCC)) =
        [(136, 1, 0), (136, 0, 1), (136, 0, 3)] ∧
      (absorbAll (-1) (xPES_Assembler.Init {} 136) sampleGapAfterFinish).1 =
        [eResult.AssemblingStarted, eResult.AssemblingFinished, eResult.UnexpectedPID] := by
  set_option maxRecDepth 100000 in
  decide

/-- C7 (amended): (1) whenever the assembler is assembling and a target-PID
packet arrives whose continuity counter differs from (last counter + 1) mod 16,
`AbsorbPacket` answers `StreamPackedLost`, whatever the payload unit start
indicator and adaptation field control are, and afterwards the assembler is
idle with an empty buffer and zero accumulated bytes.  (2) In a run of three
target-PID packets with the counters 0, 1, 3 that begins with a payload unit
start, the first answer is Started, the second is not a loss, and the loss is
reported exactly at the packet with counter 3 provided the packet with counter 1
did not answer `AssemblingFinished`; if it did, the assembler is idle when
counter 3 arrives and no loss is reported at all. -/
theorem C7_continuity_loss :
    (∀ (NOT_VALID : Int) (a : xPES_Assembler) (pkt : List Byte) (hdr : xTS_PacketHeader)
        (af : Option xTS_AdaptationField),
      a.m_Started = true → (hdr.getPID : Int) = a.m_PID →
      (hdr.getCC : Int) ≠ (a.m_LastContinuityCounter + 1) % 16 →
      ∃ b : xPES_Assembler,
        a.AbsorbPacket NOT_VALID (some pkt) (some hdr) af = some (eResult.StreamPackedLost, b) ∧
        b.m_Started = false ∧ b.m_Buffer = [] ∧ b.m_DataOffset = 0 ∧
        b.getNumPacketBytes = 0) ∧
    (∀ (NOT_VALID : Int) (PID : Int) (p0 p1 p3 : TsPacket),
      (∀ p ∈ [p0, p1, p3], (p.header.getPID : Int) = PID ∧ p.packet.length = 188 ∧
        (∀ f, p.adaptationField = some f → f.m_AdaptationFieldLength < 256) ∧
        ∃ off, xPES_Assembler.payloadStart p.header p.adaptationField = some off ∧
          (p.header.getS = 1 → off + 6 ≤ 188)) →
      p0.header.getS = 1 →
      p0.header.getCC = 0 → p1.header.getCC = 1 → p3.header.getCC = 3 →
      ∃ (r1 r3 : eResult) (s : xPES_Assembler),
        absorbAll NOT_VALID (xPES_Assembler.Init {} PID) [p0, p1, p3] =
          ([eResult.AssemblingStarted, r1, r3], some s) ∧
        r1 ≠ eResult.StreamPackedLost ∧
        (r1 ≠ eResult.AssemblingFinished →
          r3 = eResult.StreamPackedLost ∧ s.m_Started = false ∧ s.m_Buffer = [] ∧
            s.m_DataOffset = 0) ∧
        (r1 = eResult.AssemblingFinished → r3 ≠ eResult.StreamPackedLost)) := by
  constructor
  · intro NOT_VALID a pkt hdr af hst hpid hcc
    refine ⟨_, xPES_Assembler.AbsorbPacket_lost NOT_VALID a pkt hdr af hpid hst hcc, rfl, rfl, rfl,
      ?_⟩
    show i32 ((0 : Nat) : Int) = 0
    unfold i32
    omega
  · intro NOT_VALID PID p0 p1 p3 hwf hS0 hc0 hc1 hc3
    obtain ⟨hpid0, hlen0, -, off0, hoff0, hfit0⟩ := hwf p0 (by simp)
    obtain ⟨hpid1, hlen1, haf1, off1, hoff1, hfit1⟩ := hwf p1 (by simp)
    obtain ⟨hpid3, hlen3, haf3, off3, hoff3, hfit3⟩ := hwf p3 (by simp)
    obtain ⟨pesh, -, h0⟩ := xPES_Assembler.AbsorbPacket_start NOT_VALID
      (xPES_Assembler.Init {} PID) p0.packet p0.header p0.adaptationField off0 hpid0
      (fun h => absurd h (by simp [xPES_Assembler.Init, xPES_Assembler.xBufferReset]))
      hS0 hoff0 hlen0 (hfit0 hS0)
    obtain ⟨r1, s2, h1⟩ := xPES_Assembler.AbsorbPacket_defined NOT_VALID
      { m_PID := (xPES_Assembler.Init {} PID).m_PID, m_Buffer := p0.packet.drop off0
        m_DataOffset := 188 - off0, m_LastContinuityCounter := i8 p0.header.getCC
        m_Started := true, m_PESH := pesh }
      p1.packet p1.header p1.adaptationField off1 hlen1 haf1 hoff1 hfit1
    obtain ⟨hr1, hpid2, hlast2, hkeep, hidle⟩ := xPES_Assembler.AbsorbPacket_pass NOT_VALID _
      p1.packet p1.header p1.adaptationField hpid1
      (fun _ => by
        show (p1.header.getCC : Int) = (i8 p0.header.getCC + 1) % 16
        rw [hc0, hc1]; decide)
      r1 s2 h1
    by_cases hfin : r1 = eResult.AssemblingFinished
    · obtain ⟨r3, s3, h3⟩ := xPES_Assembler.AbsorbPacket_defined NOT_VALID s2
        p3.packet p3.header p3.adaptationField off3 hlen3 haf3 hoff3 hfit3
      have hst2 : s2.m_Started = false := hidle hfin
      obtain ⟨hr3, -, -, -, -⟩ := xPES_Assembler.AbsorbPacket_pass NOT_VALID s2
        p3.packet p3.header p3.adaptationField (hpid3.trans hpid2.symm)
        (fun h => absurd (hst2.symm.trans h) (by decide)) r3 s3 h3
      refine ⟨r1, r3, s3, ?_, hr1, fun h => absurd hfin h, fun _ => hr3⟩
      rw [absorbAll_cons_some NOT_VALID _ _ p0 _ _ h0, absorbAll_cons_some NOT_VALID _ _ p1 _ _ h1,
        absorbAll_cons_some NOT_VALID _ _ p3 _ _ h3, absorbAll_nil]
    · have hst2 : s2.m_Started = true := hkeep rfl hfin
      have h3 := xPES_Assembler.AbsorbPacket_lost NOT_VALID s2 p3.packet p3.header
        p3.adaptationField (hpid3.trans hpid2.symm) hst2
        (by rw [hlast2, hc1, hc3]; decide)
      refine ⟨r1, eResult.StreamPackedLost,
        { s2 with m_Started := false, m_Buffer := [], m_DataOffset := 0 }, ?_, hr1,
        fun _ => ⟨rfl, rfl, rfl, rfl⟩, fun h => absurd h hfin⟩
      rw [absorbAll_cons_some NOT_VALID _ _ p0 _ _ h0, absorbAll_cons_some NOT_VALID _ _ p1 _ _ h1,
        absorbAll_cons_some NOT_VALID _ _ p3 _ _ h3, absorbAll_nil]

/-- The sample packets satisfy the side conditions under which every call of
`AbsorbPacket` is defined. -/
theorem sampleTs_defined (pusi cc : Nat) (payload : List Byte) (h : payload.length = 184) :
    ((sampleTs pusi cc payload).header.getPID : Int) = 136 ∧
      (sampleTs pusi cc payload).packet.length = 188 ∧
      (∀ f, (sampleTs pusi cc payload).adaptationField = some f →
        f.m_AdaptationFieldLength < 256) ∧
      ∃ off, xPES_Assembler.payloadStart (sampleTs pusi cc payload).header
          (sampleTs pusi cc payload).adaptationField = some off ∧
        ((sampleTs pusi cc payload).header.getS = 1 → off + 6 ≤ 188) := by
  refine ⟨rfl, ?_, ?_, 4, rfl, fun _ => by decide⟩
  · simp only [sampleTs, List.length_append, List.length_cons, List.length_nil, h]
  · intro f hf
    simp only [sampleTs, Option.some.injEq] at hf
    subst hf
    decide

/-- The header stored in a sample packet is the one that
`xTS_PacketHeader::Parse` decodes from its bytes. -/
theorem sampleTs_header (pusi cc : Nat) (hp : pusi ≤ 1) (hc : cc < 16) (payload : List Byte) :
    xTS_PacketHeader.Parse (-1) {} (some (sampleTs pusi cc payload).packet) =
      some (0, (sampleTs pusi cc payload).header) := by
  interval_cases pusi <;> interval_cases cc <;> rfl

theorem samplePes_length (L : Nat) : (samplePes L).length = L + 6 := by
  simp only [samplePes, List.length_append, List.length_cons, List.length_nil,
    List.length_replicate]
  omega

set_option maxRecDepth 100000 in
/-- Witness of C7: (1) an assembler in the middle of a PES packet that expects
counter 4 is handed counter 6; (2) the run `sampleGapWhileAssembling` with the
counters 0, 1, 3 answers Started, Continue, StreamPackedLost. -/
theorem C7_continuity_loss_witness :
    (∃ b : xPES_Assembler,
      xPES_Assembler.AbsorbPacket (-1)
          { m_PID := 136, m_Buffer := [0x00, 0x00, 0x01, 0xC0, 0x01, 0x6A, 0xAA], m_DataOffset := 7
            m_LastContinuityCounter := 3, m_Started := true
            m_PESH := { m_PacketStartCodePrefix := 1, m_StreamId := 0xC0, m_PacketLength := 362 } }
          (some (sampleTs 1 6 (samplePes 178)).packet) (some (sampleTs 1 6 (samplePes 178)).header)
          (some {}) = some (eResult.StreamPackedLost, b) ∧
        b.m_Started = false ∧ b.m_Buffer = [] ∧ b.m_DataOffset = 0 ∧
        b.getNumPacketBytes = 0) ∧
    (∃ (r1 r3 : eResult) (s : xPES_Assembler),
      absorbAll (-1) (xPES_Assembler.Init {} 136)
          [sampleTs 1 0 ((samplePes 546).take 184),
           sampleTs 0 1 (((samplePes 546).drop 184).take 184),
           sampleTs 0 3 ((samplePes 546).drop 368)] =
        ([eResult.AssemblingStarted, r1, r3], some s) ∧
      r1 ≠ eResult.StreamPackedLost ∧
      (r1 ≠ eResult.AssemblingFinished →
        r3 = eResult.StreamPackedLost ∧ s.m_Started = false ∧ s.m_Buffer = [] ∧
          s.m_DataOffset = 0) ∧
      (r1 = eResult.AssemblingFinished → r3 ≠ eResult.StreamPackedLost)) ∧
    (absorbAll (-1) (xPES_Assembler.Init {} 136) sampleGapWhileAssembling).1 =
      [eResult.AssemblingStarted, eResult.AssemblingContinue, eResult.StreamPackedLost] :=
  ⟨C7_continuity_loss.1 (-1) _ _ _ _ rfl (by decide) (by decide),
    C7_continuity_loss.2 (-1) 136 _ _ _
      (by
        have hlen := samplePes_length 546
        intro p hp
        simp only [List.mem_cons, List.mem_singleton, List.not_mem_nil, or_false] at hp
        rcases hp with rfl | rfl | rfl
        · exact sampleTs_defined _ _ _ (by rw [List.length_take, hlen]; rfl)
        · exact sampleTs_defined _ _ _ (by rw [List.length_take, List.length_drop, hlen]; rfl)
        · exact sampleTs_defined _ _ _ (by rw [List.length_drop, hlen]))
      rfl rfl rfl rfl,
    by decide⟩

/-! ## Round trip of PES reassembly -/

/-- The payload of a 188-byte packet with `k` payload bytes, `k > 0`, starts at
the offset `188 - k` and runs to the end of the packet. -/
theorem TsPacket.payload_of_length (p : TsPacket) (hlen : p.packet.length = 188)
    (hne : 0 < p.payload.length) :
    ∃ off, xPES_Assembler.payloadStart p.header p.adaptationField = some off ∧
      off + p.payload.length = 188 ∧ p.payload = p.packet.drop off := by
  unfold TsPacket.payload at hne ⊢
  cases hps : xPES_Assembler.payloadStart p.header p.adaptationField with
  | none =>
    rw [hps] at hne
    simp at hne
  | some off =>
    rw [hps] at hne
    simp only [List.length_take, List.length_drop, hlen, xTS.TS_PacketLength] at hne
    refine ⟨off, rfl, ?_, ?_⟩
    · simp only [List.length_take, List.length_drop, hlen, xTS.TS_PacketLength]
      omega
    · apply List.take_of_length_le
      rw [List.length_drop, hlen]
      exact le_refl _

/-- The continuation packets of a PES packet of declared length `L`: from a
state that is assembling, with a consistent data offset, every packet but the
last answers `AssemblingContinue` and the last one `AssemblingFinished`. -/
theorem absorbAll_continuation (NOT_VALID : Int) (L : Nat) (hL1 : 1 ≤ L) (hL2 : L ≤ 65535)
    (rest : List TsPacket) :
    ∀ (a : xPES_Assembler) (prev : TsPacket),
      rest ≠ [] →
      a.m_Started = true → a.m_PESH.m_PacketLength = L →
      a.m_DataOffset = a.m_Buffer.length →
      a.m_LastContinuityCounter = i8 prev.header.getCC →
      (∀ p ∈ rest, (p.header.getPID : Int) = a.m_PID ∧ p.packet.length = 188 ∧
        p.header.getS = 0 ∧ p.header.hasPayload = true ∧ p.payload ≠ []) →
      List.Chain (fun p q : TsPacket => q.header.getCC = (p.header.getCC + 1) % 16) prev rest →
      a.m_Buffer.length + (rest.map TsPacket.payload).flatten.length = L + 6 →
      ∃ s : xPES_Assembler,
        absorbAll NOT_VALID a rest =
          (List.replicate (rest.length - 1) eResult.AssemblingContinue ++
            [eResult.AssemblingFinished], some s) ∧
        s.m_Buffer = a.m_Buffer ++ (rest.map TsPacket.payload).flatten ∧
        s.m_DataOffset = L + 6 := by
  induction rest with
  | nil =>
    intro a prev hne
    exact absurd rfl hne
  | cons p ps ih =>
    intro a prev _ hst hpl hoffs hlast hall hchain htotal
    obtain ⟨hpid, hlen, hS, hpay, hpne⟩ := hall p (List.mem_cons_self _ _)
    obtain ⟨hrel, hchain2⟩ := List.chain_cons.mp hchain
    have hpos : 0 < p.payload.length := List.length_pos.mpr hpne
    obtain ⟨off, hoff, hsum, hdrop⟩ := TsPacket.payload_of_length p hlen hpos
    simp only [List.map_cons, List.flatten_cons, List.length_append] at htotal
    have hcc : (p.header.getCC : Int) = (a.m_LastContinuityCounter + 1) % 16 := by
      rw [hlast, i8_mod16, hrel]
    have hstep := xPES_Assembler.AbsorbPacket_continue NOT_VALID a p.packet p.header
      p.adaptationField off hpid hst hcc (by rw [hS]; decide) hpay hoff hlen (by omega)
      (by omega) (by omega)
    have hk : 188 - off = p.payload.length := by omega
    rw [hk, ← hdrop] at hstep
    cases ps with
    | nil =>
      simp only [List.map_nil, List.flatten_nil, List.length_nil, Nat.add_zero] at htotal
      have hfin : a.m_PESH.m_PacketLength ≠ 0 ∧
          a.m_PESH.m_PacketLength + 6 ≤ a.m_DataOffset + p.payload.length := by omega
      rw [if_pos hfin] at hstep
      refine ⟨{ a with
          m_LastContinuityCounter := i8 p.header.getCC
          m_Buffer := a.m_Buffer ++ p.payload
          m_DataOffset := a.m_DataOffset + p.payload.length
          m_Started := false }, ?_, ?_, ?_⟩
      · rw [absorbAll_cons_some NOT_VALID _ _ p _ _ hstep, absorbAll_nil]
        rfl
      · simp only [List.map_cons, List.map_nil, List.flatten_cons, List.flatten_nil,
          List.append_nil]
      · show a.m_DataOffset + p.payload.length = L + 6
        omega
    | cons q qs =>
      obtain ⟨-, -, -, -, hqne⟩ := hall q (List.mem_cons_of_mem _ (List.mem_cons_self _ _))
      have hqpos : 0 < q.payload.length := List.length_pos.mpr hqne
      simp only [List.map_cons, List.flatten_cons, List.length_append] at htotal
      have hnot : ¬ (a.m_PESH.m_PacketLength ≠ 0 ∧
          a.m_PESH.m_PacketLength + 6 ≤ a.m_DataOffset + p.payload.length) := by omega
      rw [if_neg hnot] at hstep
      obtain ⟨s, hrun, hbuf, hD⟩ := ih
        { a with
          m_LastContinuityCounter := i8 p.header.getCC
          m_Buffer := a.m_Buffer ++ p.payload
          m_DataOffset := a.m_DataOffset + p.payload.length }
        p (by simp) hst hpl
        (by simp only [List.length_append, hoffs])
        rfl
        (fun x hx => hall x (List.mem_cons_of_mem _ hx))
        hchain2
        (by
          simp only [List.map_cons, List.flatten_cons, List.length_append]
          omega)
      refine ⟨s, ?_, ?_, hD⟩
      · rw [absorbAll_cons_some NOT_VALID _ _ p _ _ hstep, hrun]
        simp only [List.length_cons, Nat.add_sub_cancel, List.replicate_succ, List.cons_append]
      · rw [hbuf]
        simp only [List.map_cons, List.flatten_cons, List.append_assoc]

theorem rd_append_left (l1 l2 : List Byte) (i : Nat) (h : i < l1.length) :
    rd (l1 ++ l2) i = rd l1 i := by
  simp [rd, List.getElem?_append_left h]

/-- C4: a PES packet `P` of declared length `L` (1..65535, so `|P| = L + 6` and
bytes 4..5 of `P` are `L`, big-endian) is cut into `N >= 2` consecutive
non-empty chunks, each the payload (payload offset to byte 187) of a 188-byte
target-PID packet; the first packet has the payload unit start indicator and a
chunk of at least 6 bytes, the others have no start indicator and carry
payload, and the continuity counters are consecutive modulo 16.  Fed in order
to a freshly initialised assembler they are answered Started, `N - 2` times
Continue, Finished, and then `getNumPacketBytes()` is `L + 6` and the buffer is
`P`. -/
theorem C4_round_trip (NOT_VALID : Int) (PID : Int) (P : List Byte) (L : Nat)
    (first : TsPacket) (rest : List TsPacket)
    (hL : 1 ≤ L ∧ L ≤ 65535)
    (hP : P.length = L + 6)
    (hb4 : rd P 4 = some (L / 256)) (hb5 : rd P 5 = some (L % 256))
    (hsplit : P = first.payload ++ (rest.map TsPacket.payload).flatten)
    (hN : rest ≠ [])
    (hfirst : (first.header.getPID : Int) = PID ∧ first.packet.length = 188 ∧
      first.header.getS = 1 ∧ 6 ≤ first.payload.length)
    (hrest : ∀ p ∈ rest, (p.header.getPID : Int) = PID ∧ p.packet.length = 188 ∧
      p.header.getS = 0 ∧ p.header.hasPayload = true ∧ p.payload ≠ [])
    (hcc : List.Chain' (fun p q : TsPacket => q.header.getCC = (p.header.getCC + 1) % 16)
      (first :: rest)) :
    ∃ s : xPES_Assembler,
      absorbAll NOT_VALID (xPES_Assembler.Init {} PID) (first :: rest) =
        (eResult.AssemblingStarted ::
          (List.replicate (rest.length - 1) eResult.AssemblingContinue ++
            [eResult.AssemblingFinished]), some s) ∧
      s.getNumPacketBytes = L + 6 ∧
      s.getPacket = P := by
  obtain ⟨hpid0, hlen0, hS0, h6⟩ := hfirst
  obtain ⟨off0, hoff0, hsum0, hdrop0⟩ := TsPacket.payload_of_length first hlen0 (by omega)
  obtain ⟨pesh, hparse, h0⟩ := xPES_Assembler.AbsorbPacket_start NOT_VALID
    (xPES_Assembler.Init {} PID) first.packet first.header first.adaptationField off0 hpid0
    (fun h => absurd h (by simp [xPES_Assembler.Init, xPES_Assembler.xBufferReset]))
    hS0 hoff0 hlen0 (by omega)
  have hlenP : pesh.m_PacketLength = L := by
    obtain ⟨pesh2, hparse2, -, hval⟩ := xPES_PacketHeader.Parse_of_length NOT_VALID {}
      (first.packet.drop off0) (by rw [← hdrop0]; exact h6)
    rw [hparse] at hparse2
    simp only [Option.some.injEq, Prod.mk.injEq, true_and] at hparse2
    subst hparse2
    have e4 : rd (first.packet.drop off0) 4 = some (L / 256) := by
      rw [← hdrop0, ← rd_append_left first.payload (rest.map TsPacket.payload).flatten 4
        (by omega), ← hsplit]
      exact hb4
    have e5 : rd (first.packet.drop off0) 5 = some (L % 256) := by
      rw [← hdrop0, ← rd_append_left first.payload (rest.map TsPacket.payload).flatten 5
        (by omega), ← hsplit]
      exact hb5
    rw [hval _ _ e4 e5]
    omega
  have htotal : first.payload.length + (rest.map TsPacket.payload).flatten.length = L + 6 := by
    rw [← List.length_append, ← hsplit]
    exact hP
  obtain ⟨s, hrun, hbuf, hD⟩ := absorbAll_continuation NOT_VALID L hL.1 hL.2 rest
    { m_PID := (xPES_Assembler.Init {} PID).m_PID, m_Buffer := first.packet.drop off0
      m_DataOffset := 188 - off0, m_LastContinuityCounter := i8 first.header.getCC
      m_Started := true, m_PESH := pesh }
    first hN rfl hlenP
    (by
      show 188 - off0 = (first.packet.drop off0).length
      rw [List.length_drop, hlen0])
    rfl hrest hcc
    (by
      show (first.packet.drop off0).length + _ = L + 6
      rw [← hdrop0]
      exact htotal)
  refine ⟨s, ?_, ?_, ?_⟩
  · rw [absorbAll_cons_some NOT_VALID _ _ first _ _ h0, hrun]
  · show i32 (s.m_DataOffset : Int) = (L : Int) + 6
    rw [hD]
    unfold i32
    omega
  · show s.m_Buffer = P
    rw [hbuf, hsplit, hdrop0]

set_option maxRecDepth 100000 in
/-- Witness of C4: the PES packet `samplePes 546` (552 bytes) carried by the
three packets `sampleFirst :: sampleRest` with the counters 14, 15, 0. -/
theorem C4_round_trip_witness :
    ((1 ≤ 546 ∧ 546 ≤ 65535) ∧
      (samplePes 546).length = 546 + 6 ∧
      rd (samplePes 546) 4 = some (546 / 256) ∧ rd (samplePes 546) 5 = some (546 % 256) ∧
      samplePes 546 = sampleFirst.payload ++ (sampleRest.map TsPacket.payload).flatten ∧
      sampleRest ≠ [] ∧
      ((sampleFirst.header.getPID : Int) = 136 ∧ sampleFirst.packet.length = 188 ∧
        sampleFirst.header.getS = 1 ∧ 6 ≤ sampleFirst.payload.length) ∧
      (∀ p ∈ sampleRest, (p.header.getPID : Int) = 136 ∧ p.packet.length = 188 ∧
        p.header.getS = 0 ∧ p.header.hasPayload = true ∧ p.payload ≠ []) ∧
      List.Chain' (fun p q : TsPacket => q.header.getCC = (p.header.getCC + 1) % 16)
        (sampleFirst :: sampleRest)) ∧
    ∃ s : xPES_Assembler,
      absorbAll (-1) (xPES_Assembler.Init {} 136) (sampleFirst :: sampleRest) =
        (eResult.AssemblingStarted ::
          (List.replicate (sampleRest.length - 1) eResult.AssemblingContinue ++
            [eResult.AssemblingFinished]), some s) ∧
      s.getNumPacketBytes = ((546 : Nat) : Int) + 6 ∧
      s.getPacket = samplePes 546 :=
  ⟨⟨by decide, by decide, by decide, by decide, by decide, by decide, by decide, by decide,
      by simp [sampleFirst, sampleRest, sampleTs, xTS_PacketHeader.getCC]⟩,
    C4_round_trip (-1) 136 (samplePes 546) 546 sampleFirst sampleRest (by decide) (by decide)
      (by decide) (by decide) (by decide) (by decide) (by decide) (by decide)
      (by simp [sampleFirst, sampleRest, sampleTs, xTS_PacketHeader.getCC])⟩

/-! ## The driver: video stream ids -/

/-- C14 (counterexample): `sampleVideoPes` is a finished PES buffer of 26 bytes
with the video stream id `0xE0` and the byte 5 at offset 8; the driver takes
the header length 6 and writes the 20 bytes from offset 6, not the 12 bytes
from offset 9 + 5 = 14. -/
theorem C14_video_header_is_six :
    (rd sampleVideoPes 3 = some 0xE0 ∧ rd sampleVideoPes 8 = some 5 ∧
      sampleVideoPes.length = 26) ∧
    mainAssemblingFinished sampleVideoPes 26 =
      some { headerLength := 6, dataLength := 20, written := sampleVideoPes.drop 6 } := by
  decide

/-- C14 (amended): for a finished PES buffer of at least 9 bytes whose stream id
is a video stream id (0xE0..0xEF) the driver skips the fixed PES header of 6
bytes only, whatever the byte at offset 8 is: the rule 9 + N is applied to the
stream ids 0xC0..0xDF and 0xBD alone. -/
theorem C14_video_header (buffer : List Byte) (n : Nat) (streamId : Nat)
    (hlen : buffer.length = n) (h9 : 9 ≤ n) (h31 : n < 2147483648)
    (hsid : rd buffer 3 = some streamId) (hvideo : 0xE0 ≤ streamId ∧ streamId ≤ 0xEF) :
    mainAssemblingFinished buffer n =
      some { headerLength := 6, dataLength := (n : Int) - 6, written := buffer.drop 6 } := by
  obtain ⟨s4, hs4⟩ := rd_of_lt buffer 4 (by omega)
  obtain ⟨s5, hs5⟩ := rd_of_lt buffer 5 (by omega)
  have hn6 : (n : Int) ≥ 6 := by omega
  have hcls : ¬ ((streamId ≥ 0xC0 ∧ streamId ≤ 0xDF) ∨ streamId = 0xBD) := by omega
  have hD : i32 ((n : Int) - 6) = (n : Int) - ((6 : Nat) : Int) := by
    rw [i32_of_range _ (by omega) (by omega)]; rfl
  unfold mainAssemblingFinished
  rw [if_pos hn6, hsid, hs4, hs5]
  simp only [Option.bind]
  rw [if_neg hcls]
  simp only [Option.bind]
  rw [hD]
  have h := mainAssemblingFinished_eq buffer n 6 hlen
  rw [if_pos (by omega : 6 < n)] at h
  exact h

/-- Witness of the amended C14 on `sampleVideoPes`. -/
theorem C14_video_header_witness :
    (sampleVideoPes.length = 26 ∧ 9 ≤ 26 ∧ 26 < 2147483648 ∧
      rd sampleVideoPes 3 = some 0xE0 ∧ (0xE0 ≤ 0xE0 ∧ 0xE0 ≤ 0xEF)) ∧
    mainAssemblingFinished sampleVideoPes ((26 : Nat) : Int) =
      some { headerLength := 6, dataLength := ((26 : Nat) : Int) - 6
             written := sampleVideoPes.drop 6 } :=
  ⟨⟨by decide, by decide, by decide, by decide, by decide⟩,
    C14_video_header sampleVideoPes 26 0xE0 (by decide) (by decide) (by decide) (by decide)
      (by decide)⟩

/-! ## Start of packet, continuation, nothing to do -/

/-- The local `payloadStart` of `AbsorbPacket` is the offset
4 + (hasAdaptationField ? numBytes() : 0), as long as that sum fits 32 bits. -/
theorem xPES_Assembler.payloadStart_eq (hdr : xTS_PacketHeader)
    (af : Option xTS_AdaptationField) (f : xTS_AdaptationField)
    (haf : hdr.hasAdaptationField = true → af = some f) (off : Nat)
    (hoff : off = 4 + (if hdr.hasAdaptationField = true then f.getNumBytes else 0))
    (hlt : off < 4294967296) :
    xPES_Assembler.payloadStart hdr af = some off := by
  unfold xPES_Assembler.payloadStart
  by_cases h : hdr.hasAdaptationField = true
  · rw [if_pos h, haf h]
    rw [if_pos h] at hoff
    simp only [Option.map_some', Option.some.injEq]
    unfold u32 xTS.TS_HeaderLength
    omega
  · rw [if_neg h]
    rw [if_neg h] at hoff
    simp only [Option.some.injEq]
    unfold xTS.TS_HeaderLength
    omega

/-- C16: in every assembler state, idle or assembling, a target-PID packet with
the payload unit start indicator that passes the continuity check, with
offset = 4 + (hasAdaptationField ? numBytes() : 0) and offset + 6 <= 188, is
answered `AssemblingStarted`; afterwards started = true, the stored PES header
is the parse of the six bytes at the offset, the buffer is exactly
packet[offset .. 187] and the accumulated length is 188 - offset, whatever was
accumulated before and whether or not `hasPayload()` holds. -/
theorem C16_start_of_packet (NOT_VALID : Int) (a : xPES_Assembler) (pkt : List Byte)
    (hdr : xTS_PacketHeader) (af : Option xTS_AdaptationField) (f : xTS_AdaptationField)
    (off : Nat)
    (hlen : pkt.length = 188)
    (hpid : (hdr.getPID : Int) = a.m_PID)
    (hcc : a.m_Started = true → (hdr.getCC : Int) = (a.m_LastContinuityCounter + 1) % 16)
    (hS : hdr.getS = 1)
    (haf : hdr.hasAdaptationField = true → af = some f)
    (hoff : off = 4 + (if hdr.hasAdaptationField = true then f.getNumBytes else 0))
    (hfit : off + 6 ≤ 188) :
    ∃ (b0 b1 b2 b3 b4 b5 : Byte) (rest : List Byte) (b : xPES_Assembler),
      pkt.drop off = b0 :: b1 :: b2 :: b3 :: b4 :: b5 :: rest ∧
      a.AbsorbPacket NOT_VALID (some pkt) (some hdr) af = some (eResult.AssemblingStarted, b) ∧
      b.m_Started = true ∧
      b.m_PESH =
        { m_PacketStartCodePrefix := b0.val * 65536 + b1.val * 256 + b2.val
          m_StreamId := b3.val
          m_PacketLength := b4.val * 256 + b5.val } ∧
      b.getPacket = pkt.drop off ∧
      b.m_DataOffset = 188 - off ∧
      b.getNumPacketBytes = 188 - (off : Int) ∧
      b.m_PID = a.m_PID ∧
      b.m_LastContinuityCounter = i8 hdr.getCC := by
  have hps := xPES_Assembler.payloadStart_eq hdr af f haf off hoff (by omega)
  obtain ⟨pesh, hparse, hres⟩ := xPES_Assembler.AbsorbPacket_start NOT_VALID a pkt hdr af off
    hpid hcc hS hps hlen hfit
  obtain ⟨b0, b1, b2, b3, b4, b5, rest, hsix⟩ := exists_six (pkt.drop off)
    (by rw [List.length_drop]; omega)
  rw [hsix, xPES_PacketHeader.Parse_six] at hparse
  simp only [Option.some.injEq, Prod.mk.injEq, true_and] at hparse
  refine ⟨b0, b1, b2, b3, b4, b5, rest, _, hsix, hres, rfl, hparse.symm, rfl, rfl, ?_, rfl, rfl⟩
  show i32 ((188 - off : Nat) : Int) = 188 - (off : Int)
  unfold i32
  omega

set_option maxRecDepth 100000 in
/-- Witness of C16: the assembler `sampleAssembling`, in the middle of a PES
packet, is handed a packet with payload unit start, the expected counter 4,
adaptation field control 2 (no payload flag) and an adaptation field of length
7, so that the offset is 12. -/
theorem C16_start_of_packet_witness :
    ((sampleTsAf 1 4 2 7 (List.replicate 6 0xFF ++ samplePes 170)).packet.length = 188 ∧
      (((sampleTsAf 1 4 2 7 (List.replicate 6 0xFF ++ samplePes 170)).header.getPID : Nat) : Int) =
        sampleAssembling.m_PID ∧
      (sampleAssembling.m_Started = true →
        (((sampleTsAf 1 4 2 7 (List.replicate 6 0xFF ++ samplePes 170)).header.getCC : Nat) : Int) =
          (sampleAssembling.m_LastContinuityCounter + 1) % 16) ∧
      (sampleTsAf 1 4 2 7 (List.replicate 6 0xFF ++ samplePes 170)).header.getS = 1 ∧
      ((sampleTsAf 1 4 2 7 (List.replicate 6 0xFF ++ samplePes 170)).header.hasAdaptationField =
          true →
        (sampleTsAf 1 4 2 7 (List.replicate 6 0xFF ++ samplePes 170)).adaptationField =
          some { m_AdaptationFieldLength := 7 }) ∧
      12 = 4 +
        (if (sampleTsAf 1 4 2 7 (List.replicate 6 0xFF ++ samplePes 170)).header.hasAdaptationField
            = true then
          xTS_AdaptationField.getNumBytes { m_AdaptationFieldLength := 7 } else 0) ∧
      12 + 6 ≤ 188) ∧
    ∃ (b0 b1 b2 b3 b4 b5 : Byte) (rest : List Byte) (b : xPES_Assembler),
      (sampleTsAf 1 4 2 7 (List.replicate 6 0xFF ++ samplePes 170)).packet.drop 12 =
        b0 :: b1 :: b2 :: b3 :: b4 :: b5 :: rest ∧
      sampleAssembling.AbsorbPacket (-1)
          (some (sampleTsAf 1 4 2 7 (List.replicate 6 0xFF ++ samplePes 170)).packet)
          (some (sampleTsAf 1 4 2 7 (List.replicate 6 0xFF ++ samplePes 170)).header)
          (sampleTsAf 1 4 2 7 (List.replicate 6 0xFF ++ samplePes 170)).adaptationField =
        some (eResult.AssemblingStarted, b) ∧
      b.m_Started = true ∧
      b.m_PESH =
        { m_PacketStartCodePrefix := b0.val * 65536 + b1.val * 256 + b2.val
          m_StreamId := b3.val
          m_PacketLength := b4.val * 256 + b5.val } ∧
      b.getPacket = (sampleTsAf 1 4 2 7 (List.replicate 6 0xFF ++ samplePes 170)).packet.drop 12 ∧
      b.m_DataOffset = 188 - 12 ∧
      b.getNumPacketBytes = 188 - ((12 : Nat) : Int) ∧
      b.m_PID = sampleAssembling.m_PID ∧
      b.m_LastContinuityCounter =
        i8 (sampleTsAf 1 4 2 7 (List.replicate 6 0xFF ++ samplePes 170)).header.getCC :=
  ⟨⟨by decide, by decide, by decide, by decide, by decide, by decide, by decide⟩,
    C16_start_of_packet (-1) sampleAssembling _ _ _ { m_AdaptationFieldLength := 7 } 12
      (by decide) (by decide) (by decide) (by decide) (by decide) (by decide) (by decide)⟩

/-- The copy of the payload `packet[off .. 187]` into the buffer, with the data
offset kept in 32 bits. -/
theorem xPES_Assembler.xBufferAppend_payload_mod (a : xPES_Assembler) (pkt : List Byte)
    (off : Nat) (hlen : pkt.length = 188) (hoff : off ≤ 188)
    (hD : a.m_DataOffset < 4294967296) :
    a.xBufferAppend (some (pkt.drop off)) (i32 (u32 ((xTS.TS_PacketLength : Int) - off))) =
      some { a with
        m_Buffer := a.m_Buffer ++ pkt.drop off
        m_DataOffset := (a.m_DataOffset + (188 - off)) % 4294967296 } := by
  have hsz : i32 (u32 ((xTS.TS_PacketLength : Int) - off)) = ((188 - off : Nat) : Int) := by
    unfold i32 u32 xTS.TS_PacketLength
    omega
  rw [hsz]
  unfold xPES_Assembler.xBufferAppend
  by_cases hlt : off < 188
  · have c1 : ((188 - off : Nat) : Int) > 0 := by omega
    have e1 : ((188 - off : Nat) : Int).toNat = 188 - off := by omega
    have e2 : u32 ((a.m_DataOffset : Int) + ((188 - off : Nat) : Int)) =
        (a.m_DataOffset + (188 - off)) % 4294967296 := by
      unfold u32; omega
    have e3 : (pkt.drop off).take (188 - off) = pkt.drop off := by
      apply List.take_of_length_le
      rw [List.length_drop]; omega
    simp only [if_pos c1, e1, e2, e3]
    rw [if_pos (by rw [List.length_drop]; omega)]
  · have e0 : off = 188 := by omega
    subst e0
    have e3 : pkt.drop 188 = [] := List.drop_of_length_le (by omega)
    have e4 : (a.m_DataOffset + (188 - 188)) % 4294967296 = a.m_DataOffset := by omega
    simp only [e3, e4, Nat.sub_self, Nat.cast_zero, gt_iff_lt, lt_self_iff_false, if_false,
      List.append_nil]

/-- Continuation of a PES packet in progress, for every state whose members
hold values of their C++ types: the payload is appended, the data offset is
advanced modulo 2^32, and the packet is finished exactly when the stored packet
length is non-zero and the new data offset has reached packet length + 6. -/
theorem xPES_Assembler.AbsorbPacket_continue_mod (NOT_VALID : Int) (a : xPES_Assembler)
    (pkt : List Byte) (hdr : xTS_PacketHeader) (af : Option xTS_AdaptationField) (off : Nat)
    (hpid : (hdr.getPID : Int) = a.m_PID) (hst : a.m_Started = true)
    (hcc : (hdr.getCC : Int) = (a.m_LastContinuityCounter + 1) % 16)
    (hS : hdr.getS ≠ 1) (hpl : hdr.hasPayload = true)
    (hoff : xPES_Assembler.payloadStart hdr af = some off)
    (hlen : pkt.length = 188) (hfit : off ≤ 188)
    (hD : a.m_DataOffset < 4294967296)
    (hL : a.m_PESH.m_PacketLength < 65536) :
    a.AbsorbPacket NOT_VALID (some pkt) (some hdr) af =
      some
        (if a.m_PESH.m_PacketLength ≠ 0 ∧
            a.m_PESH.m_PacketLength + 6 ≤ (a.m_DataOffset + (188 - off)) % 4294967296 then
          (eResult.AssemblingFinished,
            { a with
              m_LastContinuityCounter := i8 hdr.getCC
              m_Buffer := a.m_Buffer ++ pkt.drop off
              m_DataOffset := (a.m_DataOffset + (188 - off)) % 4294967296
              m_Started := false })
        else
          (eResult.AssemblingContinue,
            { a with
              m_LastContinuityCounter := i8 hdr.getCC
              m_Buffer := a.m_Buffer ++ pkt.drop off
              m_DataOffset := (a.m_DataOffset + (188 - off)) % 4294967296 })) := by
  have hcheck : ¬ (a.m_Started = true ∧
      (hdr.getCC : Int) ≠ i8 (andInt (a.m_LastContinuityCounter + 1) 0b0001111)) := by
    rw [expectedCC_eq]
    intro h
    exact h.2 hcc
  have happ := xPES_Assembler.xBufferAppend_payload_mod
    { a with m_LastContinuityCounter := i8 hdr.getCC } pkt off hlen hfit hD
  unfold xPES_Assembler.AbsorbPacket
  simp only []
  rw [if_neg (not_not.mpr hpid), if_neg hcheck, hoff, Option.some_bind, if_neg hS,
    if_pos ⟨hst, hpl⟩, happ, Option.some_bind]
  have hu16 : u16 a.m_PESH.m_PacketLength = a.m_PESH.m_PacketLength := by unfold u16; omega
  have hu32 : u32 ((a.m_PESH.m_PacketLength : Int) + (xTS.PES_HeaderLength : Nat)) =
      a.m_PESH.m_PacketLength + 6 := by
    unfold u32 xTS.PES_HeaderLength; omega
  simp only [xPES_PacketHeader.getPacketLength, hu16, hu32]
  by_cases hfin : a.m_PESH.m_PacketLength ≠ 0 ∧
      a.m_PESH.m_PacketLength + 6 ≤ (a.m_DataOffset + (188 - off)) % 4294967296
  · have h6 : (a.m_DataOffset + (188 - off)) % 4294967296 ≥ xTS.PES_HeaderLength := by
      unfold xTS.PES_HeaderLength; omega
    have hfin2 : a.m_PESH.m_PacketLength > 0 ∧
        (a.m_DataOffset + (188 - off)) % 4294967296 ≥ a.m_PESH.m_PacketLength + 6 := by omega
    rw [if_pos h6, if_pos hfin2, if_pos hfin]
  · have hfin2 : ¬ (a.m_PESH.m_PacketLength > 0 ∧
        (a.m_DataOffset + (188 - off)) % 4294967296 ≥ a.m_PESH.m_PacketLength + 6) := by omega
    rw [if_neg hfin2, if_neg hfin]
    simp only [ite_self]

/-- C17: when the assembler is assembling and a target-PID packet without
payload unit start, with `hasPayload()` and the expected continuity counter
arrives (offset <= 188), `AbsorbPacket` appends packet[offset .. 187] to the
buffer, leaving the earlier bytes as they are, and answers `AssemblingFinished`
with started = false if and only if the stored packet length is non-zero and
the new accumulated length is at least packet length + 6; in every other case
it answers `AssemblingContinue` with started still true.  The members are
assumed to hold values of their C++ types (`uint32_t`, `uint16_t`). -/
theorem C17_continuation (NOT_VALID : Int) (a : xPES_Assembler) (pkt : List Byte)
    (hdr : xTS_PacketHeader) (af : Option xTS_AdaptationField) (f : xTS_AdaptationField)
    (off : Nat)
    (hlen : pkt.length = 188)
    (hD : a.m_DataOffset < 4294967296) (hL : a.m_PESH.m_PacketLength < 65536)
    (hst : a.m_Started = true)
    (hpid : (hdr.getPID : Int) = a.m_PID)
    (hS : hdr.getS = 0) (hpl : hdr.hasPayload = true)
    (hcc : (hdr.getCC : Int) = (a.m_LastContinuityCounter + 1) % 16)
    (haf : hdr.hasAdaptationField = true → af = some f)
    (hoff : off = 4 + (if hdr.hasAdaptationField = true then f.getNumBytes else 0))
    (hfit : off ≤ 188) :
    ∃ (r : eResult) (b : xPES_Assembler),
      a.AbsorbPacket NOT_VALID (some pkt) (some hdr) af = some (r, b) ∧
      b.getPacket = a.getPacket ++ pkt.drop off ∧
      b.m_DataOffset = (a.m_DataOffset + (188 - off)) % 4294967296 ∧
      b.m_PESH = a.m_PESH ∧
      ((r = eResult.AssemblingFinished ∧ b.m_Started = false) ↔
        (a.m_PESH.getPacketLength ≠ 0 ∧
          b.m_DataOffset ≥ a.m_PESH.getPacketLength + 6)) ∧
      (¬ (a.m_PESH.getPacketLength ≠ 0 ∧ b.m_DataOffset ≥ a.m_PESH.getPacketLength + 6) →
        r = eResult.AssemblingContinue ∧ b.m_Started = true) := by
  have hps := xPES_Assembler.payloadStart_eq hdr af f haf off hoff (by omega)
  have hres := xPES_Assembler.AbsorbPacket_continue_mod NOT_VALID a pkt hdr af off hpid hst hcc
    (by rw [hS]; decide) hpl hps hlen hfit hD hL
  by_cases hfin : a.m_PESH.m_PacketLength ≠ 0 ∧
      a.m_PESH.m_PacketLength + 6 ≤ (a.m_DataOffset + (188 - off)) % 4294967296
  · rw [if_pos hfin] at hres
    exact ⟨_, _, hres, rfl, rfl, rfl, ⟨fun _ => hfin, fun _ => ⟨rfl, rfl⟩⟩,
      fun h => absurd hfin h⟩
  · rw [if_neg hfin] at hres
    refine ⟨_, _, hres, rfl, rfl, rfl, ⟨fun h => ?_, fun h => absurd h hfin⟩,
      fun _ => ⟨rfl, hst⟩⟩
    exact absurd h.1 (by decide)

set_option maxRecDepth 100000 in
/-- Witness of C17: `sampleAssembling` (7 bytes accumulated, declared length
362, last counter 3) is handed a continuation packet with counter 4 and 184
payload bytes. -/
theorem C17_continuation_witness :
    ((sampleTs 0 4 (List.replicate 184 0xAA)).packet.length = 188 ∧
      sampleAssembling.m_DataOffset < 4294967296 ∧
      sampleAssembling.m_PESH.m_PacketLength < 65536 ∧
      sampleAssembling.m_Started = true ∧
      (((sampleTs 0 4 (List.replicate 184 0xAA)).header.getPID : Nat) : Int) =
        sampleAssembling.m_PID ∧
      (sampleTs 0 4 (List.replicate 184 0xAA)).header.getS = 0 ∧
      (sampleTs 0 4 (List.replicate 184 0xAA)).header.hasPayload = true ∧
      (((sampleTs 0 4 (List.replicate 184 0xAA)).header.getCC : Nat) : Int) =
        (sampleAssembling.m_LastContinuityCounter + 1) % 16 ∧
      ((sampleTs 0 4 (List.replicate 184 0xAA)).header.hasAdaptationField = true →
        (sampleTs 0 4 (List.replicate 184 0xAA)).adaptationField = some {}) ∧
      4 = 4 + (if (sampleTs 0 4 (List.replicate 184 0xAA)).header.hasAdaptationField = true
          then xTS_AdaptationField.getNumBytes {} else 0) ∧
      4 ≤ 188) ∧
    ∃ (r : eResult) (b : xPES_Assembler),
      sampleAssembling.AbsorbPacket (-1) (some (sampleTs 0 4 (List.replicate 184 0xAA)).packet)
          (some (sampleTs 0 4 (List.replicate 184 0xAA)).header)
          (sampleTs 0 4 (List.replicate 184 0xAA)).adaptationField = some (r, b) ∧
      b.getPacket = sampleAssembling.getPacket ++
        (sampleTs 0 4 (List.replicate 184 0xAA)).packet.drop 4 ∧
      b.m_DataOffset = (sampleAssembling.m_DataOffset + (188 - 4)) % 4294967296 ∧
      b.m_PESH = sampleAssembling.m_PESH ∧
      ((r = eResult.AssemblingFinished ∧ b.m_Started = false) ↔
        (sampleAssembling.m_PESH.getPacketLength ≠ 0 ∧
          b.m_DataOffset ≥ sampleAssembling.m_PESH.getPacketLength + 6)) ∧
      (¬ (sampleAssembling.m_PESH.getPacketLength ≠ 0 ∧
          b.m_DataOffset ≥ sampleAssembling.m_PESH.getPacketLength + 6) →
        r = eResult.AssemblingContinue ∧ b.m_Started = true) :=
  ⟨⟨by decide, by decide, by decide, by decide, by decide, by decide, by decide, by decide,
      by decide, by decide, by decide⟩,
    C17_continuation (-1) sampleAssembling _ _ _ {} 4 (by decide) (by decide) (by decide)
      (by decide) (by decide) (by decide) (by decide) (by decide) (by decide) (by decide)
      (by decide)⟩

/-- A target-PID packet without payload unit start that passes the continuity
check while the assembler is idle, or that carries no payload, only has its
continuity counter recorded. -/
theorem xPES_Assembler.AbsorbPacket_idle (NOT_VALID : Int) (a : xPES_Assembler)
    (pkt : List Byte) (hdr : xTS_PacketHeader) (af : Option xTS_AdaptationField)
    (hpid : (hdr.getPID : Int) = a.m_PID)
    (hcc : a.m_Started = true → (hdr.getCC : Int) = (a.m_LastContinuityCounter + 1) % 16)
    (hS : hdr.getS ≠ 1)
    (hidle : a.m_Started = false ∨ hdr.hasPayload = false)
    (haf : hdr.hasAdaptationField = true → af ≠ none) :
    a.AbsorbPacket NOT_VALID (some pkt) (some hdr) af =
      some (eResult.UnexpectedPID, { a with m_LastContinuityCounter := i8 hdr.getCC }) := by
  have hcheck : ¬ (a.m_Started = true ∧
      (hdr.getCC : Int) ≠ i8 (andInt (a.m_LastContinuityCounter + 1) 0b0001111)) := by
    rw [expectedCC_eq]
    intro h
    exact h.2 (hcc h.1)
  have hps : ∃ off, xPES_Assembler.payloadStart hdr af = some off := by
    unfold xPES_Assembler.payloadStart
    by_cases h : hdr.hasAdaptationField = true
    · rw [if_pos h]
      cases af with
      | none => exact absurd rfl (haf h)
      | some f => exact ⟨_, rfl⟩
    · rw [if_neg h]
      exact ⟨_, rfl⟩
  obtain ⟨off, hoff⟩ := hps
  have hcont : ¬ (a.m_Started = true ∧ hdr.hasPayload = true) := by
    rcases hidle with h | h
    · rw [h]; simp
    · rw [h]; simp
  unfold xPES_Assembler.AbsorbPacket
  simp only []
  rw [if_neg (not_not.mpr hpid), if_neg hcheck, hoff, Option.some_bind, if_neg hS,
    if_neg hcont]

/-- C18: a target-PID packet without payload unit start that passes the
continuity check, arriving while the assembler is not assembling or carrying no
payload, is answered `UnexpectedPID`; buffer, accumulated length, started flag
and stored PES header are unchanged, and the last continuity counter is the
counter of the packet. -/
theorem C18_nothing_to_do (NOT_VALID : Int) (a : xPES_Assembler) (pkt : List Byte)
    (hdr : xTS_PacketHeader) (af : Option xTS_AdaptationField)
    (hpid : (hdr.getPID : Int) = a.m_PID)
    (hcc : a.m_Started = true → (hdr.getCC : Int) = (a.m_LastContinuityCounter + 1) % 16)
    (hS : hdr.getS = 0)
    (hidle : a.m_Started = false ∨ hdr.hasPayload = false)
    (haf : hdr.hasAdaptationField = true → af ≠ none)
    (hc8 : hdr.getCC < 128) :
    ∃ b : xPES_Assembler,
      a.AbsorbPacket NOT_VALID (some pkt) (some hdr) af = some (eResult.UnexpectedPID, b) ∧
      b.getPacket = a.getPacket ∧ b.m_DataOffset = a.m_DataOffset ∧
      b.getNumPacketBytes = a.getNumPacketBytes ∧
      b.m_Started = a.m_Started ∧ b.m_PESH = a.m_PESH ∧ b.m_PID = a.m_PID ∧
      b.m_LastContinuityCounter = hdr.getCC := by
  refine ⟨_, xPES_Assembler.AbsorbPacket_idle NOT_VALID a pkt hdr af hpid hcc
    (by rw [hS]; decide) hidle haf, rfl, rfl, rfl, rfl, rfl, rfl, ?_⟩
  show i8 (hdr.getCC : Int) = hdr.getCC
  unfold i8
  omega

set_option maxRecDepth 100000 in
/-- Witness of C18: `sampleAssembling` is handed a packet with the expected
counter 4 and adaptation field control 2, that is, without payload. -/
theorem C18_nothing_to_do_witness :
    ((((sampleTsAf 0 4 2 183 (List.replicate 182 0xFF)).header.getPID : Nat) : Int) =
        sampleAssembling.m_PID ∧
      (sampleAssembling.m_Started = true →
        (((sampleTsAf 0 4 2 183 (List.replicate 182 0xFF)).header.getCC : Nat) : Int) =
          (sampleAssembling.m_LastContinuityCounter + 1) % 16) ∧
      (sampleTsAf 0 4 2 183 (List.replicate 182 0xFF)).header.getS = 0 ∧
      (sampleAssembling.m_Started = false ∨
        (sampleTsAf 0 4 2 183 (List.replicate 182 0xFF)).header.hasPayload = false) ∧
      ((sampleTsAf 0 4 2 183 (List.replicate 182 0xFF)).header.hasAdaptationField = true →
        (sampleTsAf 0 4 2 183 (List.replicate 182 0xFF)).adaptationField ≠ none) ∧
      (sampleTsAf 0 4 2 183 (List.replicate 182 0xFF)).header.getCC < 128) ∧
    ∃ b : xPES_Assembler,
      sampleAssembling.AbsorbPacket (-1)
          (some (sampleTsAf 0 4 2 183 (List.replicate 182 0xFF)).packet)
          (some (sampleTsAf 0 4 2 183 (List.replicate 182 0xFF)).header)
          (sampleTsAf 0 4 2 183 (List.replicate 182 0xFF)).adaptationField =
        some (eResult.UnexpectedPID, b) ∧
      b.getPacket = sampleAssembling.getPacket ∧
      b.m_DataOffset = sampleAssembling.m_DataOffset ∧
      b.getNumPacketBytes = sampleAssembling.getNumPacketBytes ∧
      b.m_Started = sampleAssembling.m_Started ∧ b.m_PESH = sampleAssembling.m_PESH ∧
      b.m_PID = sampleAssembling.m_PID ∧
      b.m_LastContinuityCounter =
        (sampleTsAf 0 4 2 183 (List.replicate 182 0xFF)).header.getCC :=
  ⟨⟨by decide, by decide, by decide, by decide, by decide, by decide⟩,
    C18_nothing_to_do (-1) sampleAssembling _ _ _ (by decide) (by decide) (by decide)
      (by decide) (by decide) (by decide)⟩

/-! ## Recovery after a loss -/

/-- `AbsorbPacket` never changes the target PID. -/
theorem xPES_Assembler.AbsorbPacket_PID (NOT_VALID : Int) (a b : xPES_Assembler)
    (pkt : Option (List Byte)) (hdr : Option xTS_PacketHeader)
    (af : Option xTS_AdaptationField) (r : eResult)
    (h : a.AbsorbPacket NOT_VALID pkt hdr af = some (r, b)) : b.m_PID = a.m_PID := by
  cases pkt with
  | none =>
    simp only [xPES_Assembler.AbsorbPacket, Option.some.injEq, Prod.mk.injEq] at h
    rw [← h.2]
  | some pkt =>
    cases hdr with
    | none =>
      simp only [xPES_Assembler.AbsorbPacket, Option.some.injEq, Prod.mk.injEq] at h
      rw [← h.2]
    | some hdr =>
      by_cases hpid : (hdr.getPID : Int) = a.m_PID
      · by_cases hst : a.m_Started = true ∧
            (hdr.getCC : Int) ≠ (a.m_LastContinuityCounter + 1) % 16
        · rw [xPES_Assembler.AbsorbPacket_lost NOT_VALID a pkt hdr af hpid hst.1 hst.2] at h
          simp only [Option.some.injEq, Prod.mk.injEq] at h
          rw [← h.2]
        · exact (xPES_Assembler.AbsorbPacket_pass NOT_VALID a pkt hdr af hpid
            (fun h1 => by_contra fun h2 => hst ⟨h1, h2⟩) r b h).2.1
      · rw [xPES_Assembler.AbsorbPacket_foreign NOT_VALID a pkt hdr af hpid] at h
        simp only [Option.some.injEq, Prod.mk.injEq] at h
        rw [← h.2]

/-- A call that answers `StreamPackedLost` leaves the assembler idle with an
empty buffer. -/
theorem xPES_Assembler.AbsorbPacket_lost_state (NOT_VALID : Int) (a b : xPES_Assembler)
    (pkt : Option (List Byte)) (hdr : Option xTS_PacketHeader)
    (af : Option xTS_AdaptationField)
    (h : a.AbsorbPacket NOT_VALID pkt hdr af = some (eResult.StreamPackedLost, b)) :
    b.m_Started = false ∧ b.m_Buffer = [] ∧ b.m_DataOffset = 0 := by
  cases pkt with
  | none =>
    simp only [xPES_Assembler.AbsorbPacket, Option.some.injEq, Prod.mk.injEq] at h
    exact absurd h.1 (by decide)
  | some pkt =>
    cases hdr with
    | none =>
      simp only [xPES_Assembler.AbsorbPacket, Option.some.injEq, Prod.mk.injEq] at h
      exact absurd h.1 (by decide)
    | some hdr =>
      by_cases hpid : (hdr.getPID : Int) = a.m_PID
      · by_cases hst : a.m_Started = true ∧
            (hdr.getCC : Int) ≠ (a.m_LastContinuityCounter + 1) % 16
        · rw [xPES_Assembler.AbsorbPacket_lost NOT_VALID a pkt hdr af hpid hst.1 hst.2] at h
          simp only [Option.some.injEq, Prod.mk.injEq, true_and] at h
          rw [← h]
          exact ⟨rfl, rfl, rfl⟩
        · exact absurd rfl (xPES_Assembler.AbsorbPacket_pass NOT_VALID a pkt hdr af hpid
            (fun h1 => by_contra fun h2 => hst ⟨h1, h2⟩) _ b h).1
      · rw [xPES_Assembler.AbsorbPacket_foreign NOT_VALID a pkt hdr af hpid] at h
        simp only [Option.some.injEq, Prod.mk.injEq] at h
        exact absurd h.1 (by decide)

/-- While the assembler is idle, packets for other PIDs and target-PID packets
without payload unit start are all answered `UnexpectedPID` and leave it idle. -/
theorem absorbAll_idle (NOT_VALID : Int) (mid : List TsPacket) :
    ∀ a : xPES_Assembler, a.m_Started = false →
      (∀ q ∈ mid, (q.header.getPID : Int) ≠ a.m_PID ∨
        (q.header.getS = 0 ∧ (q.header.hasAdaptationField = true → q.adaptationField ≠ none))) →
      ∃ s : xPES_Assembler,
        absorbAll NOT_VALID a mid = (List.replicate mid.length eResult.UnexpectedPID, some s) ∧
        s.m_Started = false ∧ s.m_PID = a.m_PID ∧ s.m_Buffer = a.m_Buffer ∧
        s.m_DataOffset = a.m_DataOffset := by
  induction mid with
  | nil =>
    intro a hst _
    exact ⟨a, rfl, hst, rfl, rfl, rfl⟩
  | cons q qs ih =>
    intro a hst hall
    have hstep : ∃ b : xPES_Assembler,
        a.AbsorbPacket NOT_VALID (some q.packet) (some q.header) q.adaptationField =
          some (eResult.UnexpectedPID, b) ∧
        b.m_Started = false ∧ b.m_PID = a.m_PID ∧ b.m_Buffer = a.m_Buffer ∧
        b.m_DataOffset = a.m_DataOffset := by
      by_cases hpid : (q.header.getPID : Int) = a.m_PID
      · rcases hall q (List.mem_cons_self _ _) with h | ⟨hS, haf⟩
        · exact absurd hpid h
        · exact ⟨_, xPES_Assembler.AbsorbPacket_idle NOT_VALID a q.packet q.header
            q.adaptationField hpid (fun h => absurd (hst.symm.trans h) (by decide))
            (by rw [hS]; decide) (Or.inl hst) haf, hst, rfl, rfl, rfl⟩
      · exact ⟨a, xPES_Assembler.AbsorbPacket_foreign NOT_VALID a q.packet q.header
          q.adaptationField hpid, hst, rfl, rfl, rfl⟩
    obtain ⟨b, hb, hbst, hbpid, hbbuf, hboff⟩ := hstep
    obtain ⟨s, hrun, h1, h2, h3, h4⟩ := ih b hbst
      (fun x hx => by rw [hbpid]; exact hall x (List.mem_cons_of_mem _ hx))
    refine ⟨s, ?_, h1, h2.trans hbpid, h3.trans hbbuf, h4.trans hboff⟩
    rw [absorbAll_cons_some NOT_VALID a b q qs _ hb, hrun]
    rfl

theorem absorbAll_append (NOT_VALID : Int) (xs ys : List TsPacket) :
    ∀ (a s : xPES_Assembler) (outs : List eResult),
      absorbAll NOT_VALID a xs = (outs, some s) →
      absorbAll NOT_VALID a (xs ++ ys) =
        (outs ++ (absorbAll NOT_VALID s ys).1, (absorbAll NOT_VALID s ys).2) := by
  induction xs with
  | nil =>
    intro a s outs h
    simp only [absorbAll, Prod.mk.injEq, Option.some.injEq] at h
    obtain ⟨rfl, rfl⟩ := h
    rfl
  | cons x xs ih =>
    intro a s outs h
    cases hres : a.AbsorbPacket NOT_VALID (some x.packet) (some x.header) x.adaptationField with
    | none =>
      rw [absorbAll_cons_none NOT_VALID a x xs hres] at h
      simp only [Prod.mk.injEq] at h
      exact absurd h.2 (by simp)
    | some rb =>
      obtain ⟨r, b⟩ := rb
      rw [absorbAll_cons_some NOT_VALID a b x xs r hres] at h
      simp only [Prod.mk.injEq] at h
      obtain ⟨h1, h2⟩ := h
      have hrec := ih b s (absorbAll NOT_VALID b xs).1 (Prod.ext rfl h2)
      rw [List.cons_append, absorbAll_cons_some NOT_VALID a b x (xs ++ ys) r hres, hrec, ← h1]
      rfl

/-- C19: in the state left by a call of `AbsorbPacket` that answered
`StreamPackedLost`, packets for other PIDs and target-PID packets without
payload unit start are answered `UnexpectedPID`, and the next target-PID packet
with payload unit start (offset + 6 <= 188) is answered `AssemblingStarted`
whatever its continuity counter is; afterwards the assembler is assembling and
its buffer holds exactly the payload bytes packet[offset .. 187] of that
packet. -/
theorem C19_recovery_after_loss (NOT_VALID : Int) (a0 a1 : xPES_Assembler)
    (pkt0 : Option (List Byte)) (hdr0 : Option xTS_PacketHeader)
    (af0 : Option xTS_AdaptationField) (mid : List TsPacket) (p : TsPacket) (off : Nat)
    (hlost : a0.AbsorbPacket NOT_VALID pkt0 hdr0 af0 = some (eResult.StreamPackedLost, a1))
    (hmid : ∀ q ∈ mid, (q.header.getPID : Int) ≠ a1.m_PID ∨
      (q.header.getS = 0 ∧ (q.header.hasAdaptationField = true → q.adaptationField ≠ none)))
    (hpid : (p.header.getPID : Int) = a1.m_PID) (hS : p.header.getS = 1)
    (hlen : p.packet.length = 188)
    (hoff : xPES_Assembler.payloadStart p.header p.adaptationField = some off)
    (hfit : off + 6 ≤ 188) :
    ∃ s : xPES_Assembler,
      absorbAll NOT_VALID a1 (mid ++ [p]) =
        (List.replicate mid.length eResult.UnexpectedPID ++ [eResult.AssemblingStarted],
          some s) ∧
      s.m_Started = true ∧
      s.getPacket = p.packet.drop off ∧ s.getPacket = p.payload ∧
      s.m_DataOffset = 188 - off := by
  obtain ⟨hidle, -, -⟩ := xPES_Assembler.AbsorbPacket_lost_state NOT_VALID a0 a1 pkt0 hdr0 af0 hlost
  obtain ⟨s1, hrun1, hst1, hpid1, -, -⟩ := absorbAll_idle NOT_VALID mid a1 hidle hmid
  obtain ⟨pesh, -, hstart⟩ := xPES_Assembler.AbsorbPacket_start NOT_VALID s1 p.packet p.header
    p.adaptationField off (hpid.trans hpid1.symm)
    (fun h => absurd (hst1.symm.trans h) (by decide)) hS hoff hlen hfit
  refine ⟨{ m_PID := s1.m_PID, m_Buffer := p.packet.drop off, m_DataOffset := 188 - off
            m_LastContinuityCounter := i8 p.header.getCC, m_Started := true, m_PESH := pesh },
    ?_, rfl, rfl, ?_, rfl⟩
  · rw [absorbAll_append NOT_VALID mid [p] a1 s1 _ hrun1,
      absorbAll_cons_some NOT_VALID s1 _ p [] _ hstart, absorbAll_nil]
  · show p.packet.drop off = p.payload
    unfold TsPacket.payload
    rw [hoff]
    simp only []
    symm
    apply List.take_of_length_le
    rw [List.length_drop, hlen]
    unfold xTS.TS_PacketLength
    exact le_refl _

set_option maxRecDepth 100000 in
/-- Witness of C19: `sampleAssembling` expects counter 4 and is handed counter 6,
which is answered `StreamPackedLost`; then come a packet of PID 137 and a
target-PID packet without payload unit start, and then a packet with payload
unit start and counter 2. -/
theorem C19_recovery_after_loss_witness :
    (sampleAssembling.AbsorbPacket (-1) (some (sampleTs 0 6 (List.replicate 184 0)).packet)
          (some (sampleTs 0 6 (List.replicate 184 0)).header) (some {}) =
        some (eResult.StreamPackedLost,
          { sampleAssembling with m_Started := false, m_Buffer := [], m_DataOffset := 0 }) ∧
      (∀ q ∈ [sampleForeign 9, sampleTs 0 9 (List.replicate 184 0)],
        (q.header.getPID : Int) ≠
            ({ sampleAssembling with m_Started := false, m_Buffer := [], m_DataOffset := 0 } :
              xPES_Assembler).m_PID ∨
          (q.header.getS = 0 ∧
            (q.header.hasAdaptationField = true → q.adaptationField ≠ none))) ∧
      (((sampleTs 1 2 (samplePes 178)).header.getPID : Nat) : Int) =
        ({ sampleAssembling with m_Started := false, m_Buffer := [], m_DataOffset := 0 } :
          xPES_Assembler).m_PID ∧
      (sampleTs 1 2 (samplePes 178)).header.getS = 1 ∧
      (sampleTs 1 2 (samplePes 178)).packet.length = 188 ∧
      xPES_Assembler.payloadStart (sampleTs 1 2 (samplePes 178)).header
        (sampleTs 1 2 (samplePes 178)).adaptationField = some 4 ∧
      4 + 6 ≤ 188) ∧
    ∃ s : xPES_Assembler,
      absorbAll (-1) { sampleAssembling with m_Started := false, m_Buffer := [], m_DataOffset := 0 }
          ([sampleForeign 9, sampleTs 0 9 (List.replicate 184 0)] ++
            [sampleTs 1 2 (samplePes 178)]) =
        (List.replicate [sampleForeign 9, sampleTs 0 9 (List.replicate 184 0)].length
            eResult.UnexpectedPID ++ [eResult.AssemblingStarted], some s) ∧
      s.m_Started = true ∧
      s.getPacket = (sampleTs 1 2 (samplePes 178)).packet.drop 4 ∧
      s.getPacket = (sampleTs 1 2 (samplePes 178)).payload ∧
      s.m_DataOffset = 188 - 4 :=
  ⟨⟨by decide, by decide, by decide, by decide, by decide, by decide, by decide⟩,
    C19_recovery_after_loss (-1) sampleAssembling
      { sampleAssembling with m_Started := false, m_Buffer := [], m_DataOffset := 0 }
      (some (sampleTs 0 6 (List.replicate 184 0)).packet)
      (some (sampleTs 0 6 (List.replicate 184 0)).header) (some {})
      [sampleForeign 9, sampleTs 0 9 (List.replicate 184 0)] (sampleTs 1 2 (samplePes 178)) 4
      (by decide) (by decide) (by decide) (by decide) (by decide) (by decide) (by decide)⟩

/-! ## Non-interference of packets for other PIDs -/

/-- A run over a sequence with packets of other PIDs mixed in, compared with
the run over the target-PID packets alone. -/
theorem absorbAll_filter (NOT_VALID : Int) (PID : Int) (s' : List TsPacket) :
    ∀ a : xPES_Assembler, a.m_PID = PID →
      (absorbAll NOT_VALID a s').2 =
        (absorbAll NOT_VALID a
          (s'.filter fun p => decide ((p.header.getPID : Int) = PID))).2 ∧
      ((s'.zip (absorbAll NOT_VALID a s').1).filter
          fun x => decide ((x.1.header.getPID : Int) = PID)).map Prod.snd =
        (absorbAll NOT_VALID a
          (s'.filter fun p => decide ((p.header.getPID : Int) = PID))).1 ∧
      (∀ x ∈ s'.zip (absorbAll NOT_VALID a s').1,
        (x.1.header.getPID : Int) ≠ PID → x.2 = eResult.UnexpectedPID) ∧
      ((absorbAll NOT_VALID a
            (s'.filter fun p => decide ((p.header.getPID : Int) = PID))).1.length =
          (s'.filter fun p => decide ((p.header.getPID : Int) = PID)).length →
        (absorbAll NOT_VALID a s').1.length = s'.length) := by
  induction s' with
  | nil =>
    intro a _
    simp [absorbAll]
  | cons p ps ih =>
    intro a ha
    by_cases hpid : (p.header.getPID : Int) = PID
    · have hf : (p :: ps).filter (fun p => decide ((p.header.getPID : Int) = PID)) =
          p :: ps.filter (fun p => decide ((p.header.getPID : Int) = PID)) := by
        rw [List.filter_cons_of_pos (by simpa using hpid)]
      rw [hf]
      cases hres : a.AbsorbPacket NOT_VALID (some p.packet) (some p.header) p.adaptationField with
      | none =>
        rw [absorbAll_cons_none NOT_VALID a p _ hres, absorbAll_cons_none NOT_VALID a p _ hres]
        simp
      | some rb =>
        obtain ⟨r, b⟩ := rb
        have hb := xPES_Assembler.AbsorbPacket_PID NOT_VALID a b _ _ _ r hres
        obtain ⟨h1, h2, h3, h4⟩ := ih b (hb.trans ha)
        rw [absorbAll_cons_some NOT_VALID a b p _ r hres,
          absorbAll_cons_some NOT_VALID a b p _ r hres]
        refine ⟨h1, ?_, ?_, ?_⟩
        · simp only [List.zip_cons_cons]
          rw [List.filter_cons_of_pos (by simpa using hpid), List.map_cons, h2]
        · intro x hx hne
          simp only [List.zip_cons_cons, List.mem_cons] at hx
          rcases hx with rfl | hx
          · exact absurd hpid hne
          · exact h3 x hx hne
        · intro hl
          simp only [List.length_cons, Nat.add_right_cancel_iff] at hl ⊢
          exact h4 hl
    · have hf : (p :: ps).filter (fun p => decide ((p.header.getPID : Int) = PID)) =
          ps.filter (fun p => decide ((p.header.getPID : Int) = PID)) := by
        rw [List.filter_cons_of_neg (by simpa using hpid)]
      rw [hf]
      have hres := xPES_Assembler.AbsorbPacket_foreign NOT_VALID a p.packet p.header
        p.adaptationField (by rw [ha]; exact hpid)
      obtain ⟨h1, h2, h3, h4⟩ := ih a ha
      rw [absorbAll_cons_some NOT_VALID a a p _ _ hres]
      refine ⟨h1, ?_, ?_, ?_⟩
      · simp only [List.zip_cons_cons]
        rw [List.filter_cons_of_neg (by simpa using hpid), h2]
      · intro x hx hne
        simp only [List.zip_cons_cons, List.mem_cons] at hx
        rcases hx with rfl | hx
        · rfl
        · exact h3 x hx hne
      · intro hl
        simp only [List.length_cons, Nat.add_right_cancel_iff]
        exact h4 hl

/-- C11: let `s` be a sequence of target-PID packets and `s'` a sequence
obtained from it by inserting packets with other PIDs at arbitrary places, that
is, the target-PID packets of `s'` are, in order, the packets of `s`.  The run
of a freshly initialised assembler over `s'` ends in the same state as the run
over `s`, answers `UnexpectedPID` for every inserted packet, and gives the
packets of `s` the same outcomes as the run over `s`; if every packet of `s`
gets an outcome, so does every packet of `s'`. -/
theorem C11_PID_filter_noninterference (NOT_VALID : Int) (PID : Int) (s s' : List TsPacket)
    (hins : s'.filter (fun p => decide ((p.header.getPID : Int) = PID)) = s) :
    (∀ p ∈ s, (p.header.getPID : Int) = PID) ∧
    (absorbAll NOT_VALID (xPES_Assembler.Init {} PID) s').2 =
      (absorbAll NOT_VALID (xPES_Assembler.Init {} PID) s).2 ∧
    ((s'.zip (absorbAll NOT_VALID (xPES_Assembler.Init {} PID) s').1).filter
        fun x => decide ((x.1.header.getPID : Int) = PID)).map Prod.snd =
      (absorbAll NOT_VALID (xPES_Assembler.Init {} PID) s).1 ∧
    (∀ x ∈ s'.zip (absorbAll NOT_VALID (xPES_Assembler.Init {} PID) s').1,
      (x.1.header.getPID : Int) ≠ PID → x.2 = eResult.UnexpectedPID) ∧
    ((absorbAll NOT_VALID (xPES_Assembler.Init {} PID) s).1.length = s.length →
      (absorbAll NOT_VALID (xPES_Assembler.Init {} PID) s').1.length = s'.length) := by
  subst hins
  refine ⟨?_, absorbAll_filter NOT_VALID PID s' (xPES_Assembler.Init {} PID) rfl⟩
  intro p hp
  simpa using (List.mem_filter.mp hp).2

set_option maxRecDepth 100000 in
/-- Witness of C11: `sampleCounters` with packets of PID 137 inserted before
the first packet, after the second and after the last. -/
theorem C11_PID_filter_noninterference_witness :
    (sampleForeign 3 :: sampleCounters.take 2 ++ sampleForeign 4 :: sampleCounters.drop 2 ++
          [sampleForeign 9]).filter (fun p => decide ((p.header.getPID : Int) = 136)) =
        sampleCounters ∧
    ((∀ p ∈ sampleCounters, (p.header.getPID : Int) = 136) ∧
      (absorbAll (-1) (xPES_Assembler.Init {} 136)
          (sampleForeign 3 :: sampleCounters.take 2 ++ sampleForeign 4 ::
            sampleCounters.drop 2 ++ [sampleForeign 9])).2 =
        (absorbAll (-1) (xPES_Assembler.Init {} 136) sampleCounters).2 ∧
      (((sampleForeign 3 :: sampleCounters.take 2 ++ sampleForeign 4 :: sampleCounters.drop 2 ++
            [sampleForeign 9]).zip
          (absorbAll (-1) (xPES_Assembler.Init {} 136)
            (sampleForeign 3 :: sampleCounters.take 2 ++ sampleForeign 4 ::
              sampleCounters.drop 2 ++ [sampleForeign 9])).1).filter
          fun x => decide ((x.1.header.getPID : Int) = 136)).map Prod.snd =
        (absorbAll (-1) (xPES_Assembler.Init {} 136) sampleCounters).1 ∧
      (∀ x ∈ (sampleForeign 3 :: sampleCounters.take 2 ++ sampleForeign 4 ::
            sampleCounters.drop 2 ++ [sampleForeign 9]).zip
          (absorbAll (-1) (xPES_Assembler.Init {} 136)
            (sampleForeign 3 :: sampleCounters.take 2 ++ sampleForeign 4 ::
              sampleCounters.drop 2 ++ [sampleForeign 9])).1,
        (x.1.header.getPID : Int) ≠ 136 → x.2 = eResult.UnexpectedPID) ∧
      ((absorbAll (-1) (xPES_Assembler.Init {} 136) sampleCounters).1.length =
          sampleCounters.length →
        (absorbAll (-1) (xPES_Assembler.Init {} 136)
            (sampleForeign 3 :: sampleCounters.take 2 ++ sampleForeign 4 ::
              sampleCounters.drop 2 ++ [sampleForeign 9])).1.length =
          (sampleForeign 3 :: sampleCounters.take 2 ++ sampleForeign 4 ::
            sampleCounters.drop 2 ++ [sampleForeign 9]).length)) :=
  ⟨by decide,
    C11_PID_filter_noninterference (-1) 136 sampleCounters
      (sampleForeign 3 :: sampleCounters.take 2 ++ sampleForeign 4 :: sampleCounters.drop 2 ++
        [sampleForeign 9]) (by decide)⟩

/-! ## Invariants of the buffer -/

/-- What a call of `AbsorbPacket` can do to the buffer: leave it alone and
answer `UnexpectedPID`, empty it, or append one copy to the old or to the
emptied buffer; after an append the assembler is started unless the answer is
`AssemblingFinished`. -/
theorem xPES_Assembler.AbsorbPacket_cases (NOT_VALID : Int) (a b : xPES_Assembler)
    (pkt : Option (List Byte)) (hdr : Option xTS_PacketHeader)
    (af : Option xTS_AdaptationField) (r : eResult)
    (h : a.AbsorbPacket NOT_VALID pkt hdr af = some (r, b)) :
    (r = eResult.UnexpectedPID ∧ b.m_Buffer = a.m_Buffer ∧ b.m_DataOffset = a.m_DataOffset ∧
        b.m_Started = a.m_Started) ∨
      (b.m_Buffer = [] ∧ b.m_DataOffset = 0) ∨
      (r ≠ eResult.UnexpectedPID ∧ (b.m_Started = true ∨ r = eResult.AssemblingFinished) ∧
        ∃ (c e : xPES_Assembler) (d : Option (List Byte)) (n : Int),
          ((c.m_Buffer = a.m_Buffer ∧ c.m_DataOffset = a.m_DataOffset) ∨
            (c.m_Buffer = [] ∧ c.m_DataOffset = 0)) ∧
          c.xBufferAppend d n = some e ∧ b.m_Buffer = e.m_Buffer ∧
          b.m_DataOffset = e.m_DataOffset) := by
  cases pkt with
  | none =>
    simp only [xPES_Assembler.AbsorbPacket, Option.some.injEq, Prod.mk.injEq] at h
    obtain ⟨rfl, rfl⟩ := h
    exact Or.inl ⟨rfl, rfl, rfl, rfl⟩
  | some pkt =>
    cases hdr with
    | none =>
      simp only [xPES_Assembler.AbsorbPacket, Option.some.injEq, Prod.mk.injEq] at h
      obtain ⟨rfl, rfl⟩ := h
      exact Or.inl ⟨rfl, rfl, rfl, rfl⟩
    | some hdr =>
      unfold xPES_Assembler.AbsorbPacket at h
      simp only [] at h
      split at h
      · simp only [Option.some.injEq, Prod.mk.injEq] at h
        obtain ⟨rfl, rfl⟩ := h
        exact Or.inl ⟨rfl, rfl, rfl, rfl⟩
      · split at h
        · simp only [Option.some.injEq, Prod.mk.injEq] at h
          obtain ⟨rfl, rfl⟩ := h
          exact Or.inr (Or.inl ⟨rfl, rfl⟩)
        · rw [Option.bind_eq_some] at h
          obtain ⟨off, -, h⟩ := h
          have hstart : ∀ (a0 : xPES_Assembler) (res : eResult),
              ((xPES_PacketHeader.Parse NOT_VALID a0.m_PESH.Reset (some (pkt.drop off))).bind
                fun p =>
                if p.1 = 0 then
                  (xPES_Assembler.xBufferAppend
                      { m_PID := a0.m_PID, m_Buffer := [], m_DataOffset := 0
                        m_LastContinuityCounter := a0.m_LastContinuityCounter, m_Started := true
                        m_PESH := p.2 }
                      (some (pkt.drop off))
                      (i32 (u32 ((xTS.TS_PacketLength : Int) - off)))).bind fun c =>
                    some (eResult.AssemblingStarted, c)
                else
                  some (res,
                    { m_PID := a0.m_PID, m_Buffer := [], m_DataOffset := 0
                      m_LastContinuityCounter := a0.m_LastContinuityCounter
                      m_Started := a0.m_Started, m_PESH := p.2 })) = some (r, b) →
              (b.m_Buffer = [] ∧ b.m_DataOffset = 0) ∨
                (r ≠ eResult.UnexpectedPID ∧
                  (b.m_Started = true ∨ r = eResult.AssemblingFinished) ∧
                  ∃ (c e : xPES_Assembler) (d : Option (List Byte)) (n : Int),
                    ((c.m_Buffer = a.m_Buffer ∧ c.m_DataOffset = a.m_DataOffset) ∨
                      (c.m_Buffer = [] ∧ c.m_DataOffset = 0)) ∧
                    c.xBufferAppend d n = some e ∧ b.m_Buffer = e.m_Buffer ∧
                    b.m_DataOffset = e.m_DataOffset) := by
            intro a0 res h
            rw [Option.bind_eq_some] at h
            obtain ⟨p, -, h⟩ := h
            by_cases hp : p.1 = 0
            · rw [if_pos hp, Option.bind_eq_some] at h
              obtain ⟨c, hc, h⟩ := h
              obtain ⟨-, -, f3, -⟩ := xPES_Assembler.xBufferAppend_frame _ _ _ _ hc
              simp only [Option.some.injEq, Prod.mk.injEq] at h
              obtain ⟨rfl, rfl⟩ := h
              exact Or.inr ⟨by decide, Or.inl f3, _, _, _, _, Or.inr ⟨rfl, rfl⟩, hc, rfl, rfl⟩
            · rw [if_neg hp] at h
              simp only [Option.some.injEq, Prod.mk.injEq] at h
              obtain ⟨rfl, rfl⟩ := h
              exact Or.inl ⟨rfl, rfl⟩
          by_cases hS : hdr.getS = 1
          · rw [if_pos hS] at h
            by_cases hst : a.m_Started = true
            · rw [if_pos hst] at h
              exact Or.inr (hstart
                { a with m_Started := false, m_LastContinuityCounter := i8 hdr.getCC }
                eResult.AssemblingFinished h)
            · rw [if_neg hst] at h
              exact Or.inr (hstart { a with m_LastContinuityCounter := i8 hdr.getCC }
                eResult.UnexpectedPID h)
          · rw [if_neg hS] at h
            by_cases hcont : a.m_Started = true ∧ hdr.hasPayload = true
            · rw [if_pos hcont, Option.bind_eq_some] at h
              obtain ⟨c, hc, h⟩ := h
              obtain ⟨-, -, f3, -⟩ := xPES_Assembler.xBufferAppend_frame _ _ _ _ hc
              have hc3 : c.m_Started = true := f3.trans hcont.1
              split at h
              · split at h
                · simp only [Option.some.injEq, Prod.mk.injEq] at h
                  obtain ⟨rfl, rfl⟩ := h
                  exact Or.inr (Or.inr ⟨fun hh => eResult.noConfusion hh, Or.inr rfl,
                    { a with m_LastContinuityCounter := i8 hdr.getCC }, c, _, _,
                    Or.inl ⟨rfl, rfl⟩, hc, rfl, rfl⟩)
                · simp only [Option.some.injEq, Prod.mk.injEq] at h
                  obtain ⟨rfl, rfl⟩ := h
                  exact Or.inr (Or.inr ⟨fun hh => eResult.noConfusion hh, Or.inl hc3,
                    { a with m_LastContinuityCounter := i8 hdr.getCC }, c, _, _,
                    Or.inl ⟨rfl, rfl⟩, hc, rfl, rfl⟩)
              · simp only [Option.some.injEq, Prod.mk.injEq] at h
                obtain ⟨rfl, rfl⟩ := h
                exact Or.inr (Or.inr ⟨fun hh => eResult.noConfusion hh, Or.inl hc3,
                  { a with m_LastContinuityCounter := i8 hdr.getCC }, c, _, _,
                  Or.inl ⟨rfl, rfl⟩, hc, rfl, rfl⟩)
            · rw [if_neg hcont] at h
              simp only [Option.some.injEq, Prod.mk.injEq] at h
              obtain ⟨rfl, rfl⟩ := h
              exact Or.inl ⟨rfl, rfl, rfl, rfl⟩

/-- The data offset after `xBufferAppend` is the buffer length modulo 2^32 when
it was so before. -/
theorem xPES_Assembler.xBufferAppend_offset (a b : xPES_Assembler) (Data : Option (List Byte))
    (Size : Int) (hinv : a.m_DataOffset = a.m_Buffer.length % 4294967296)
    (h : a.xBufferAppend Data Size = some b) :
    b.m_DataOffset = b.m_Buffer.length % 4294967296 := by
  unfold xPES_Assembler.xBufferAppend at h
  cases Data with
  | none =>
    simp only [Option.some.injEq] at h
    subst h
    exact hinv
  | some d =>
    simp only at h
    split at h
    · split at h
      · rename_i h1 h2
        simp only [Option.some.injEq] at h
        subst h
        show u32 ((a.m_DataOffset : Int) + Size) =
          (a.m_Buffer ++ d.take Size.toNat).length % 4294967296
        rw [List.length_append, List.length_take, Nat.min_eq_left h2, hinv]
        unfold u32
        omega
      · exact absurd h (by simp)
    · simp only [Option.some.injEq] at h
      subst h
      exact hinv

/-- One call of `AbsorbPacket` keeps the data offset equal to the buffer length
modulo 2^32. -/
theorem xPES_Assembler.AbsorbPacket_offset (NOT_VALID : Int) (a b : xPES_Assembler)
    (pkt : Option (List Byte)) (hdr : Option xTS_PacketHeader)
    (af : Option xTS_AdaptationField) (r : eResult)
    (hinv : a.m_DataOffset = a.m_Buffer.length % 4294967296)
    (h : a.AbsorbPacket NOT_VALID pkt hdr af = some (r, b)) :
    b.m_DataOffset = b.m_Buffer.length % 4294967296 := by
  rcases xPES_Assembler.AbsorbPacket_cases NOT_VALID a b pkt hdr af r h with
    ⟨-, h1, h2, -⟩ | ⟨h1, h2⟩ | ⟨-, -, c, e, d, n, hc, happ, h1, h2⟩
  · rw [h1, h2]; exact hinv
  · rw [h1, h2]; rfl
  · rw [h1, h2]
    apply xPES_Assembler.xBufferAppend_offset c e d n _ happ
    rcases hc with ⟨c1, c2⟩ | ⟨c1, c2⟩
    · rw [c1, c2]; exact hinv
    · rw [c1, c2]; rfl

/-- Every run of calls keeps the data offset equal to the buffer length modulo
2^32. -/
theorem runCalls_offset (NOT_VALID : Int) (calls : List Call) :
    ∀ (a s : xPES_Assembler) (outs : List eResult),
      a.m_DataOffset = a.m_Buffer.length % 4294967296 →
      runCalls NOT_VALID a calls = (outs, some s) →
      s.m_DataOffset = s.m_Buffer.length % 4294967296 := by
  induction calls with
  | nil =>
    intro a s outs hinv h
    simp only [runCalls, Prod.mk.injEq, Option.some.injEq] at h
    rw [← h.2]; exact hinv
  | cons c cs ih =>
    intro a s outs hinv h
    cases c with
    | Init PID =>
      simp only [runCalls] at h
      exact ih (a.Init PID) s outs rfl h
    | AbsorbPacket pkt hdr af =>
      simp only [runCalls] at h
      cases hres : a.AbsorbPacket NOT_VALID pkt hdr af with
      | none =>
        rw [hres] at h
        simp only [Prod.mk.injEq] at h
        exact absurd h.2 (by simp)
      | some rb =>
        rw [hres] at h
        simp only [Prod.mk.injEq] at h
        exact ih rb.2 s _
          (xPES_Assembler.AbsorbPacket_offset NOT_VALID a rb.2 pkt hdr af rb.1 hinv hres)
          (Prod.ext rfl h.2)

/-- A run of `AbsorbPacket` calls on packets with their headers is a run of
calls. -/
theorem runCalls_toCall (NOT_VALID : Int) (pkts : List TsPacket) :
    ∀ a : xPES_Assembler,
      runCalls NOT_VALID a (pkts.map TsPacket.toCall) = absorbAll NOT_VALID a pkts := by
  induction pkts with
  | nil => intro a; rfl
  | cons p ps ih =>
    intro a
    simp only [List.map_cons, TsPacket.toCall, runCalls, absorbAll]
    cases a.AbsorbPacket NOT_VALID (some p.packet) (some p.header) p.adaptationField with
    | none => rfl
    | some r =>
      have h := ih r.2
      simp only [TsPacket.toCall] at h
      simp only [h]

/-- While a PES packet of declared length 0 is being assembled, every
continuation packet of `sampleUnbounded` is answered `AssemblingContinue` and
adds its 184 payload bytes to the buffer; the data offset follows modulo
2^32. -/
theorem absorbAll_sampleContinuation (n : Nat) :
    ∀ (k : Nat) (a : xPES_Assembler), a.m_PID = 136 → a.m_Started = true →
      a.m_PESH.m_PacketLength = 0 → a.m_LastContinuityCounter = ((k % 16 : Nat) : Int) →
      a.m_DataOffset = a.m_Buffer.length % 4294967296 →
      ∃ s : xPES_Assembler,
        absorbAll (-1) a ((List.range' k n).map sampleContinuation) =
          (List.replicate n eResult.AssemblingContinue, some s) ∧
        s.m_Buffer.length = a.m_Buffer.length + 184 * n ∧
        s.m_DataOffset = s.m_Buffer.length % 4294967296 ∧ s.m_Started = true := by
  induction n with
  | zero =>
    intro k a _ hst _ _ hinv
    exact ⟨a, rfl, rfl, hinv, hst⟩
  | succ n ih =>
    intro k a hpid hst hpl hcc hinv
    have hlen : (sampleContinuation k).packet.length = 188 := by
      simp only [sampleContinuation, sampleTs, List.length_append, List.length_cons,
        List.length_nil, List.length_replicate]
    have hgetcc : (sampleContinuation k).header.getCC = (k + 1) % 16 := rfl
    have hstep := xPES_Assembler.AbsorbPacket_continue_mod (-1) a (sampleContinuation k).packet
      (sampleContinuation k).header (sampleContinuation k).adaptationField 4
      (by rw [hpid]; rfl) hst (by rw [hgetcc, hcc]; omega) (show (0 : Nat) ≠ 1 by decide) rfl rfl hlen (by omega)
      (by omega) (by omega)
    rw [if_neg (fun h => h.1 hpl)] at hstep
    obtain ⟨s, hs, hl, hoffs, hsst⟩ := ih (k + 1)
      { a with
        m_LastContinuityCounter := i8 (sampleContinuation k).header.getCC
        m_Buffer := a.m_Buffer ++ (sampleContinuation k).packet.drop 4
        m_DataOffset := (a.m_DataOffset + (188 - 4)) % 4294967296 }
      hpid hst hpl (by show i8 _ = _; rw [hgetcc]; unfold i8; omega)
      (by
        show (a.m_DataOffset + (188 - 4)) % 4294967296 =
          (a.m_Buffer ++ (sampleContinuation k).packet.drop 4).length % 4294967296
        rw [List.length_append, List.length_drop, hlen]
        omega)
    refine ⟨s, ?_, ?_, hoffs, hsst⟩
    · rw [List.range'_succ, List.map_cons, absorbAll_cons_some (-1) a _ _ _ _ hstep, hs]
      rfl
    · rw [hl]
      show (a.m_Buffer ++ (sampleContinuation k).packet.drop 4).length + 184 * n = _
      rw [List.length_append, List.length_drop, hlen]
      omega

set_option maxRecDepth 100000 in
/-- The run of a default-constructed assembler over `Init(136)` and the
packets of `sampleUnbounded n`: the buffer ends with 184 (n + 1) bytes and the
data offset is that number modulo 2^32. -/
theorem runCalls_sampleUnbounded (n : Nat) :
    ∃ s : xPES_Assembler,
      runCalls (-1) {} (Call.Init 136 :: (sampleUnbounded n).map TsPacket.toCall) =
        (eResult.AssemblingStarted :: List.replicate n eResult.AssemblingContinue, some s) ∧
      s.m_Buffer.length = 184 + 184 * n ∧
      s.m_DataOffset = (184 + 184 * n) % 4294967296 := by
  have hfirst : (xPES_Assembler.Init {} 136).AbsorbPacket (-1)
      (some (sampleTs 1 0 (samplePes 0 ++ List.replicate 178 0xAA)).packet)
      (some (sampleTs 1 0 (samplePes 0 ++ List.replicate 178 0xAA)).header)
      (sampleTs 1 0 (samplePes 0 ++ List.replicate 178 0xAA)).adaptationField =
      some (eResult.AssemblingStarted,
        { m_PID := 136
          m_Buffer := samplePes 0 ++ List.replicate 178 0xAA
          m_DataOffset := 184
          m_LastContinuityCounter := 0
          m_Started := true
          m_PESH := { m_PacketStartCodePrefix := 1, m_StreamId := 0xC0, m_PacketLength := 0 } }) := by
    rfl
  obtain ⟨s, hs, hl, hoffs, -⟩ := absorbAll_sampleContinuation n 0
    { m_PID := 136
      m_Buffer := samplePes 0 ++ List.replicate 178 0xAA
      m_DataOffset := 184
      m_LastContinuityCounter := 0
      m_Started := true
      m_PESH := { m_PacketStartCodePrefix := 1, m_StreamId := 0xC0, m_PacketLength := 0 } }
    rfl rfl rfl rfl rfl
  refine ⟨s, ?_, ?_, ?_⟩
  · show runCalls (-1) (xPES_Assembler.Init {} 136) ((sampleUnbounded n).map TsPacket.toCall) = _
    rw [runCalls_toCall, sampleUnbounded, absorbAll_cons_some (-1) _ _ _ _ _ hfirst,
      List.range_eq_range', hs]
  · rw [hl]
    have : (samplePes 0 ++ List.replicate 178 (0xAA : Byte)).length = 184 := rfl
    show (samplePes 0 ++ List.replicate 178 (0xAA : Byte)).length + 184 * n = _
    rw [this]
  · rw [hoffs, hl]
    have : (samplePes 0 ++ List.replicate 178 (0xAA : Byte)).length = 184 := rfl
    show ((samplePes 0 ++ List.replicate 178 (0xAA : Byte)).length + 184 * n) % _ = _
    rw [this]

/-! ## Length bookkeeping -/

/-- C20 (counterexample): a default-constructed assembler is initialised for
PID 136 and fed `sampleUnbounded 23342214`, the start of a PES packet of
declared length 0 followed by 23342214 continuation packets with consecutive
counters.  Every call returns; afterwards the buffer holds 4294967560 bytes
(184 bytes from each of the 23342215 packets) while `m_DataOffset`, a
`uint32_t`, is 264 and `getNumPacketBytes` returns 264. -/
theorem C20_offset_wraps_at_4GiB :
    ∃ (outs : List eResult) (s : xPES_Assembler),
      runCalls (-1) {} (Call.Init 136 :: (sampleUnbounded 23342214).map TsPacket.toCall) =
        (outs, some s) ∧
      outs.length = 23342215 ∧
      s.m_Buffer.length = 4294967560 ∧ s.m_DataOffset = 264 ∧ s.getNumPacketBytes = 264 ∧
      s.m_DataOffset ≠ s.m_Buffer.length := by
  obtain ⟨s, hs, hl, hoffs⟩ := runCalls_sampleUnbounded 23342214
  have hl2 : s.m_Buffer.length = 4294967560 := by rw [hl]
  have ho2 : s.m_DataOffset = 264 := by rw [hoffs]
  refine ⟨_, s, hs, ?_, hl2, ho2, ?_, ?_⟩
  · rw [List.length_cons, List.length_replicate]
  · unfold xPES_Assembler.getNumPacketBytes i32
    rw [ho2]
    norm_num
  · rw [hl2, ho2]
    norm_num

/-- C20 (amended): in every state reachable from a default-constructed
assembler by any sequence of `Init` and `AbsorbPacket` calls, `m_DataOffset`
equals the number of bytes held in the buffer modulo 2^32.  Hence it equals
the number of bytes in the buffer as long as the buffer holds fewer than 2^32
bytes, and the value returned by `getNumPacketBytes` (an `int32_t`) equals it
as long as the buffer holds fewer than 2^31 bytes. -/
theorem C20_length_bookkeeping (NOT_VALID : Int) (calls : List Call) (outs : List eResult)
    (s : xPES_Assembler) (h : runCalls NOT_VALID {} calls = (outs, some s)) :
    s.m_DataOffset = s.m_Buffer.length % 4294967296 ∧
      (s.m_Buffer.length < 4294967296 → s.m_DataOffset = s.m_Buffer.length) ∧
      (s.m_Buffer.length < 2147483648 → s.getNumPacketBytes = s.m_Buffer.length) := by
  have hinv := runCalls_offset NOT_VALID calls {} s outs rfl h
  refine ⟨hinv, fun hlt => ?_, fun hlt => ?_⟩
  · rw [hinv]
    exact Nat.mod_eq_of_lt hlt
  · unfold xPES_Assembler.getNumPacketBytes i32
    rw [hinv]
    omega

set_option maxRecDepth 100000 in
/-- Witness of C20: `Init(136)`, the start of a PES packet, a packet for PID
137 and a continuation packet. -/
theorem C20_length_bookkeeping_witness :
    runCalls (-1) {}
        [Call.Init 136, (sampleTs 1 0 ((samplePes 546).take 184)).toCall,
          (sampleForeign 5).toCall,
          (sampleTs 0 1 (((samplePes 546).drop 184).take 184)).toCall] =
      ([eResult.AssemblingStarted, eResult.UnexpectedPID, eResult.AssemblingContinue],
        some
          { m_PID := 136
            m_Buffer := (samplePes 546).take 368
            m_DataOffset := 368
            m_LastContinuityCounter := 1
            m_Started := true
            m_PESH :=
              { m_PacketStartCodePrefix := 1, m_StreamId := 0xC0, m_PacketLength := 546 } }) ∧
    ((368 : Nat) = ((samplePes 546).take 368).length % 4294967296 ∧
      (((samplePes 546).take 368).length < 4294967296 →
        (368 : Nat) = ((samplePes 546).take 368).length) ∧
      (((samplePes 546).take 368).length < 2147483648 →
        xPES_Assembler.getNumPacketBytes
            { m_PID := 136
              m_Buffer := (samplePes 546).take 368
              m_DataOffset := 368
              m_LastContinuityCounter := 1
              m_Started := true
              m_PESH :=
                { m_PacketStartCodePrefix := 1, m_StreamId := 0xC0, m_PacketLength := 546 } } =
          ((samplePes 546).take 368).length)) :=
  ⟨by decide,
    C20_length_bookkeeping (-1)
      [Call.Init 136, (sampleTs 1 0 ((samplePes 546).take 184)).toCall,
        (sampleForeign 5).toCall,
        (sampleTs 0 1 (((samplePes 546).drop 184).take 184)).toCall]
      [eResult.AssemblingStarted, eResult.UnexpectedPID, eResult.AssemblingContinue]
      { m_PID := 136
        m_Buffer := (samplePes 546).take 368
        m_DataOffset := 368
        m_LastContinuityCounter := 1
        m_Started := true
        m_PESH := { m_PacketStartCodePrefix := 1, m_StreamId := 0xC0, m_PacketLength := 546 } }
      (by decide)⟩

/-! ## Lifetime of the buffer -/

/-- One call of `AbsorbPacket` keeps: a non-empty buffer belongs to an assembly
in progress, or the most recent answer other than `UnexpectedPID` was
`AssemblingFinished`. -/
theorem xPES_Assembler.AbsorbPacket_lifetime (NOT_VALID : Int) (a b : xPES_Assembler)
    (pkt : Option (List Byte)) (hdr : Option xTS_PacketHeader)
    (af : Option xTS_AdaptationField) (r : eResult) (pre : List eResult)
    (hinv : a.m_Buffer ≠ [] → a.m_Started = true ∨
      (pre.filter fun x => decide (x ≠ eResult.UnexpectedPID)).getLast? =
        some eResult.AssemblingFinished)
    (h : a.AbsorbPacket NOT_VALID pkt hdr af = some (r, b)) :
    b.m_Buffer ≠ [] → b.m_Started = true ∨
      ((pre ++ [r]).filter fun x => decide (x ≠ eResult.UnexpectedPID)).getLast? =
        some eResult.AssemblingFinished := by
  intro hb
  rcases xPES_Assembler.AbsorbPacket_cases NOT_VALID a b pkt hdr af r h with
    ⟨h0, h1, -, h3⟩ | ⟨h1, -⟩ | ⟨h0, h1, -⟩
  · subst h0
    rw [h1] at hb
    rw [h3, List.filter_append]
    simpa using hinv hb
  · exact absurd h1 hb
  · rcases h1 with h1 | h1
    · exact Or.inl h1
    · subst h1
      right
      rw [List.filter_append]
      simp

/-- Every run of calls keeps the invariant of `AbsorbPacket_lifetime`, the
answers of the run being added to the answers given before it. -/
theorem runCalls_lifetime (NOT_VALID : Int) (calls : List Call) :
    ∀ (a s : xPES_Assembler) (pre outs : List eResult),
      (a.m_Buffer ≠ [] → a.m_Started = true ∨
        (pre.filter fun x => decide (x ≠ eResult.UnexpectedPID)).getLast? =
          some eResult.AssemblingFinished) →
      runCalls NOT_VALID a calls = (outs, some s) →
      s.m_Buffer ≠ [] → s.m_Started = true ∨
        ((pre ++ outs).filter fun x => decide (x ≠ eResult.UnexpectedPID)).getLast? =
          some eResult.AssemblingFinished := by
  induction calls with
  | nil =>
    intro a s pre outs hinv h
    simp only [runCalls, Prod.mk.injEq, Option.some.injEq] at h
    obtain ⟨rfl, rfl⟩ := h
    rw [List.append_nil]
    exact hinv
  | cons c cs ih =>
    intro a s pre outs hinv h
    cases c with
    | Init PID =>
      simp only [runCalls] at h
      exact ih (a.Init PID) s pre outs (fun hne => absurd rfl hne) h
    | AbsorbPacket pkt hdr af =>
      simp only [runCalls] at h
      cases hres : a.AbsorbPacket NOT_VALID pkt hdr af with
      | none =>
        rw [hres] at h
        simp only [Prod.mk.injEq] at h
        exact absurd h.2 (by simp)
      | some rb =>
        rw [hres] at h
        simp only [Prod.mk.injEq] at h
        have hstep := ih rb.2 s (pre ++ [rb.1]) (runCalls NOT_VALID rb.2 cs).1
          (xPES_Assembler.AbsorbPacket_lifetime NOT_VALID a rb.2 pkt hdr af rb.1 pre hinv hres)
          (Prod.ext rfl h.2)
        rw [← h.1]
        rw [List.append_assoc] at hstep
        exact hstep

set_option maxRecDepth 100000 in
/-- C12 (counterexample): a freshly initialised assembler for PID 136 is fed
the three packets of `sampleGapAfterFinish`.  The second call answers
`AssemblingFinished`; the third packet carries no payload unit start and is
answered `UnexpectedPID`.  In the state produced by that third call the buffer
still holds the 368 bytes of the finished PES packet and `m_Started` is
false. -/
theorem C12_buffer_kept_after_UnexpectedPID :
    (runCalls (-1) (xPES_Assembler.Init {} 136)
        (sampleGapAfterFinish.map TsPacket.toCall)).1 =
      [eResult.AssemblingStarted, eResult.AssemblingFinished, eResult.UnexpectedPID] ∧
    (runCalls (-1) (xPES_Assembler.Init {} 136)
        (sampleGapAfterFinish.map TsPacket.toCall)).2.map
        (fun s => (s.m_Buffer, s.m_Started)) = some (samplePes 362, false) ∧
    samplePes 362 ≠ [] ∧
    [eResult.AssemblingStarted, eResult.AssemblingFinished, eResult.UnexpectedPID].getLast? ≠
      some eResult.AssemblingFinished := by
  decide

/-- C12 (amended): in every state reachable from a freshly initialised
assembler by any sequence of `AbsorbPacket` calls (calls of `Init` may be mixed
in), if the buffer is non-empty then either `m_Started` is true or the most
recent `AbsorbPacket` call that answered something other than `UnexpectedPID`
answered `AssemblingFinished`: the finished packet stays in the buffer through
later calls that answer `UnexpectedPID`. -/
theorem C12_buffer_lifetime (NOT_VALID : Int) (PID : Int) (calls : List Call)
    (outs : List eResult) (s : xPES_Assembler)
    (h : runCalls NOT_VALID (xPES_Assembler.Init {} PID) calls = (outs, some s))
    (hb : s.m_Buffer ≠ []) :
    s.m_Started = true ∨
      (outs.filter fun x => decide (x ≠ eResult.UnexpectedPID)).getLast? =
        some eResult.AssemblingFinished := by
  have hrun := runCalls_lifetime NOT_VALID calls (xPES_Assembler.Init {} PID) s [] outs
    (fun hne => absurd rfl hne) h hb
  rw [List.nil_append] at hrun
  exact hrun

set_option maxRecDepth 100000 in
/-- Witness of C12: the run over `sampleGapAfterFinish`, whose final state is
idle with the finished PES packet `samplePes 362` in the buffer. -/
theorem C12_buffer_lifetime_witness :
    (runCalls (-1) (xPES_Assembler.Init {} 136) (sampleGapAfterFinish.map TsPacket.toCall) =
        ([eResult.AssemblingStarted, eResult.AssemblingFinished, eResult.UnexpectedPID],
          some
            { m_PID := 136
              m_Buffer := samplePes 362
              m_DataOffset := 368
              m_LastContinuityCounter := 3
              m_Started := false
              m_PESH :=
                { m_PacketStartCodePrefix := 1, m_StreamId := 0xC0, m_PacketLength := 362 } }) ∧
      samplePes 362 ≠ []) ∧
    ((false = true) ∨
      ([eResult.AssemblingStarted, eResult.AssemblingFinished, eResult.UnexpectedPID].filter
          fun x => decide (x ≠ eResult.UnexpectedPID)).getLast? =
        some eResult.AssemblingFinished) :=
  ⟨⟨by decide, by decide⟩,
    C12_buffer_lifetime (-1) 136 (sampleGapAfterFinish.map TsPacket.toCall)
      [eResult.AssemblingStarted, eResult.AssemblingFinished, eResult.UnexpectedPID]
      { m_PID := 136
        m_Buffer := samplePes 362
        m_DataOffset := 368
        m_LastContinuityCounter := 3
        m_Started := false
        m_PESH := { m_PacketStartCodePrefix := 1, m_StreamId := 0xC0, m_PacketLength := 362 } }
      (by decide) (by decide)⟩

/-! ## The driver: decoding and bounds -/

/-- The `AssemblingFinished` case of `main` on a buffer of `n` bytes, `6 <= n`:
every read stays inside the buffer, the header length `H` is 6 or 9 + buffer[8],
and the bytes from `H` on are written when `H < n`. -/
theorem mainAssemblingFinished_of_length (buffer : List Byte) (n : Nat)
    (hlen : buffer.length = n) (h6 : 6 ≤ n) (h31 : n < 2147483648) :
    ∃ H : Nat, 6 ≤ H ∧ H ≤ 264 ∧
      mainAssemblingFinished buffer n =
        some { headerLength := H, dataLength := (n : Int) - H
               written := if H < n then buffer.drop H else [] } := by
  obtain ⟨s3, hs3⟩ := rd_of_lt buffer 3 (by omega)
  obtain ⟨s4, hs4⟩ := rd_of_lt buffer 4 (by omega)
  obtain ⟨s5, hs5⟩ := rd_of_lt buffer 5 (by omega)
  have hn6 : (n : Int) ≥ 6 := by omega
  have hD6 : i32 ((n : Int) - 6) = (n : Int) - ((6 : Nat) : Int) := by
    rw [i32_of_range _ (by omega) (by omega)]; rfl
  by_cases hcls : (s3.val ≥ 0xC0 ∧ s3.val ≤ 0xDF) ∨ s3.val = 0xBD
  · by_cases hn9 : (n : Int) ≥ 9
    · obtain ⟨s8, hs8⟩ := rd_of_lt buffer 8 (by omega)
      have h8 := s8.isLt
      have hH : i32 (9 + (s8.val : Int)) = ((9 + s8.val : Nat) : Int) := by
        rw [i32_of_range _ (by omega) (by omega)]; omega
      have hD : i32 ((n : Int) - ((9 + s8.val : Nat) : Int)) =
          (n : Int) - ((9 + s8.val : Nat) : Int) :=
        i32_of_range _ (by omega) (by omega)
      refine ⟨9 + s8.val, by omega, by omega, ?_⟩
      unfold mainAssemblingFinished
      rw [if_pos hn6, hs3, hs4, hs5]
      simp only [Option.bind]
      rw [if_pos hcls, if_pos hn9, hs8]
      simp only [Option.bind]
      rw [hH, hD]
      exact mainAssemblingFinished_eq buffer n (9 + s8.val) hlen
    · refine ⟨6, le_refl _, by omega, ?_⟩
      unfold mainAssemblingFinished
      rw [if_pos hn6, hs3, hs4, hs5]
      simp only [Option.bind]
      rw [if_pos hcls, if_neg hn9]
      simp only [Option.bind]
      rw [hD6]
      exact mainAssemblingFinished_eq buffer n 6 hlen
  · refine ⟨6, le_refl _, by omega, ?_⟩
    unfold mainAssemblingFinished
    rw [if_pos hn6, hs3, hs4, hs5]
    simp only [Option.bind]
    rw [if_neg hcls]
    simp only [Option.bind]
    rw [hD6]
    exact mainAssemblingFinished_eq buffer n 6 hlen

/-- The length stored by `xTS_AdaptationField::Parse` in a reset object is a
`uint8_t`. -/
theorem xTS_AdaptationField.Parse_length (NOT_VALID : Int) (buf : List Byte) (afc : Nat)
    (q : Int × xTS_AdaptationField)
    (h : xTS_AdaptationField.Parse NOT_VALID {} (some buf) afc = some q) :
    q.2.m_AdaptationFieldLength < 256 := by
  unfold xTS_AdaptationField.Parse at h
  simp only [] at h
  split at h
  · simp only [Option.some.injEq] at h
    subst h
    exact Nat.zero_lt_succ _
  · rw [Option.bind_eq_some] at h
    obtain ⟨len, -, h⟩ := h
    rw [Option.bind_eq_some] at h
    obtain ⟨b5, -, h⟩ := h
    simp only [Option.some.injEq] at h
    subst h
    exact Nat.mod_lt _ (by decide)

/-- What the driver hands to `AbsorbPacket` for a block that it decodes: the
block itself, the header that `xTS_PacketHeader::Parse` accepted and a non-null
adaptation field, parsed from the block when the header announces one and
reset otherwise, whose length is a `uint8_t`. -/
theorem mainDecode_some (NOT_VALID : Int) (buf : List Byte) (t : TsPacket)
    (h : mainDecode NOT_VALID buf = some t) :
    t.packet = buf ∧
      (∃ rc, rc ≠ NOT_VALID ∧
        xTS_PacketHeader.Parse NOT_VALID {} (some buf) = some (rc, t.header)) ∧
      ∃ f : xTS_AdaptationField, t.adaptationField = some f ∧
        f.m_AdaptationFieldLength < 256 ∧
        (if t.header.hasAdaptationField = true then
            (xTS_AdaptationField.Parse NOT_VALID {} (some buf) (u8 t.header.getAFC)).bind
              (fun q => some q.2) = some f
          else f = {}) := by
  unfold mainDecode at h
  rw [Option.bind_eq_some] at h
  obtain ⟨r, hr, h⟩ := h
  by_cases hv : r.1 = NOT_VALID
  · rw [if_pos hv] at h
    exact absurd h (by simp)
  · rw [if_neg hv, Option.bind_eq_some] at h
    obtain ⟨af, haf, h⟩ := h
    simp only [Option.some.injEq] at h
    subst h
    refine ⟨rfl, ⟨r.1, hv, hr⟩, af, rfl, ?_, ?_⟩
    · by_cases ha : r.2.hasAdaptationField = true
      · rw [if_pos ha, Option.bind_eq_some] at haf
        obtain ⟨q, hq, h2⟩ := haf
        simp only [Option.some.injEq] at h2
        subst h2
        exact xTS_AdaptationField.Parse_length NOT_VALID buf _ q hq
      · rw [if_neg ha] at haf
        simp only [Option.some.injEq] at haf
        subst haf
        exact Nat.zero_lt_succ _
    · show (if r.2.hasAdaptationField = true then _ else _)
      by_cases ha : r.2.hasAdaptationField = true
      · rw [if_pos ha] at haf ⊢
        exact haf
      · rw [if_neg ha] at haf ⊢
        simp only [Option.some.injEq] at haf
        exact haf.symm

/-- For a decoded block the local `payloadStart` of `AbsorbPacket` is defined
and at most 260. -/
theorem mainDecode_payloadStart (NOT_VALID : Int) (buf : List Byte) (t : TsPacket)
    (h : mainDecode NOT_VALID buf = some t) :
    (∀ f, t.adaptationField = some f → f.m_AdaptationFieldLength < 256) ∧
      ∃ off, xPES_Assembler.payloadStart t.header t.adaptationField = some off ∧ off ≤ 260 := by
  obtain ⟨-, -, f, hf, hlt, -⟩ := mainDecode_some NOT_VALID buf t h
  have hall : ∀ g, t.adaptationField = some g → g.m_AdaptationFieldLength < 256 := by
    intro g hg
    rw [hf] at hg
    simp only [Option.some.injEq] at hg
    subst hg
    exact hlt
  have hex : ∃ off, xPES_Assembler.payloadStart t.header t.adaptationField = some off := by
    unfold xPES_Assembler.payloadStart
    rw [hf]
    split
    · exact ⟨_, rfl⟩
    · exact ⟨_, rfl⟩
  obtain ⟨off, hoff⟩ := hex
  exact ⟨hall, off, hoff, xPES_Assembler.payloadStart_le t.header t.adaptationField off hall hoff⟩

set_option maxRecDepth 100000 in
/-- C15 (counterexample): `sampleOverrun` is a 188-byte packet for PID 136 with
payload unit start, adaptation field control 3 and adaptation field length 183.
The driver decodes it, `AbsorbPacket` computes the payload offset 4 + 184 = 188
and, without comparing it with the packet length, parses a PES header at that
offset: the first byte read is at index 188.  In the model this read has no
value, for the call of `AbsorbPacket` and for the loop of the driver alike. -/
theorem C15_PES_header_read_at_188 :
    sampleOverrun.length = 188 ∧
    (mainDecode (-1) sampleOverrun).map
        (fun t => ((t.header.getPID, t.header.getS, t.header.getAFC),
          t.adaptationField.map fun f => f.getNumBytes)) =
      some ((136, 1, 3), some 184) ∧
    (mainDecode (-1) sampleOverrun).bind
        (fun t => xPES_Assembler.payloadStart t.header t.adaptationField) = some 188 ∧
    rd sampleOverrun 188 = none ∧
    (mainDecode (-1) sampleOverrun).map
        (fun t => (xPES_Assembler.Init {} 136).AbsorbPacket (-1) (some t.packet)
          (some t.header) t.adaptationField) = some none ∧
    mainLoop (-1) {} [sampleOverrun] = none := by
  decide

/-- C15 (amended): `AbsorbPacket` makes no check of the payload offset.  For
every 188-byte packet, with the header and adaptation field decoded from that
same packet by the driver, a call of `AbsorbPacket` reads no byte at an index
of 188 or more when the packet does not carry the payload unit start
indicator, or when the six bytes of the PES header fit (offset + 6 <= 188):
the call returns, in every assembler state `a`.  The copy of the payload never
reads past byte 187, since it copies 188 - offset bytes and nothing when that
number is not positive.  Likewise the driver never reads a finished PES buffer
of `n` bytes (`n` an `int32_t`) at an index of `n` or more when it applies
9 + the PES header data length: the extraction returns. -/
theorem C15_bounds (NOT_VALID : Int) (a c : xPES_Assembler) (TS_PacketBuffer : List Byte)
    (t : TsPacket) (off : Nat) (buffer : List Byte) (n : Nat)
    (hlen : TS_PacketBuffer.length = 188)
    (hdec : mainDecode NOT_VALID TS_PacketBuffer = some t)
    (hoff : xPES_Assembler.payloadStart t.header t.adaptationField = some off)
    (hfit : t.header.getS = 1 → off + 6 ≤ 188)
    (hbuf : buffer.length = n) (h31 : n < 2147483648) :
    (∃ r b, a.AbsorbPacket NOT_VALID (some TS_PacketBuffer) (some t.header) t.adaptationField =
        some (r, b)) ∧
      (∃ d, c.xBufferAppend (some (TS_PacketBuffer.drop off))
        (i32 (u32 ((xTS.TS_PacketLength : Int) - off))) = some d) ∧
      ∃ e, mainAssemblingFinished buffer n = some e := by
  obtain ⟨haf, off2, hoff2, hle⟩ := mainDecode_payloadStart NOT_VALID TS_PacketBuffer t hdec
  rw [hoff] at hoff2
  simp only [Option.some.injEq] at hoff2
  subst hoff2
  refine ⟨?_, ?_, ?_⟩
  · exact xPES_Assembler.AbsorbPacket_defined NOT_VALID a TS_PacketBuffer t.header
      t.adaptationField off hlen haf hoff hfit
  · exact xPES_Assembler.xBufferAppend_defined c TS_PacketBuffer off hlen hle
  · by_cases h6 : 6 ≤ n
    · obtain ⟨H, -, -, hval⟩ := mainAssemblingFinished_of_length buffer n hbuf h6 h31
      exact ⟨_, hval⟩
    · refine ⟨{ headerLength := 0, dataLength := 0, written := [] }, ?_⟩
      unfold mainAssemblingFinished
      rw [if_neg (by omega)]

set_option maxRecDepth 100000 in
/-- Witness of C15: the packet `sampleTs 1 0 (samplePes 178)` with payload unit
start and payload offset 4, absorbed in the state `sampleAssembling`, and the
finished buffer `sampleAudioPes` of 26 bytes. -/
theorem C15_bounds_witness :
    ((sampleTs 1 0 (samplePes 178)).packet.length = 188 ∧
      mainDecode (-1) (sampleTs 1 0 (samplePes 178)).packet =
        some (sampleTs 1 0 (samplePes 178)) ∧
      xPES_Assembler.payloadStart (sampleTs 1 0 (samplePes 178)).header
        (sampleTs 1 0 (samplePes 178)).adaptationField = some 4 ∧
      ((sampleTs 1 0 (samplePes 178)).header.getS = 1 → 4 + 6 ≤ 188) ∧
      sampleAudioPes.length = 26 ∧ 26 < 2147483648) ∧
    ((∃ r b, sampleAssembling.AbsorbPacket (-1) (some (sampleTs 1 0 (samplePes 178)).packet)
        (some (sampleTs 1 0 (samplePes 178)).header)
        (sampleTs 1 0 (samplePes 178)).adaptationField = some (r, b)) ∧
      (∃ d, sampleAssembling.xBufferAppend (some ((sampleTs 1 0 (samplePes 178)).packet.drop 4))
        (i32 (u32 ((xTS.TS_PacketLength : Int) - (4 : Nat)))) = some d) ∧
      ∃ e, mainAssemblingFinished sampleAudioPes (26 : Nat) = some e) :=
  ⟨⟨by decide, by decide, by decide, by decide, by decide, by decide⟩,
    C15_bounds (-1) sampleAssembling sampleAssembling (sampleTs 1 0 (samplePes 178)).packet
      (sampleTs 1 0 (samplePes 178)) 4 sampleAudioPes 26 (by decide) (by decide) (by decide)
      (by decide) (by decide) (by decide)⟩

/-! ## The driver: end to end -/

/-- One turn of the loop of `main` on a decoded block for the audio PID whose
call of `AbsorbPacket` does not answer `AssemblingFinished`: only the decoded
header and adaptation field, the assembler and the packet counter change. -/
theorem mainLoopBody_absorb (NOT_VALID : Int) (st : mainState) (buf : List Byte) (t : TsPacket)
    (f : xTS_AdaptationField) (r : eResult) (b : xPES_Assembler)
    (hdec : mainDecode NOT_VALID buf = some t) (hf : t.adaptationField = some f)
    (hpid : t.header.getPID = audioPID)
    (hres : st.PES_Assembler.AbsorbPacket NOT_VALID (some buf) (some t.header)
      t.adaptationField = some (r, b))
    (hr : r ≠ eResult.AssemblingFinished) :
    mainLoopBody NOT_VALID st buf =
      some { st with
        TS_PacketHeader := t.header
        TS_AdaptationField := f
        PES_Assembler := b
        TS_PacketId := i32 (st.TS_PacketId + 1) } := by
  obtain ⟨-, ⟨rc, hrc, hparse⟩, f2, hf2, -, hafparse⟩ := mainDecode_some NOT_VALID buf t hdec
  rw [hf] at hf2 hres
  simp only [Option.some.injEq] at hf2
  subst hf2
  have hR : st.TS_PacketHeader.Reset = {} := rfl
  have hRa : st.TS_AdaptationField.Reset = {} := rfl
  unfold mainLoopBody
  simp only []
  rw [hR, hparse, Option.some_bind, if_neg hrc, hRa]
  by_cases ha : t.header.hasAdaptationField = true
  · rw [if_pos ha] at hafparse
    rw [if_pos ha, hafparse, Option.some_bind, if_pos hpid, hres, Option.some_bind, if_neg hr,
      Option.some_bind]
  · rw [if_neg ha] at hafparse
    rw [if_neg ha, ← hafparse, Option.some_bind, if_pos hpid, hres, Option.some_bind, if_neg hr,
      Option.some_bind]

/-- One turn of the loop of `main` on a decoded block for the audio PID whose
call of `AbsorbPacket` answers `AssemblingFinished`, when the extraction finds
data: the written bytes are added to the output and the totals are raised. -/
theorem mainLoopBody_finished (NOT_VALID : Int) (st : mainState) (buf : List Byte)
    (t : TsPacket) (f : xTS_AdaptationField) (b : xPES_Assembler) (e : Extraction)
    (hdec : mainDecode NOT_VALID buf = some t) (hf : t.adaptationField = some f)
    (hpid : t.header.getPID = audioPID)
    (hres : st.PES_Assembler.AbsorbPacket NOT_VALID (some buf) (some t.header)
      t.adaptationField = some (eResult.AssemblingFinished, b))
    (hext : mainAssemblingFinished b.getPacket b.getNumPacketBytes = some e)
    (hdata : e.dataLength > 0 ∧ e.headerLength < b.getNumPacketBytes) :
    mainLoopBody NOT_VALID st buf =
      some { st with
        TS_PacketHeader := t.header
        TS_AdaptationField := f
        PES_Assembler := b
        audioFile := st.audioFile ++ e.written
        totalAudioBytes := i32 (st.totalAudioBytes + e.dataLength)
        totalAudioPackets := i32 (st.totalAudioPackets + 1)
        TS_PacketId := i32 (st.TS_PacketId + 1) } := by
  obtain ⟨-, ⟨rc, hrc, hparse⟩, f2, hf2, -, hafparse⟩ := mainDecode_some NOT_VALID buf t hdec
  rw [hf] at hf2 hres
  simp only [Option.some.injEq] at hf2
  subst hf2
  have hR : st.TS_PacketHeader.Reset = {} := rfl
  have hRa : st.TS_AdaptationField.Reset = {} := rfl
  unfold mainLoopBody
  simp only []
  rw [hR, hparse, Option.some_bind, if_neg hrc, hRa]
  by_cases ha : t.header.hasAdaptationField = true
  · rw [if_pos ha] at hafparse
    rw [if_pos ha, hafparse, Option.some_bind, if_pos hpid, hres, Option.some_bind, if_pos rfl,
      hext, Option.some_bind, if_pos hdata, Option.some_bind]
  · rw [if_neg ha] at hafparse
    rw [if_neg ha, ← hafparse, Option.some_bind, if_pos hpid, hres, Option.some_bind, if_pos rfl,
      hext, Option.some_bind, if_pos hdata, Option.some_bind]

/-- C13: three 188-byte blocks that the driver decodes (so each begins with the
sync byte 0x47) to packets of PID 136 with payload unit start on the first
only and the continuity counters 0, 1, 2, whose payloads are three consecutive
non-empty pieces of one PES packet `P` of declared length 300 (306 bytes, bytes
4 and 5 equal to 0x01 0x2C), the first piece holding at least the six bytes of
the PES header.  The loop of the driver (header parse, adaptation field parse,
`AbsorbPacket`, extraction on `AssemblingFinished`) returns; with
`headerLength` the header length that the extraction computes for `P`, it has
written exactly the 300 + 6 - headerLength bytes of `P` from offset
`headerLength` on, as one run, counted as one audio packet. -/
theorem C13_end_to_end (NOT_VALID : Int) (b1 b2 b3 : List Byte) (t1 t2 t3 : TsPacket)
    (P : List Byte)
    (hlen : b1.length = 188 ∧ b2.length = 188 ∧ b3.length = 188)
    (hdec : mainDecode NOT_VALID b1 = some t1 ∧ mainDecode NOT_VALID b2 = some t2 ∧
      mainDecode NOT_VALID b3 = some t3)
    (hpid : t1.header.getPID = 136 ∧ t2.header.getPID = 136 ∧ t3.header.getPID = 136)
    (hS : t1.header.getS = 1 ∧ t2.header.getS = 0 ∧ t3.header.getS = 0)
    (hcc : t1.header.getCC = 0 ∧ t2.header.getCC = 1 ∧ t3.header.getCC = 2)
    (hP : P.length = 300 + 6 ∧ rd P 4 = some (300 / 256) ∧ rd P 5 = some (300 % 256))
    (hsplit : P = t1.payload ++ t2.payload ++ t3.payload)
    (h6 : 6 ≤ t1.payload.length)
    (hpay : (t2.header.hasPayload = true ∧ t2.payload ≠ []) ∧
      (t3.header.hasPayload = true ∧ t3.payload ≠ [])) :
    ∃ (st : mainState) (e : Extraction) (headerLength : Nat),
      mainLoop NOT_VALID {} [b1, b2, b3] = some st ∧
      mainAssemblingFinished P ((300 + 6 : Nat) : Int) = some e ∧
      e.headerLength = headerLength ∧ 6 ≤ headerLength ∧ headerLength < 300 + 6 ∧
      st.audioFile = P.drop headerLength ∧
      st.audioFile.length = 300 + 6 - headerLength ∧
      st.totalAudioBytes = ((300 + 6 - headerLength : Nat) : Int) ∧
      st.totalAudioPackets = 1 ∧
      st.PES_Assembler.getPacket = P := by
  obtain ⟨hl1, hl2, hl3⟩ := hlen
  obtain ⟨hd1, hd2, hd3⟩ := hdec
  obtain ⟨hp1, hp2, hp3⟩ := hpid
  obtain ⟨hS1, hS2, hS3⟩ := hS
  obtain ⟨hc1, hc2, hc3⟩ := hcc
  obtain ⟨hPlen, hb4, hb5⟩ := hP
  obtain ⟨⟨hpl2, hne2⟩, ⟨hpl3, hne3⟩⟩ := hpay
  obtain ⟨hk1, -, f1, hf1, -, -⟩ := mainDecode_some NOT_VALID b1 t1 hd1
  obtain ⟨hk2, -, f2, hf2, -, -⟩ := mainDecode_some NOT_VALID b2 t2 hd2
  obtain ⟨hk3, -, f3, hf3, -, -⟩ := mainDecode_some NOT_VALID b3 t3 hd3
  subst hk1 hk2 hk3
  have hpos2 : 0 < t2.payload.length := List.length_pos.mpr hne2
  have hpos3 : 0 < t3.payload.length := List.length_pos.mpr hne3
  obtain ⟨off1, hoff1, hsum1, hdrop1⟩ := TsPacket.payload_of_length t1 hl1 (by omega)
  obtain ⟨off2, hoff2, hsum2, hdrop2⟩ := TsPacket.payload_of_length t2 hl2 hpos2
  obtain ⟨off3, hoff3, hsum3, hdrop3⟩ := TsPacket.payload_of_length t3 hl3 hpos3
  have htotal : t1.payload.length + t2.payload.length + t3.payload.length = 306 := by
    rw [← List.length_append, ← List.length_append, ← hsplit]
    exact hPlen
  -- the first block starts the assembly
  obtain ⟨pesh, hparse, h1⟩ := xPES_Assembler.AbsorbPacket_start NOT_VALID
    (xPES_Assembler.Init {} audioPID) t1.packet t1.header t1.adaptationField off1
    (by rw [hp1]; rfl)
    (fun h => absurd h (by simp [xPES_Assembler.Init, xPES_Assembler.xBufferReset]))
    hS1 hoff1 hl1 (by omega)
  have hpesh : pesh.m_PacketLength = 300 := by
    obtain ⟨pesh2, hparse2, -, hval⟩ := xPES_PacketHeader.Parse_of_length NOT_VALID {}
      (t1.packet.drop off1) (by rw [← hdrop1]; exact h6)
    rw [hparse] at hparse2
    simp only [Option.some.injEq, Prod.mk.injEq, true_and] at hparse2
    subst hparse2
    have e4 : rd (t1.packet.drop off1) 4 = some (300 / 256) := by
      rw [← hdrop1, ← rd_append_left t1.payload (t2.payload ++ t3.payload) 4 (by omega),
        ← List.append_assoc, ← hsplit]
      exact hb4
    have e5 : rd (t1.packet.drop off1) 5 = some (300 % 256) := by
      rw [← hdrop1, ← rd_append_left t1.payload (t2.payload ++ t3.payload) 5 (by omega),
        ← List.append_assoc, ← hsplit]
      exact hb5
    rw [hval _ _ e4 e5]
  obtain ⟨st1, hst1, hA1, hF1, hB1, hN1⟩ : ∃ st1 : mainState,
      mainLoopBody NOT_VALID {} t1.packet = some st1 ∧
      st1.PES_Assembler =
        { m_PID := (xPES_Assembler.Init {} audioPID).m_PID, m_Buffer := t1.packet.drop off1
          m_DataOffset := 188 - off1, m_LastContinuityCounter := i8 t1.header.getCC
          m_Started := true, m_PESH := pesh } ∧
      st1.audioFile = [] ∧ st1.totalAudioBytes = 0 ∧ st1.totalAudioPackets = 0 :=
    ⟨_, mainLoopBody_absorb NOT_VALID {} t1.packet t1 f1 _ _ hd1 hf1 hp1 h1 (by decide),
      rfl, rfl, rfl, rfl⟩
  -- the second block continues it
  have h2 := xPES_Assembler.AbsorbPacket_continue NOT_VALID
    { m_PID := (xPES_Assembler.Init {} audioPID).m_PID, m_Buffer := t1.packet.drop off1
      m_DataOffset := 188 - off1, m_LastContinuityCounter := i8 t1.header.getCC
      m_Started := true, m_PESH := pesh }
    t2.packet t2.header t2.adaptationField off2 (by rw [hp2]; rfl) rfl
    (by
      show (t2.header.getCC : Int) = (i8 t1.header.getCC + 1) % 16
      rw [i8_mod16, hc1, hc2])
    (by rw [hS2]; decide) hpl2 hoff2 hl2 (by omega)
    (by show 188 - off1 + (188 - off2) < 4294967296; omega)
    (by show pesh.m_PacketLength < 65536; omega)
  rw [if_neg (by
    show ¬ (pesh.m_PacketLength ≠ 0 ∧ pesh.m_PacketLength + 6 ≤ 188 - off1 + (188 - off2))
    omega)] at h2
  rw [← hA1] at h2
  obtain ⟨st2, hst2, hA2, hF2, hB2, hN2⟩ : ∃ st2 : mainState,
      mainLoopBody NOT_VALID st1 t2.packet = some st2 ∧
      st2.PES_Assembler =
        { m_PID := (xPES_Assembler.Init {} audioPID).m_PID
          m_Buffer := t1.packet.drop off1 ++ t2.packet.drop off2
          m_DataOffset := 188 - off1 + (188 - off2)
          m_LastContinuityCounter := i8 t2.header.getCC
          m_Started := true, m_PESH := pesh } ∧
      st2.audioFile = [] ∧ st2.totalAudioBytes = 0 ∧ st2.totalAudioPackets = 0 :=
    ⟨_, mainLoopBody_absorb NOT_VALID st1 t2.packet t2 f2 _ _ hd2 hf2 hp2 h2
        (fun h => eResult.noConfusion h),
      by rw [hA1], hF1, hB1, hN1⟩
  -- the third block finishes it
  have h3 := xPES_Assembler.AbsorbPacket_continue NOT_VALID
    { m_PID := (xPES_Assembler.Init {} audioPID).m_PID
      m_Buffer := t1.packet.drop off1 ++ t2.packet.drop off2
      m_DataOffset := 188 - off1 + (188 - off2), m_LastContinuityCounter := i8 t2.header.getCC
      m_Started := true, m_PESH := pesh }
    t3.packet t3.header t3.adaptationField off3 (by rw [hp3]; rfl) rfl
    (by
      show (t3.header.getCC : Int) = (i8 t2.header.getCC + 1) % 16
      rw [i8_mod16, hc2, hc3])
    (by rw [hS3]; decide) hpl3 hoff3 hl3 (by omega)
    (by show 188 - off1 + (188 - off2) + (188 - off3) < 4294967296; omega)
    (by show pesh.m_PacketLength < 65536; omega)
  rw [if_pos (by
    show pesh.m_PacketLength ≠ 0 ∧
      pesh.m_PacketLength + 6 ≤ 188 - off1 + (188 - off2) + (188 - off3)
    omega)] at h3
  have hbufP : t1.packet.drop off1 ++ t2.packet.drop off2 ++ t3.packet.drop off3 = P := by
    rw [hsplit, hdrop1, hdrop2, hdrop3]
  have hoffP : 188 - off1 + (188 - off2) + (188 - off3) = 300 + 6 := by omega
  obtain ⟨H, hH6, hH264, hext⟩ := mainAssemblingFinished_of_length P (300 + 6) hPlen
    (by omega) (by omega)
  rw [if_pos (by omega)] at hext
  have hnum : i32 ((300 + 6 : Nat) : Int) = ((300 + 6 : Nat) : Int) := by unfold i32; omega
  obtain ⟨s3, hs3, hs3buf, hs3num⟩ : ∃ s3 : xPES_Assembler,
      st2.PES_Assembler.AbsorbPacket NOT_VALID (some t3.packet) (some t3.header)
        t3.adaptationField = some (eResult.AssemblingFinished, s3) ∧
      s3.getPacket = P ∧ s3.getNumPacketBytes = ((300 + 6 : Nat) : Int) :=
    ⟨{ m_PID := (xPES_Assembler.Init {} audioPID).m_PID
       m_Buffer := t1.packet.drop off1 ++ t2.packet.drop off2 ++ t3.packet.drop off3
       m_DataOffset := 188 - off1 + (188 - off2) + (188 - off3)
       m_LastContinuityCounter := i8 t3.header.getCC
       m_Started := false, m_PESH := pesh },
      by rw [hA2]; exact h3, hbufP, by
        show i32 ((188 - off1 + (188 - off2) + (188 - off3) : Nat) : Int) = _
        rw [hoffP]
        exact hnum⟩
  have hb3 := mainLoopBody_finished NOT_VALID st2 t3.packet t3 f3 s3
    { headerLength := H, dataLength := ((300 + 6 : Nat) : Int) - H, written := P.drop H }
    hd3 hf3 hp3 hs3 (by rw [hs3buf, hs3num]; exact hext)
    (by
      rw [hs3num]
      show ((300 + 6 : Nat) : Int) - H > 0 ∧ (H : Int) < ((300 + 6 : Nat) : Int)
      omega)
  obtain ⟨st3, hst3, hF3, hB3, hN3, hA3⟩ : ∃ st3 : mainState,
      mainLoopBody NOT_VALID st2 t3.packet = some st3 ∧
      st3.audioFile = st2.audioFile ++ P.drop H ∧
      st3.totalAudioBytes = i32 (st2.totalAudioBytes + (((300 + 6 : Nat) : Int) - H)) ∧
      st3.totalAudioPackets = i32 (st2.totalAudioPackets + 1) ∧
      st3.PES_Assembler = s3 :=
    ⟨_, hb3, rfl, rfl, rfl, rfl⟩
  refine ⟨st3,
    { headerLength := H, dataLength := ((300 + 6 : Nat) : Int) - H, written := P.drop H },
    H, ?_, hext, rfl, hH6, by omega, ?_, ?_, ?_, ?_, ?_⟩
  · rw [mainLoop, if_neg (fun h => h hl1), hst1, Option.some_bind, mainLoop,
      if_neg (fun h => h hl2), hst2, Option.some_bind, mainLoop, if_neg (fun h => h hl3), hst3,
      Option.some_bind, mainLoop]
  · rw [hF3, hF2, List.nil_append]
  · rw [hF3, hF2, List.nil_append, List.length_drop, hPlen]
  · rw [hB3, hB2]
    unfold i32
    omega
  · rw [hN3, hN2]
    unfold i32
    omega
  · rw [hA3]
    exact hs3buf

set_option maxRecDepth 100000 in
/-- Witness of C13: the three blocks of `sampleStream300`, which carry
`samplePes300` (stream id 0xC0, PES header data length 5) in payloads of 184,
100 and 22 bytes. -/
theorem C13_end_to_end_witness :
    (((sampleTs 1 0 (samplePes300.take 184)).packet.length = 188 ∧
        (sampleTsAf 0 1 3 83
          (List.replicate 82 0xFF ++ (samplePes300.drop 184).take 100)).packet.length = 188 ∧
        (sampleTsAf 0 2 3 161
          (List.replicate 160 0xFF ++ samplePes300.drop 284)).packet.length = 188) ∧
      (mainDecode (-1) (sampleTs 1 0 (samplePes300.take 184)).packet =
          some (sampleTs 1 0 (samplePes300.take 184)) ∧
        mainDecode (-1) (sampleTsAf 0 1 3 83
            (List.replicate 82 0xFF ++ (samplePes300.drop 184).take 100)).packet =
          some (sampleTsAf 0 1 3 83
            (List.replicate 82 0xFF ++ (samplePes300.drop 184).take 100)) ∧
        mainDecode (-1) (sampleTsAf 0 2 3 161
            (List.replicate 160 0xFF ++ samplePes300.drop 284)).packet =
          some (sampleTsAf 0 2 3 161 (List.replicate 160 0xFF ++ samplePes300.drop 284))) ∧
      samplePes300 =
        (sampleTs 1 0 (samplePes300.take 184)).payload ++
          (sampleTsAf 0 1 3 83
            (List.replicate 82 0xFF ++ (samplePes300.drop 184).take 100)).payload ++
          (sampleTsAf 0 2 3 161 (List.replicate 160 0xFF ++ samplePes300.drop 284)).payload ∧
      sampleStream300 =
        [(sampleTs 1 0 (samplePes300.take 184)).packet,
          (sampleTsAf 0 1 3 83
            (List.replicate 82 0xFF ++ (samplePes300.drop 184).take 100)).packet,
          (sampleTsAf 0 2 3 161 (List.replicate 160 0xFF ++ samplePes300.drop 284)).packet]) ∧
    ∃ (st : mainState) (e : Extraction) (headerLength : Nat),
      mainLoop (-1) {}
          [(sampleTs 1 0 (samplePes300.take 184)).packet,
            (sampleTsAf 0 1 3 83
              (List.replicate 82 0xFF ++ (samplePes300.drop 184).take 100)).packet,
            (sampleTsAf 0 2 3 161
              (List.replicate 160 0xFF ++ samplePes300.drop 284)).packet] = some st ∧
      mainAssemblingFinished samplePes300 ((300 + 6 : Nat) : Int) = some e ∧
      e.headerLength = headerLength ∧ 6 ≤ headerLength ∧ headerLength < 300 + 6 ∧
      st.audioFile = samplePes300.drop headerLength ∧
      st.audioFile.length = 300 + 6 - headerLength ∧
      st.totalAudioBytes = ((300 + 6 - headerLength : Nat) : Int) ∧
      st.totalAudioPackets = 1 ∧
      st.PES_Assembler.getPacket = samplePes300 :=
  ⟨⟨by decide, by decide, by decide, by decide⟩,
    C13_end_to_end (-1) _ _ _ (sampleTs 1 0 (samplePes300.take 184))
      (sampleTsAf 0 1 3 83 (List.replicate 82 0xFF ++ (samplePes300.drop 184).take 100))
      (sampleTsAf 0 2 3 161 (List.replicate 160 0xFF ++ samplePes300.drop 284)) samplePes300
      (by decide) (by decide) (by decide) (by decide) (by decide) (by decide) (by decide)
      (by decide) (by decide)⟩

/-! ## AssemblingFinished comes from a continuation only -/

/-- On a non-null input `xPES_PacketHeader::Parse` returns 0 whenever it
returns. -/
theorem xPES_PacketHeader.Parse_rc (NOT_VALID : Int) (h0 : xPES_PacketHeader) (l : List Byte)
    (r : Int × xPES_PacketHeader)
    (h : xPES_PacketHeader.Parse NOT_VALID h0 (some l) = some r) : r.1 = 0 := by
  unfold xPES_PacketHeader.Parse at h
  simp only [] at h
  rw [Option.bind_eq_some] at h
  obtain ⟨b0, -, h⟩ := h
  rw [Option.bind_eq_some] at h
  obtain ⟨b1, -, h⟩ := h
  rw [Option.bind_eq_some] at h
  obtain ⟨b2, -, h⟩ := h
  rw [Option.bind_eq_some] at h
  obtain ⟨b3, -, h⟩ := h
  rw [Option.bind_eq_some] at h
  obtain ⟨b4, -, h⟩ := h
  rw [Option.bind_eq_some] at h
  obtain ⟨b5, -, h⟩ := h
  simp only [Option.some.injEq] at h
  rw [← h]

/-- The path of every call of `AbsorbPacket` on a non-null packet and header:
an answer `AssemblingFinished` comes from the continuation branch alone, and a
call without payload unit start keeps the stored PES header. -/
theorem xPES_Assembler.AbsorbPacket_finished (NOT_VALID : Int) (a b : xPES_Assembler)
    (pkt : List Byte) (hdr : xTS_PacketHeader) (af : Option xTS_AdaptationField) (r : eResult)
    (h : a.AbsorbPacket NOT_VALID (some pkt) (some hdr) af = some (r, b)) :
    (r = eResult.AssemblingFinished →
        hdr.getS ≠ 1 ∧ hdr.hasPayload = true ∧ (hdr.getPID : Int) = a.m_PID ∧
        a.m_Started = true ∧ b.m_Started = false ∧
        u16 b.m_PESH.getPacketLength > 0 ∧
        b.m_DataOffset ≥ u32 ((u16 b.m_PESH.getPacketLength : Int) + xTS.PES_HeaderLength)) ∧
      (hdr.getS ≠ 1 → b.m_PESH = a.m_PESH) := by
  unfold xPES_Assembler.AbsorbPacket at h
  simp only [] at h
  split at h
  · simp only [Option.some.injEq, Prod.mk.injEq] at h
    obtain ⟨rfl, rfl⟩ := h
    exact ⟨fun hh => eResult.noConfusion hh, fun _ => rfl⟩
  · rename_i hpid
    split at h
    · simp only [Option.some.injEq, Prod.mk.injEq] at h
      obtain ⟨rfl, rfl⟩ := h
      exact ⟨fun hh => eResult.noConfusion hh, fun _ => rfl⟩
    · rw [Option.bind_eq_some] at h
      obtain ⟨off, -, h⟩ := h
      have hstart : ∀ (a0 : xPES_Assembler) (res : eResult),
          ((xPES_PacketHeader.Parse NOT_VALID a0.m_PESH.Reset (some (pkt.drop off))).bind
            fun p =>
            if p.1 = 0 then
              (xPES_Assembler.xBufferAppend
                  { m_PID := a0.m_PID, m_Buffer := [], m_DataOffset := 0
                    m_LastContinuityCounter := a0.m_LastContinuityCounter, m_Started := true
                    m_PESH := p.2 }
                  (some (pkt.drop off))
                  (i32 (u32 ((xTS.TS_PacketLength : Int) - off)))).bind fun c =>
                some (eResult.AssemblingStarted, c)
            else
              some (res,
                { m_PID := a0.m_PID, m_Buffer := [], m_DataOffset := 0
                  m_LastContinuityCounter := a0.m_LastContinuityCounter
                  m_Started := a0.m_Started, m_PESH := p.2 })) = some (r, b) →
          r = eResult.AssemblingStarted := by
        intro a0 res h
        rw [Option.bind_eq_some] at h
        obtain ⟨p, hp, h⟩ := h
        rw [if_pos (xPES_PacketHeader.Parse_rc NOT_VALID _ _ p hp), Option.bind_eq_some] at h
        obtain ⟨c, -, h⟩ := h
        simp only [Option.some.injEq, Prod.mk.injEq] at h
        exact h.1.symm
      by_cases hS : hdr.getS = 1
      · rw [if_pos hS] at h
        have hr : r = eResult.AssemblingStarted := by
          by_cases hst : a.m_Started = true
          · rw [if_pos hst] at h
            exact hstart
              { a with m_Started := false, m_LastContinuityCounter := i8 hdr.getCC }
              eResult.AssemblingFinished h
          · rw [if_neg hst] at h
            exact hstart { a with m_LastContinuityCounter := i8 hdr.getCC }
              eResult.UnexpectedPID h
        subst hr
        exact ⟨fun hh => eResult.noConfusion hh, fun hne => absurd hS hne⟩
      · rw [if_neg hS] at h
        by_cases hcont : a.m_Started = true ∧ hdr.hasPayload = true
        · rw [if_pos hcont, Option.bind_eq_some] at h
          obtain ⟨c, hc, h⟩ := h
          obtain ⟨-, -, -, f4⟩ := xPES_Assembler.xBufferAppend_frame _ _ _ _ hc
          split at h
          · split at h
            · rename_i hfin
              simp only [Option.some.injEq, Prod.mk.injEq] at h
              obtain ⟨rfl, rfl⟩ := h
              exact ⟨fun _ => ⟨hS, hcont.2, not_not.mp hpid, hcont.1, rfl, hfin.1, hfin.2⟩,
                fun _ => f4⟩
            · simp only [Option.some.injEq, Prod.mk.injEq] at h
              obtain ⟨rfl, rfl⟩ := h
              exact ⟨fun hh => eResult.noConfusion hh, fun _ => f4⟩
          · simp only [Option.some.injEq, Prod.mk.injEq] at h
            obtain ⟨rfl, rfl⟩ := h
            exact ⟨fun hh => eResult.noConfusion hh, fun _ => f4⟩
        · rw [if_neg hcont] at h
          simp only [Option.some.injEq, Prod.mk.injEq] at h
          obtain ⟨rfl, rfl⟩ := h
          exact ⟨fun hh => eResult.noConfusion hh, fun _ => rfl⟩

/-- While the stored PES packet length is 0, no run of packets without payload
unit start is answered `AssemblingFinished`. -/
theorem absorbAll_unbounded (NOT_VALID : Int) (mid : List TsPacket) :
    ∀ a : xPES_Assembler, a.m_PESH.getPacketLength = 0 →
      (∀ q ∈ mid, q.header.getS ≠ 1) →
      eResult.AssemblingFinished ∉ (absorbAll NOT_VALID a mid).1 := by
  induction mid with
  | nil =>
    intro a _ _
    simp [absorbAll]
  | cons q qs ih =>
    intro a hlen hall
    cases hres : a.AbsorbPacket NOT_VALID (some q.packet) (some q.header) q.adaptationField with
    | none =>
      rw [absorbAll_cons_none NOT_VALID a q _ hres]
      simp
    | some rb =>
      obtain ⟨r, b⟩ := rb
      obtain ⟨hfin, hpesh⟩ :=
        xPES_Assembler.AbsorbPacket_finished NOT_VALID a b q.packet q.header q.adaptationField
          r hres
      have hb : b.m_PESH = a.m_PESH := hpesh (hall q (List.mem_cons_self _ _))
      rw [absorbAll_cons_some NOT_VALID a b q _ r hres]
      intro hmem
      rcases List.mem_cons.mp hmem with h1 | h1
      · obtain ⟨-, -, -, -, -, hpos, -⟩ := hfin h1.symm
        rw [hb, hlen] at hpos
        exact absurd hpos (by decide)
      · exact ih b (by rw [hb]; exact hlen)
          (fun x hx => hall x (List.mem_cons_of_mem _ hx)) h1

/-- A target-PID packet with payload unit start whose PES header fits discards
whatever the buffer holds: the call answers `AssemblingStarted` and the buffer
is the packet's payload, or it answers `StreamPackedLost` and the buffer is
empty. -/
theorem xPES_Assembler.AbsorbPacket_start_discards (NOT_VALID : Int) (a : xPES_Assembler)
    (pkt : List Byte) (hdr : xTS_PacketHeader) (af : Option xTS_AdaptationField) (off : Nat)
    (hpid : (hdr.getPID : Int) = a.m_PID) (hS : hdr.getS = 1)
    (hoff : xPES_Assembler.payloadStart hdr af = some off)
    (hlen : pkt.length = 188) (hfit : off + 6 ≤ 188) :
    ∃ (r : eResult) (b : xPES_Assembler),
      a.AbsorbPacket NOT_VALID (some pkt) (some hdr) af = some (r, b) ∧
      ((r = eResult.AssemblingStarted ∧ b.m_Buffer = pkt.drop off ∧
          b.m_DataOffset = 188 - off) ∨
        (r = eResult.StreamPackedLost ∧ b.m_Buffer = [] ∧ b.m_DataOffset = 0)) := by
  by_cases hcc : a.m_Started = true ∧
      (hdr.getCC : Int) ≠ (a.m_LastContinuityCounter + 1) % 16
  · exact ⟨_, _, xPES_Assembler.AbsorbPacket_lost NOT_VALID a pkt hdr af hpid hcc.1 hcc.2,
      Or.inr ⟨rfl, rfl, rfl⟩⟩
  · obtain ⟨pesh, -, h⟩ := xPES_Assembler.AbsorbPacket_start NOT_VALID a pkt hdr af off hpid
      (fun h1 => by_contra fun h2 => hcc ⟨h1, h2⟩) hS hoff hlen hfit
    exact ⟨_, _, h, Or.inl ⟨rfl, rfl, rfl⟩⟩

/-- C21: for every assembler state `a` (its stored PES packet length a
`uint16_t`) and every non-null packet with its header, a call of `AbsorbPacket`
that returns `AssemblingFinished` is a continuation: the packet has no payload
unit start (the field is not 1, hence 0 for a one-bit field), has payload and
the target PID, the assembler was assembling and is idle afterwards, the stored
PES packet length is unchanged and non-zero, and the accumulated length is at
least packet length + 6.  Consequently a packet with payload unit start never
returns `AssemblingFinished`, whatever its payload holds and whether or not an
assembly is in progress, and a call with stored packet length 0 never does.
From a state with stored packet length 0 no run of packets without payload
unit start is reported finished, and the next target-PID packet with payload
unit start whose PES header fits discards the accumulated bytes: the buffer is
then that packet's payload, or empty after `StreamPackedLost`. -/
theorem C21_finished_only_by_continuation (NOT_VALID : Int) (a b : xPES_Assembler)
    (pkt : List Byte) (hdr : xTS_PacketHeader) (af : Option xTS_AdaptationField) (r : eResult)
    (hL : a.m_PESH.getPacketLength < 65536)
    (h : a.AbsorbPacket NOT_VALID (some pkt) (some hdr) af = some (r, b)) :
    (r = eResult.AssemblingFinished →
        hdr.getS ≠ 1 ∧ (hdr.getS ≤ 1 → hdr.getS = 0) ∧ hdr.hasPayload = true ∧
        (hdr.getPID : Int) = a.m_PID ∧ a.m_Started = true ∧ b.m_Started = false ∧
        b.m_PESH = a.m_PESH ∧ b.m_PESH.getPacketLength ≠ 0 ∧
        b.m_DataOffset ≥ b.m_PESH.getPacketLength + 6) ∧
      (hdr.getS = 1 → r ≠ eResult.AssemblingFinished) ∧
      (a.m_PESH.getPacketLength = 0 → r ≠ eResult.AssemblingFinished) ∧
      (b.m_PESH.getPacketLength = 0 →
        ∀ mid : List TsPacket, (∀ q ∈ mid, q.header.getS ≠ 1) →
          eResult.AssemblingFinished ∉ (absorbAll NOT_VALID b mid).1 ∧
          ∀ (s : xPES_Assembler) (p : TsPacket) (off : Nat),
            (absorbAll NOT_VALID b mid).2 = some s →
            (p.header.getPID : Int) = s.m_PID → p.header.getS = 1 →
            xPES_Assembler.payloadStart p.header p.adaptationField = some off →
            p.packet.length = 188 → off + 6 ≤ 188 →
            ∃ (r2 : eResult) (b2 : xPES_Assembler),
              s.AbsorbPacket NOT_VALID (some p.packet) (some p.header) p.adaptationField =
                some (r2, b2) ∧
              ((r2 = eResult.AssemblingStarted ∧ b2.m_Buffer = p.packet.drop off ∧
                  b2.m_DataOffset = 188 - off) ∨
                (r2 = eResult.StreamPackedLost ∧ b2.m_Buffer = [] ∧ b2.m_DataOffset = 0))) := by
  obtain ⟨hfin, hpesh⟩ := xPES_Assembler.AbsorbPacket_finished NOT_VALID a b pkt hdr af r h
  have hcore : r = eResult.AssemblingFinished →
      hdr.getS ≠ 1 ∧ (hdr.getS ≤ 1 → hdr.getS = 0) ∧ hdr.hasPayload = true ∧
      (hdr.getPID : Int) = a.m_PID ∧ a.m_Started = true ∧ b.m_Started = false ∧
      b.m_PESH = a.m_PESH ∧ b.m_PESH.getPacketLength ≠ 0 ∧
      b.m_DataOffset ≥ b.m_PESH.getPacketLength + 6 := by
    intro hr
    obtain ⟨h1, h2, h3, h4, h5, h6, h7⟩ := hfin hr
    have hb : b.m_PESH = a.m_PESH := hpesh h1
    have hL2 : b.m_PESH.getPacketLength < 65536 := by rw [hb]; exact hL
    have hu16 : u16 b.m_PESH.getPacketLength = b.m_PESH.getPacketLength := by
      unfold u16; omega
    rw [hu16] at h6 h7
    have hu32 : u32 ((b.m_PESH.getPacketLength : Int) + xTS.PES_HeaderLength) =
        b.m_PESH.getPacketLength + 6 := by
      unfold u32 xTS.PES_HeaderLength; omega
    rw [hu32] at h7
    exact ⟨h1, fun hle => by omega, h2, h3, h4, h5, hb, by omega, h7⟩
  refine ⟨hcore, ?_, ?_, ?_⟩
  · intro hS hr
    exact (hcore hr).1 hS
  · intro h0 hr
    obtain ⟨-, -, -, -, -, -, hb, hne, -⟩ := hcore hr
    rw [hb] at hne
    exact hne h0
  · intro h0 mid hmid
    refine ⟨absorbAll_unbounded NOT_VALID mid b h0 hmid, ?_⟩
    intro s p off _ hpid hS hoff hlen hfit
    exact xPES_Assembler.AbsorbPacket_start_discards NOT_VALID s p.packet p.header
      p.adaptationField off hpid hS hoff hlen hfit

set_option maxRecDepth 100000 in
/-- Witness of C21: the second packet of `sampleGapAfterFinish`, a continuation
that completes the PES packet `samplePes 362`, absorbed in the state left by
the first packet, is answered `AssemblingFinished`; and the packet
`sampleTs 1 4 (samplePes 178)`, whose payload holds a whole PES packet and
which interrupts the assembly of `sampleAssembling`, is answered
`AssemblingStarted`. -/
theorem C21_finished_only_by_continuation_witness :
    ((362 < 65536 ∧
        xPES_Assembler.AbsorbPacket (-1)
            { m_PID := 136
              m_Buffer := (samplePes 362).take 184
              m_DataOffset := 184
              m_LastContinuityCounter := 0
              m_Started := true
              m_PESH :=
                { m_PacketStartCodePrefix := 1, m_StreamId := 0xC0, m_PacketLength := 362 } }
            (some (sampleTs 0 1 ((samplePes 362).drop 184)).packet)
            (some (sampleTs 0 1 ((samplePes 362).drop 184)).header) (some {}) =
          some (eResult.AssemblingFinished,
            { m_PID := 136
              m_Buffer := samplePes 362
              m_DataOffset := 368
              m_LastContinuityCounter := 1
              m_Started := false
              m_PESH :=
                { m_PacketStartCodePrefix := 1, m_StreamId := 0xC0, m_PacketLength := 362 } })) ∧
      (sampleTs 0 1 ((samplePes 362).drop 184)).header.getS = 0 ∧
      (sampleTs 0 1 ((samplePes 362).drop 184)).header.hasPayload = true ∧
      (368 : Nat) ≥ 362 + 6) ∧
    ((sampleAssembling.m_PESH.getPacketLength < 65536 ∧
        sampleAssembling.AbsorbPacket (-1) (some (sampleTs 1 4 (samplePes 178)).packet)
            (some (sampleTs 1 4 (samplePes 178)).header) (some {}) =
          some (eResult.AssemblingStarted,
            { m_PID := 136
              m_Buffer := samplePes 178
              m_DataOffset := 184
              m_LastContinuityCounter := 4
              m_Started := true
              m_PESH :=
                { m_PacketStartCodePrefix := 1, m_StreamId := 0xC0, m_PacketLength := 178 } })) ∧
      eResult.AssemblingStarted ≠ eResult.AssemblingFinished) :=
  ⟨⟨⟨by decide, by decide⟩,
      ((C21_finished_only_by_continuation (-1)
        { m_PID := 136
          m_Buffer := (samplePes 362).take 184
          m_DataOffset := 184
          m_LastContinuityCounter := 0
          m_Started := true
          m_PESH := { m_PacketStartCodePrefix := 1, m_StreamId := 0xC0, m_PacketLength := 362 } }
        { m_PID := 136
          m_Buffer := samplePes 362
          m_DataOffset := 368
          m_LastContinuityCounter := 1
          m_Started := false
          m_PESH := { m_PacketStartCodePrefix := 1, m_StreamId := 0xC0, m_PacketLength := 362 } }
        (sampleTs 0 1 ((samplePes 362).drop 184)).packet
        (sampleTs 0 1 ((samplePes 362).drop 184)).header (some {})
        eResult.AssemblingFinished (by decide) (by decide)).1 rfl).2.1 (by decide),
      ((C21_finished_only_by_continuation (-1)
        { m_PID := 136
          m_Buffer := (samplePes 362).take 184
          m_DataOffset := 184
          m_LastContinuityCounter := 0
          m_Started := true
          m_PESH := { m_PacketStartCodePrefix := 1, m_StreamId := 0xC0, m_PacketLength := 362 } }
        { m_PID := 136
          m_Buffer := samplePes 362
          m_DataOffset := 368
          m_LastContinuityCounter := 1
          m_Started := false
          m_PESH := { m_PacketStartCodePrefix := 1, m_StreamId := 0xC0, m_PacketLength := 362 } }
        (sampleTs 0 1 ((samplePes 362).drop 184)).packet
        (sampleTs 0 1 ((samplePes 362).drop 184)).header (some {})
        eResult.AssemblingFinished (by decide) (by decide)).1 rfl).2.2.1,
      ((C21_finished_only_by_continuation (-1)
        { m_PID := 136
          m_Buffer := (samplePes 362).take 184
          m_DataOffset := 184
          m_LastContinuityCounter := 0
          m_Started := true
          m_PESH := { m_PacketStartCodePrefix := 1, m_StreamId := 0xC0, m_PacketLength := 362 } }
        { m_PID := 136
          m_Buffer := samplePes 362
          m_DataOffset := 368
          m_LastContinuityCounter := 1
          m_Started := false
          m_PESH := { m_PacketStartCodePrefix := 1, m_StreamId := 0xC0, m_PacketLength := 362 } }
        (sampleTs 0 1 ((samplePes 362).drop 184)).packet
        (sampleTs 0 1 ((samplePes 362).drop 184)).header (some {})
        eResult.AssemblingFinished (by decide) (by decide)).1 rfl).2.2.2.2.2.2.2.2⟩,
    ⟨⟨by decide, by decide⟩,
      (C21_finished_only_by_continuation (-1) sampleAssembling
        { m_PID := 136
          m_Buffer := samplePes 178
          m_DataOffset := 184
          m_LastContinuityCounter := 4
          m_Started := true
          m_PESH := { m_PacketStartCodePrefix := 1, m_StreamId := 0xC0, m_PacketLength := 178 } }
        (sampleTs 1 4 (samplePes 178)).packet (sampleTs 1 4 (samplePes 178)).header (some {})
        eResult.AssemblingStarted (by decide) (by decide)).2.1 (by decide)⟩⟩

end MpegTs
